import Mathlib

/-!
# RTSP client core (libs/uni-rtsp/src/rtsp_client.c)

A shallow embedding of the session/connection state machine of the RTSP
client: request dispatch, response and event correlation, connection
creation and disconnect handling.

Pointers are modelled as indices into three heaps (sessions, connections,
request messages) held by the state; `NULL` is `none`.  Calls that leave the
component (application callbacks, the socket, the net task) are recorded in
a trace carried by the state, and their results are supplied by an
environment record.
-/

namespace RtspClient

/-! ## Basic types -/

/-- Pointer to a session object (`rtsp_client_session_t*`). -/
abbrev SessionPtr := Nat

/-- Pointer to a connection object (`rtsp_client_connection_t*`). -/
abbrev ConnectionPtr := Nat

/-- Pointer to a request message owned by the application (`rtsp_message_t*`). -/
abbrev MessagePtr := Nat

/-- Modulus of `apr_size_t` arithmetic (64-bit build); `++session->last_cseq`
wraps at this value. -/
def APR_SIZE_MODULUS : Nat := 2 ^ 64

/-- Counted string `apt_str_t`: a buffer and its length.  Characters stand
for bytes. -/
structure apt_str_t where
  buf : String
  length : Nat
deriving DecidableEq, Repr

/-- C `strlen` on a NUL-free string. -/
def strlen (s : String) : Nat := s.length

/-- Model of `apt_string_reset`: null buffer, zero length. -/
def apt_string_reset : apt_str_t := { buf := "", length := 0 }

/-- Model of `apt_string_assign`: duplicate the source and record `strlen`. -/
def apt_string_assign (src : String) : apt_str_t := { buf := src, length := strlen src }

/-- Message type stored in `start_line.message_type`. -/
inductive rtsp_message_type_e where
  | RTSP_MESSAGE_TYPE_UNKNOWN
  | RTSP_MESSAGE_TYPE_REQUEST
  | RTSP_MESSAGE_TYPE_RESPONSE
deriving DecidableEq, Repr

/-- Request methods; only `RTSP_METHOD_SETUP` is inspected by the client. -/
inductive rtsp_method_id where
  | RTSP_METHOD_SETUP
  | RTSP_METHOD_ANNOUNCE
  | RTSP_METHOD_TEARDOWN
  | RTSP_METHOD_DESCRIBE
  | RTSP_METHOD_OPTIONS
  | RTSP_METHOD_PLAY
  | RTSP_METHOD_PAUSE
deriving DecidableEq, Repr

/-- Status codes used by the client when it answers the server. -/
inductive rtsp_status_code_e where
  | RTSP_STATUS_CODE_UNKNOWN
  | RTSP_STATUS_CODE_OK
  | RTSP_STATUS_CODE_BAD_REQUEST
  | RTSP_STATUS_CODE_NOT_FOUND
  | RTSP_STATUS_CODE_OTHER (code : Nat)
deriving DecidableEq, Repr

/-- Numeric value of a status code on the wire. -/
def rtsp_status_code_e.value : rtsp_status_code_e → Nat
  | .RTSP_STATUS_CODE_UNKNOWN => 0
  | .RTSP_STATUS_CODE_OK => 200
  | .RTSP_STATUS_CODE_BAD_REQUEST => 400
  | .RTSP_STATUS_CODE_NOT_FOUND => 404
  | .RTSP_STATUS_CODE_OTHER code => code

/-- Reason phrases paired with the status codes above. -/
inductive rtsp_reason_phrase_e where
  | RTSP_REASON_PHRASE_UNKNOWN
  | RTSP_REASON_PHRASE_OK
  | RTSP_REASON_PHRASE_BAD_REQUEST
  | RTSP_REASON_PHRASE_NOT_FOUND
deriving DecidableEq, Repr

/-- Header fields tracked by the header property set. -/
inductive rtsp_header_field_id where
  | RTSP_HEADER_FIELD_CSEQ
  | RTSP_HEADER_FIELD_TRANSPORT
  | RTSP_HEADER_FIELD_SESSION_ID
  | RTSP_HEADER_FIELD_CONTENT_TYPE
  | RTSP_HEADER_FIELD_CONTENT_LENGTH
deriving DecidableEq, Repr

export rtsp_message_type_e (RTSP_MESSAGE_TYPE_UNKNOWN RTSP_MESSAGE_TYPE_REQUEST
  RTSP_MESSAGE_TYPE_RESPONSE)
export rtsp_method_id (RTSP_METHOD_SETUP RTSP_METHOD_ANNOUNCE RTSP_METHOD_TEARDOWN
  RTSP_METHOD_DESCRIBE RTSP_METHOD_OPTIONS RTSP_METHOD_PLAY RTSP_METHOD_PAUSE)
export rtsp_status_code_e (RTSP_STATUS_CODE_UNKNOWN RTSP_STATUS_CODE_OK
  RTSP_STATUS_CODE_BAD_REQUEST RTSP_STATUS_CODE_NOT_FOUND RTSP_STATUS_CODE_OTHER)
export rtsp_reason_phrase_e (RTSP_REASON_PHRASE_UNKNOWN RTSP_REASON_PHRASE_OK
  RTSP_REASON_PHRASE_BAD_REQUEST RTSP_REASON_PHRASE_NOT_FOUND)
export rtsp_header_field_id (RTSP_HEADER_FIELD_CSEQ RTSP_HEADER_FIELD_TRANSPORT
  RTSP_HEADER_FIELD_SESSION_ID RTSP_HEADER_FIELD_CONTENT_TYPE
  RTSP_HEADER_FIELD_CONTENT_LENGTH)

/-- Header property set: the header fields marked present (a bit mask in C). -/
abbrev rtsp_header_property_t := List rtsp_header_field_id

/-- Modelled from the spec: `rtsp_header_property_add` (defined in
rtsp_header.h, outside rtsp_client.c) marks a header field as present. -/
def rtsp_header_property_add (property_set : rtsp_header_property_t)
    (id : rtsp_header_field_id) : rtsp_header_property_t :=
  if id ∈ property_set then property_set else id :: property_set

/-- Modelled from the spec: `rtsp_header_property_check` (defined in
rtsp_header.h, outside rtsp_client.c) tells whether a header field is marked
present. -/
def rtsp_header_property_check (property_set : rtsp_header_property_t)
    (id : rtsp_header_field_id) : Bool :=
  decide (id ∈ property_set)

/-- The fields of `rtsp_message_t` the client reads or writes.  The start
line is a union of request line and status line in C; both views are kept
side by side. -/
structure rtsp_message_t where
  message_type : rtsp_message_type_e
  method_id : rtsp_method_id
  resource_name : String
  url : apt_str_t
  status_code : rtsp_status_code_e
  reason : rtsp_reason_phrase_e
  cseq : Nat
  session_id : apt_str_t
  property_set : rtsp_header_property_t
deriving DecidableEq, Repr

/-- Modelled from the spec: `rtsp_message_create` (defined in rtsp_message.c,
outside rtsp_client.c) returns a message of the given type with an empty
header. -/
def rtsp_message_create (message_type : rtsp_message_type_e) : rtsp_message_t :=
  { message_type := message_type
    method_id := RTSP_METHOD_SETUP
    resource_name := ""
    url := apt_string_reset
    status_code := RTSP_STATUS_CODE_UNKNOWN
    reason := RTSP_REASON_PHRASE_UNKNOWN
    cseq := 0
    session_id := apt_string_reset
    property_set := [] }

/-- Modelled from the spec: `rtsp_response_create` (defined in
rtsp_message.c, outside rtsp_client.c) builds a response with the given
status line for a request, echoing the CSeq that is available on the
request. -/
def rtsp_response_create (request : rtsp_message_t) (status_code : rtsp_status_code_e)
    (reason : rtsp_reason_phrase_e) : rtsp_message_t :=
  let response := rtsp_message_create RTSP_MESSAGE_TYPE_RESPONSE
  let response := { response with status_code := status_code, reason := reason }
  if rtsp_header_property_check request.property_set RTSP_HEADER_FIELD_CSEQ then
    { response with
      cseq := request.cseq
      property_set := rtsp_header_property_add response.property_set RTSP_HEADER_FIELD_CSEQ }
  else response

/-- RTSP session (`struct rtsp_client_session_t`), without the memory pool
and the opaque application object. -/
structure rtsp_client_session_t where
  connection : Option ConnectionPtr
  id : apt_str_t
  url : apt_str_t
  server_ip : apt_str_t
  server_port : Nat
  resource_location : apt_str_t
  last_cseq : Nat
  active_request : Option MessagePtr
  request_queue : List MessagePtr
  terminating : Bool
deriving DecidableEq, Repr

/-- RTSP connection (`struct rtsp_client_connection_t`).  `sock` tells
whether `base->sock` is non-null; the list element handle `it` is the
position of the connection in the connection list. -/
structure rtsp_client_connection_t where
  sock : Bool
  session_table : List (String × SessionPtr)
  pending_session_queue : List SessionPtr
deriving DecidableEq, Repr

/-- Calls that leave the component, in the order they are made. -/
inductive Output where
  /-- Call of `apt_net_client_connect(task, ip, port)` and the connection it returned. -/
  | connect (server_ip : String) (server_port : Nat) (result : Option ConnectionPtr)
  /-- Call of `rtsp_client_message_send` by `rtsp_client_session_request_process`
  for the request `request` of `session`, with the message as stamped. -/
  | request (session : SessionPtr) (connection : ConnectionPtr) (request : MessagePtr)
      (message : rtsp_message_t) (status : Bool)
  /-- Call of `rtsp_client_message_send` with a response composed by the client. -/
  | response (connection : ConnectionPtr) (message : rtsp_message_t) (status : Bool)
  /-- Callback `vtable->on_session_response(client, session, request, response)`. -/
  | on_session_response (session : SessionPtr) (request : MessagePtr)
      (response : rtsp_message_t)
  /-- Callback `vtable->on_session_event(client, session, message)`. -/
  | on_session_event (session : SessionPtr) (message : rtsp_message_t)
  /-- Call of `apt_net_client_connection_destroy(connection)`. -/
  | connection_destroy (connection : ConnectionPtr)
deriving DecidableEq, Repr

/-- Results of the calls into the net task, the codec and the socket made
while one task message or one received message is processed. -/
structure NetEnv where
  /-- Result of `apt_net_client_connect`: `none` for a null result, otherwise
  whether the new connection already has a socket. -/
  connect : Option Bool
  /-- Whether `rtsp_message_generate` returned `TRUE`. -/
  generate : Bool
  /-- Whether `apr_socket_send` returned `APR_SUCCESS`. -/
  socket_send : Bool
deriving DecidableEq, Repr

/-- The client (`struct rtsp_client_t`) together with the heaps its pointers
refer to and the trace of outward calls. -/
structure State where
  connection_list : Option (List ConnectionPtr)
  sessions : SessionPtr → rtsp_client_session_t
  connections : ConnectionPtr → rtsp_client_connection_t
  messages : MessagePtr → rtsp_message_t
  next_connection : ConnectionPtr
  trace : List Output

/-! ## Library helpers -/

/-- Key bytes passed to `apr_hash_get`/`apr_hash_set`: the first `length`
bytes of `buf`. -/
def apr_hash_key (s : apt_str_t) : String := String.mk (s.buf.data.take s.length)

/-- Lookup in an `apr_hash_t` keyed by byte strings. -/
def apr_hash_get (table : List (String × SessionPtr)) (key : String) : Option SessionPtr :=
  match table with
  | [] => none
  | (k, v) :: rest => if k = key then some v else apr_hash_get rest key

/-- Insertion into an `apr_hash_t`; an existing entry for the key is replaced. -/
def apr_hash_set (table : List (String × SessionPtr)) (key : String) (val : SessionPtr) :
    List (String × SessionPtr) :=
  (key, val) :: table.filter (fun e => decide (e.1 ≠ key))

/-- Number of entries of an `apr_hash_t`. -/
def apr_hash_count (table : List (String × SessionPtr)) : Nat := table.length

/-! ## The client -/

/-- Create RTSP session (`rtsp_client_session_create`). -/
def rtsp_client_session_create (server_ip : String) (server_port : Nat)
    (resource_location : String) : rtsp_client_session_t :=
  { connection := none
    last_cseq := 0
    active_request := none
    request_queue := []
    terminating := false
    server_ip := apt_string_assign server_ip
    server_port := server_port
    resource_location := apt_string_assign resource_location
    url := apt_string_reset
    id := apt_string_reset }

/-- Create RTSP connection (`rtsp_client_connection_create`). -/
def rtsp_client_connection_create (env : NetEnv) (st : State) (session : SessionPtr) :
    State × Bool :=
  let s := st.sessions session
  match env.connect with
  | none =>
    ({ st with trace := st.trace ++ [Output.connect s.server_ip.buf s.server_port none] }, false)
  | some sock =>
    let connection := st.next_connection
    let rtsp_connection : rtsp_client_connection_t :=
      { sock := sock, session_table := [], pending_session_queue := [] }
    let connection_list := st.connection_list.getD []
    ({ st with
        trace := st.trace ++ [Output.connect s.server_ip.buf s.server_port (some connection)]
        next_connection := connection + 1
        connections := Function.update st.connections connection rtsp_connection
        connection_list := some (connection_list ++ [connection])
        sessions := Function.update st.sessions session { s with connection := some connection } },
     true)

/-- Process session termination request
(`rtsp_client_session_terminate_process`). -/
def rtsp_client_session_terminate_process (st : State) (_session : SessionPtr) :
    State × Bool :=
  (st, true)

/-- Generate the request URL (`rtsp_client_session_url_generate`). -/
def rtsp_client_session_url_generate (session : rtsp_client_session_t)
    (message : rtsp_message_t) : rtsp_message_t :=
  let buf :=
    if session.resource_location.length ≠ 0 then
      "rtsp://" ++ session.server_ip.buf ++ ":" ++ toString session.server_port ++ "/"
        ++ session.resource_location.buf ++ "/" ++ message.resource_name
    else
      "rtsp://" ++ session.server_ip.buf ++ ":" ++ toString session.server_port ++ "/"
        ++ message.resource_name
  { message with url := { buf := buf, length := strlen buf } }

/-- Send RTSP message through RTSP connection (`rtsp_client_message_send`):
the status it returns.  The callers record the call in the trace. -/
def rtsp_client_message_send (env : NetEnv) (connection : rtsp_client_connection_t) : Bool :=
  if connection.sock then
    if env.generate then
      if env.socket_send then true else false
    else false
  else false

/-- Connection binding of `rtsp_client_session_request_process` (the block
under `if(!session->connection)`); the flag is `false` when the function
returns `FALSE` from it. -/
def rtsp_client_session_request_bind (env : NetEnv) (st : State) (session : SessionPtr)
    (message : MessagePtr) : State × Bool :=
  match (st.sessions session).connection with
  | some _ => (st, true)
  | none =>
    let created := rtsp_client_connection_create env st session
    if created.2 = false then (created.1, false)
    else
      let st1 := created.1
      if (st1.messages message).method_id = RTSP_METHOD_SETUP then
        match (st1.sessions session).connection with
        | some connection =>
          let c := st1.connections connection
          ({ st1 with
              connections := Function.update st1.connections connection
                { c with pending_session_queue := c.pending_session_queue ++ [session] } },
           true)
        | none => (st1, true)
      else (st1, true)

/-- Process outgoing RTSP request (`rtsp_client_session_request_process`). -/
def rtsp_client_session_request_process (env : NetEnv) (st : State) (session : SessionPtr)
    (message : MessagePtr) : State × Bool :=
  let bound := rtsp_client_session_request_bind env st session message
  if bound.2 = false then (bound.1, false)
  else
    let st1 := bound.1
    let s := st1.sessions session
    let m := rtsp_client_session_url_generate s (st1.messages message)
    let cseq := (s.last_cseq + 1) % APR_SIZE_MODULUS
    let m := { m with
      cseq := cseq
      property_set := rtsp_header_property_add m.property_set RTSP_HEADER_FIELD_CSEQ }
    let st2 := { st1 with
      sessions := Function.update st1.sessions session { s with last_cseq := cseq }
      messages := Function.update st1.messages message m }
    match s.connection with
    | some connection =>
      let status := rtsp_client_message_send env (st2.connections connection)
      ({ st2 with trace := st2.trace ++ [Output.request session connection message m status] },
       status)
    | none => (st2, false)

/-- Queue or dispatch a submitted request
(`rtsp_client_session_message_process`). -/
def rtsp_client_session_message_process (env : NetEnv) (st : State) (session : SessionPtr)
    (message : MessagePtr) : State × Bool :=
  let s := st.sessions session
  match s.active_request with
  | some _ =>
    ({ st with
        sessions := Function.update st.sessions session
          { s with request_queue := s.request_queue ++ [message] } },
     true)
  | none =>
    let st1 := { st with
      sessions := Function.update st.sessions session { s with active_request := some message } }
    rtsp_client_session_request_process env st1 session message

/-- The response `rtsp_client_session_event_process` composes when the
session of the request is found (the statements under `if(session)` before
the callback). -/
def session_event_response_found (message : rtsp_message_t) : rtsp_message_t :=
  let response := rtsp_response_create message RTSP_STATUS_CODE_OK RTSP_REASON_PHRASE_OK
  if rtsp_header_property_check message.property_set RTSP_HEADER_FIELD_SESSION_ID then
    { response with
      session_id := message.session_id
      property_set :=
        rtsp_header_property_add response.property_set RTSP_HEADER_FIELD_SESSION_ID }
  else response

/-- The response `rtsp_client_session_event_process` composes when no session
is found (the `else` branch and the statements after it, before the send). -/
def session_event_response_not_found (message : rtsp_message_t) : rtsp_message_t :=
  let response :=
    rtsp_response_create message RTSP_STATUS_CODE_NOT_FOUND RTSP_REASON_PHRASE_NOT_FOUND
  if rtsp_header_property_check message.property_set RTSP_HEADER_FIELD_CSEQ then
    { response with
      cseq := message.cseq
      property_set :=
        rtsp_header_property_add response.property_set RTSP_HEADER_FIELD_SESSION_ID }
  else response

/-- Process incoming RTSP event (request)
(`rtsp_client_session_event_process`). -/
def rtsp_client_session_event_process (env : NetEnv) (st : State)
    (rtsp_connection : ConnectionPtr) (message : rtsp_message_t) : State × Bool :=
  let c := st.connections rtsp_connection
  let session : Option SessionPtr :=
    if rtsp_header_property_check message.property_set RTSP_HEADER_FIELD_SESSION_ID then
      apr_hash_get c.session_table (apr_hash_key message.session_id)
    else none
  match session with
  | some s =>
    let response := session_event_response_found message
    let status := rtsp_client_message_send env c
    ({ st with
        trace := st.trace ++
          [Output.on_session_event s message, Output.response rtsp_connection response status] },
     status)
  | none =>
    let response := session_event_response_not_found message
    let status := rtsp_client_message_send env c
    ({ st with trace := st.trace ++ [Output.response rtsp_connection response status] }, status)

/-- The scan of `pending_session_queue` in
`rtsp_client_session_response_process`: the first session whose `last_cseq`
equals the CSeq of the response, and the queue without that element. -/
def pending_session_scan (sessions : SessionPtr → rtsp_client_session_t) (cseq : Nat) :
    List SessionPtr → Option (SessionPtr × List SessionPtr)
  | [] => none
  | new_session :: rest =>
    if (sessions new_session).last_cseq = cseq then some (new_session, rest)
    else
      match pending_session_scan sessions cseq rest with
      | some (session, queue) => some (session, new_session :: queue)
      | none => none

/-- Target session of a response that carries a Session-ID: the lookup in
`session_table` and, on a miss, the promotion of a pending session
(`rtsp_client_session_response_process`, the block under the Session-ID
check up to `if(session)`). -/
def rtsp_client_session_find (st : State) (rtsp_connection : ConnectionPtr)
    (message : rtsp_message_t) : State × Option SessionPtr :=
  let c := st.connections rtsp_connection
  match apr_hash_get c.session_table (apr_hash_key message.session_id) with
  | some session => (st, some session)
  | none =>
    match pending_session_scan st.sessions message.cseq c.pending_session_queue with
    | none => (st, none)
    | some (session, queue) =>
      let s := { st.sessions session with id := message.session_id }
      ({ st with
          sessions := Function.update st.sessions session s
          connections := Function.update st.connections rtsp_connection
            { c with
              pending_session_queue := queue
              session_table := apr_hash_set c.session_table (apr_hash_key s.id) session } },
       some session)

/-- Process incoming RTSP response
(`rtsp_client_session_response_process`). -/
def rtsp_client_session_response_process (env : NetEnv) (st : State)
    (rtsp_connection : ConnectionPtr) (message : rtsp_message_t) : State × Bool :=
  if message.message_type = RTSP_MESSAGE_TYPE_REQUEST then
    rtsp_client_session_event_process env st rtsp_connection message
  else if rtsp_header_property_check message.property_set RTSP_HEADER_FIELD_SESSION_ID then
    let found := rtsp_client_session_find st rtsp_connection message
    let st1 := found.1
    match found.2 with
    | none => (st1, true)
    | some session =>
      let s := st1.sessions session
      match s.active_request with
      | none => (st1, false)
      | some active_request =>
        let trace := st1.trace ++ [Output.on_session_response session active_request message]
        match s.request_queue with
        | [] =>
          ({ st1 with
              trace := trace
              sessions := Function.update st1.sessions session
                { s with active_request := none } },
           true)
        | next :: rest =>
          let st2 := { st1 with
            trace := trace
            sessions := Function.update st1.sessions session
              { s with active_request := some next, request_queue := rest } }
          ((rtsp_client_session_request_process env st2 session next).1, true)
  else (st, true)

/-- RTSP connection disconnected (`rtsp_client_on_disconnect`). -/
def rtsp_client_on_disconnect (st : State) (connection : ConnectionPtr) : State :=
  let remaining := (st.connection_list.getD []).erase connection
  let connection_list := if remaining.isEmpty then none else some remaining
  let st1 := { st with connection_list := connection_list }
  let remaining_sessions := apr_hash_count (st1.connections connection).session_table
  if remaining_sessions ≠ 0 then st1
  else { st1 with trace := st1.trace ++ [Output.connection_destroy connection] }

/-- Task messages (`task_msg_data_t`) and net task callbacks driving the
client. -/
inductive Event where
  /-- Task message `TASK_MSG_SEND_MESSAGE`. -/
  | SendMessage (session : SessionPtr) (message : MessagePtr) (env : NetEnv)
  /-- Task message `TASK_MSG_TERMINATE_SESSION`. -/
  | TerminateSession (session : SessionPtr)
  /-- One message decoded from the bytes received on a connection and handed
  to `rtsp_client_session_response_process`. -/
  | Message (connection : ConnectionPtr) (message : rtsp_message_t) (env : NetEnv)
  /-- Net task callback `on_disconnect`. -/
  | Disconnect (connection : ConnectionPtr)

/-- Process task message (`rtsp_client_task_msg_process`) or a net task
callback. -/
def step (st : State) : Event → State
  | .SendMessage session message env =>
    (rtsp_client_session_message_process env st session message).1
  | .TerminateSession session => (rtsp_client_session_terminate_process st session).1
  | .Message connection message env =>
    (rtsp_client_session_response_process env st connection message).1
  | .Disconnect connection => rtsp_client_on_disconnect st connection

/-- Run a sequence of events, oldest first. -/
def run (st : State) (events : List Event) : State := events.foldl step st

/-- The client after `rtsp_client_create`, with sessions as
`rtsp_client_session_create` returns them and the request messages the
application holds. -/
def rtsp_client_create (params : SessionPtr → String × Nat × String)
    (messages : MessagePtr → rtsp_message_t) : State :=
  { connection_list := none
    sessions := fun i => rtsp_client_session_create (params i).1 (params i).2.1 (params i).2.2
    connections := fun _ => { sock := false, session_table := [], pending_session_queue := [] }
    messages := messages
    next_connection := 0
    trace := [] }

/-- The client after processing `events`, starting from `rtsp_client_create`
with freshly created sessions. -/
def rtsp_client_run (params : SessionPtr → String × Nat × String)
    (messages : MessagePtr → rtsp_message_t) (events : List Event) : State :=
  run (rtsp_client_create params messages) events

/-! ## Observations on traces and event sequences -/

/-- The request of `session` handed to the sender by a trace entry, if the
entry is one: the message pointer and the message as stamped. -/
def Output.request_of (session : SessionPtr) : Output → Option (MessagePtr × rtsp_message_t)
  | .request s _ r m _ => if s = session then some (r, m) else none
  | _ => none

/-- The original request passed to `on_session_response` for `session` by a
trace entry, if the entry is such a callback. -/
def Output.callback_of (session : SessionPtr) : Output → Option MessagePtr
  | .on_session_response s r _ => if s = session then some r else none
  | _ => none

/-- Requests of `session` handed to the sender, oldest first. -/
def requests_sent (session : SessionPtr) (trace : List Output) :
    List (MessagePtr × rtsp_message_t) :=
  trace.filterMap (Output.request_of session)

/-- CSeq values stamped on the requests of `session` handed to the sender,
oldest first. -/
def stamped_cseqs (session : SessionPtr) (trace : List Output) : List Nat :=
  (requests_sent session trace).map (fun r => r.2.cseq)

/-- Original requests passed to `on_session_response` for `session`, oldest
first. -/
def response_callbacks (session : SessionPtr) (trace : List Output) : List MessagePtr :=
  trace.filterMap (Output.callback_of session)

/-- The message submitted for `session` by an event, if it is a
`SendMessage` for that session. -/
def Event.submission_of (session : SessionPtr) : Event → Option MessagePtr
  | .SendMessage s m _ => if s = session then some m else none
  | _ => none

/-- Messages submitted for `session`, in submission order. -/
def submitted (session : SessionPtr) (events : List Event) : List MessagePtr :=
  events.filterMap (Event.submission_of session)

/-- Whether connection creation succeeds whenever the event attempts it. -/
def Event.connect_ok : Event → Bool
  | .SendMessage _ _ env => env.connect.isSome
  | .Message _ _ env => env.connect.isSome
  | _ => true

/-- The CSeq values `1, 2, ..., n` as `apr_size_t` values. -/
def cseq_sequence (n : Nat) : List Nat :=
  (List.range n).map (fun i => (i + 1) % APR_SIZE_MODULUS)

/-- The request as `rtsp_client_session_request_process` leaves it for a
session whose state before the stamp is `s`: URL generated, CSeq set to the
incremented `last_cseq`, CSeq header marked present. -/
def stamped_request (s : rtsp_client_session_t) (message : rtsp_message_t) : rtsp_message_t :=
  { rtsp_client_session_url_generate s message with
    cseq := (s.last_cseq + 1) % APR_SIZE_MODULUS
    property_set := rtsp_header_property_add
      (rtsp_client_session_url_generate s message).property_set RTSP_HEADER_FIELD_CSEQ }

/-- Invariant behind CSeq monotonicity: the CSeq values stamped so far on the
requests of a session are `1, 2, ..., n` (as `apr_size_t` values), the
session's `last_cseq` is the last of them, and every request handed to the
sender has its CSeq header marked present. -/
def CseqInv (st : State) : Prop :=
  ∀ session : SessionPtr, ∃ n : Nat,
    stamped_cseqs session st.trace = cseq_sequence n ∧
    (st.sessions session).last_cseq = n % APR_SIZE_MODULUS ∧
    ∀ r ∈ requests_sent session st.trace,
      rtsp_header_property_check r.2.property_set RTSP_HEADER_FIELD_CSEQ = true

/-! ## A concrete scenario -/

/-- Environment in which connecting, encoding and sending all succeed. -/
def env_ok : NetEnv := { connect := some true, generate := true, socket_send := true }

/-- Environment in which the connection is created but `apr_socket_send`
fails. -/
def env_send_failed : NetEnv := { connect := some true, generate := true, socket_send := false }

/-- Environment in which `apt_net_client_connect` returns null. -/
def env_connect_failed : NetEnv := { connect := none, generate := true, socket_send := true }

/-- Session parameters of the scenario: every session targets
`10.0.0.1:554` with resource location `media`. -/
def scenario_params : SessionPtr → String × Nat × String :=
  fun _ => ("10.0.0.1", 554, "media")

/-- A request for the resource `audio` as the application builds it. -/
def scenario_request (method_id : rtsp_method_id) : rtsp_message_t :=
  { rtsp_message_create RTSP_MESSAGE_TYPE_REQUEST with
    method_id := method_id, resource_name := "audio" }

/-- Request messages of the scenario: 0 is a SETUP, 1 a PLAY, 2 a PAUSE and
every other one a TEARDOWN. -/
def scenario_messages : MessagePtr → rtsp_message_t
  | 0 => scenario_request RTSP_METHOD_SETUP
  | 1 => scenario_request RTSP_METHOD_PLAY
  | 2 => scenario_request RTSP_METHOD_PAUSE
  | _ => scenario_request RTSP_METHOD_TEARDOWN

/-- A `200 OK` response with the given CSeq and Session-ID, as decoded. -/
def scenario_response (cseq : Nat) (session_id : String) : rtsp_message_t :=
  { rtsp_message_create RTSP_MESSAGE_TYPE_RESPONSE with
    status_code := RTSP_STATUS_CODE_OK
    reason := RTSP_REASON_PHRASE_OK
    cseq := cseq
    session_id := apt_string_assign session_id
    property_set := [RTSP_HEADER_FIELD_SESSION_ID, RTSP_HEADER_FIELD_CSEQ] }

/-- Initial state of the scenario. -/
def scenario_init : State := rtsp_client_create scenario_params scenario_messages

/-- Scan of a trace for pipeline depth: `outstanding` tells whether a request
of `session` has been handed to the sender and has no correlated response
yet.  The scan fails (`none`) if a request of the session is handed to the
sender while another one is outstanding, or if `on_session_response` is
invoked for the session while none is; otherwise it returns the flag at the
end of the trace. -/
def pipeline_scan (session : SessionPtr) : Bool → List Output → Option Bool
  | outstanding, [] => some outstanding
  | outstanding, .request s _ _ _ _ :: rest =>
    if s = session then
      if outstanding then none else pipeline_scan session true rest
    else pipeline_scan session outstanding rest
  | outstanding, .on_session_response s _ _ :: rest =>
    if s = session then
      if outstanding then pipeline_scan session false rest else none
    else pipeline_scan session outstanding rest
  | outstanding, _ :: rest => pipeline_scan session outstanding rest

/-- Pipeline invariant: for every session the requests handed to the sender
and the correlated responses alternate in the trace, and a request is
outstanding exactly when `active_request` is set. -/
def PipelineInv (st : State) : Prop :=
  ∀ session : SessionPtr,
    pipeline_scan session false st.trace =
      some (st.sessions session).active_request.isSome

/-- Placement invariant: a session found in the pending queue or in the
session table of a connection is bound to that connection, and a connection
holds at most one session, either pending or established. -/
def BindInv (st : State) : Prop :=
  (∀ c s, s ∈ (st.connections c).pending_session_queue →
    (st.sessions s).connection = some c) ∧
  (∀ c e, e ∈ (st.connections c).session_table → (st.sessions e.2).connection = some c) ∧
  (∀ c, (st.connections c).session_table.length +
    (st.connections c).pending_session_queue.length ≤ 1)

/-- Session invariant of the data model: an active request carries the
session's `last_cseq`.  `owner s m` tells that the message `m` was submitted
for the session `s`; active and queued requests belong to their session. -/
def ActiveCseqInv (st : State) (owner : SessionPtr → MessagePtr → Prop) : Prop :=
  (∀ s m, ((st.sessions s).active_request = some m ∨ m ∈ (st.sessions s).request_queue) →
    owner s m) ∧
  (∀ s m, (st.sessions s).active_request = some m →
    (st.sessions s).last_cseq = (st.messages m).cseq)

/-- Request messages that were used before: each one is a SETUP for `audio`
that still carries the CSeq 7 of an earlier exchange. -/
def stale_messages : MessagePtr → rtsp_message_t :=
  fun _ => { scenario_request RTSP_METHOD_SETUP with cseq := 7 }

/-- Requests of `session` handed to the sender, as message pointers, oldest
first. -/
def sent_pointers (session : SessionPtr) (trace : List Output) : List MessagePtr :=
  (requests_sent session trace).map Prod.fst

/-- FIFO bookkeeping of one session against the list `sub` of the messages
submitted for it: answered requests, then the active one, then the queue;
the requests handed to the sender are the answered ones and the active one,
unless the session never got a connection. -/
def FifoAt (st : State) (sub : List MessagePtr) (s : SessionPtr) : Prop :=
  sub = response_callbacks s st.trace ++ (st.sessions s).active_request.toList ++
    (st.sessions s).request_queue ∧
  ((st.sessions s).active_request = none → (st.sessions s).request_queue = []) ∧
  ((st.sessions s).connection ≠ none →
    sent_pointers s st.trace =
      response_callbacks s st.trace ++ (st.sessions s).active_request.toList) ∧
  ((st.sessions s).connection = none →
    sent_pointers s st.trace = [] ∧ response_callbacks s st.trace = [])

/-- FIFO bookkeeping of all sessions. -/
def FifoInv (st : State) (sub : SessionPtr → List MessagePtr) : Prop :=
  ∀ s, FifoAt st (sub s) s

/-- Scenario S2 before the PLAY response: the SETUP of session 0 was answered
with Session `ABC123`, then PLAY (message 1) and PAUSE (message 2) were
submitted; PLAY is on the wire with CSeq 2 and PAUSE sits in the queue. -/
def scenario_play_active : State :=
  run scenario_init
    [Event.SendMessage 0 0 env_ok, Event.Message 0 (scenario_response 1 "ABC123") env_ok,
      Event.SendMessage 0 1 env_ok, Event.SendMessage 0 2 env_ok]

/-- A server-originated ANNOUNCE request with the given CSeq and Session-ID,
as decoded. -/
def scenario_announce (cseq : Nat) (session_id : String) : rtsp_message_t :=
  { rtsp_message_create RTSP_MESSAGE_TYPE_REQUEST with
    method_id := RTSP_METHOD_ANNOUNCE
    cseq := cseq
    session_id := apt_string_assign session_id
    property_set := [RTSP_HEADER_FIELD_SESSION_ID, RTSP_HEADER_FIELD_CSEQ] }

/-- Scenario S3 before the ANNOUNCE: session 0 is established on connection
0 under the Session-ID `ABC123`. -/
def scenario_established : State :=
  run scenario_init
    [Event.SendMessage 0 0 env_ok, Event.Message 0 (scenario_response 1 "ABC123") env_ok]

/-! ## Receiving messages -/

/-- Size of the buffers of `rtsp_client_message_send` and
`rtsp_client_message_receive` (`RTSP_MESSAGE_MAX_SIZE`). -/
def RTSP_MESSAGE_MAX_SIZE : Nat := 2048

/-- Outcome of one call of `rtsp_message_parse(message, &text_stream)`: the
status returned, the message as the parser left it, and the position of the
stream relative to the start of the text (`text_stream.pos -
text_stream.text.buf`). -/
structure ParseResult where
  status : Bool
  message : rtsp_message_t
  pos : Nat
deriving DecidableEq, Repr

/-- The parser `rtsp_message_parse` (rtsp_message.c, outside rtsp_client.c),
taken as a parameter: what it does on a fresh message with the stream
positioned at the start of the remaining text. -/
abbrev Decoder := List Char → ParseResult

/-- Body of the do-while loop of `rtsp_client_message_receive` up to the
check for more messages: one message is parsed from the remaining text and
either processed or answered with `400 Bad Request`. -/
def rtsp_client_message_receive_one (parse : Decoder) (env : NetEnv) (st : State)
    (connection : ConnectionPtr) (text : List Char) : State :=
  let parsed := parse text
  if parsed.status then
    (rtsp_client_session_response_process env st connection parsed.message).1
  else
    let response := rtsp_response_create parsed.message RTSP_STATUS_CODE_BAD_REQUEST
      RTSP_REASON_PHRASE_BAD_REQUEST
    let status := rtsp_client_message_send env (st.connections connection)
    { st with trace := st.trace ++ [Output.response connection response status] }

/-- The do-while loop of `rtsp_client_message_receive`, with `fuel` bounding
the number of iterations (`none` when it runs out); `env i` holds the results
of the outward calls made during iteration `i`. -/
def rtsp_client_message_receive_loop (parse : Decoder) (env : Nat → NetEnv) :
    Nat → Nat → State → ConnectionPtr → List Char → Option State
  | 0, _, _, _, _ => none
  | fuel + 1, i, st, connection, text =>
    let st1 := rtsp_client_message_receive_one parse (env i) st connection text
    let pos := (parse text).pos
    if text.length > pos then
      rtsp_client_message_receive_loop parse env fuel (i + 1) st1 connection (text.drop pos)
    else some st1

/-- Receive RTSP message through RTSP connection
(`rtsp_client_message_receive`).  `received` is what `apr_socket_recv` put
into the buffer, `none` standing for `APR_EOF`. -/
def rtsp_client_message_receive (parse : Decoder) (env : Nat → NetEnv) (fuel : Nat)
    (st : State) (connection : ConnectionPtr) (received : Option (List Char)) :
    Option (State × Bool) :=
  if (st.connections connection).sock = false then some (st, false)
  else
    match received with
    | none => some (st, false)
    | some text =>
      if text.length = 0 then some (st, false)
      else
        match rtsp_client_message_receive_loop parse env fuel 0 st connection text with
        | some st1 => some (st1, true)
        | none => none

/-! ## Further scenarios -/

/-- Scenario S4: with session 0 established under `ABC123`, the server sends
an ANNOUNCE with CSeq 77 for the unknown Session-ID `ZZZ`. -/
def scenario_unknown_announce : rtsp_message_t := scenario_announce 77 "ZZZ"

/-- Scenario S1 before the TEARDOWN response: SETUP and PLAY of session 0
were answered, the TEARDOWN (message 3) is on the wire with CSeq 3. -/
def scenario_teardown_active : State :=
  run scenario_init
    [Event.SendMessage 0 0 env_ok, Event.Message 0 (scenario_response 1 "ABC123") env_ok,
      Event.SendMessage 0 1 env_ok, Event.Message 0 (scenario_response 2 "ABC123") env_ok,
      Event.SendMessage 0 3 env_ok]

/-- Scenario S5 before the disconnect: session 0 is established on
connection 0 under the Session-ID `DEF456`. -/
def scenario_def456 : State :=
  run scenario_init
    [Event.SendMessage 0 0 env_ok, Event.Message 0 (scenario_response 1 "DEF456") env_ok]

/-- A `404 Not Found` response with the given CSeq and, if any, Session-ID,
as decoded. -/
def scenario_error_response (cseq : Nat) (session_id : Option String) : rtsp_message_t :=
  { rtsp_message_create RTSP_MESSAGE_TYPE_RESPONSE with
    status_code := RTSP_STATUS_CODE_NOT_FOUND
    reason := RTSP_REASON_PHRASE_NOT_FOUND
    cseq := cseq
    session_id :=
      match session_id with
      | some id => apt_string_assign id
      | none => apt_string_reset
    property_set :=
      match session_id with
      | some _ => [RTSP_HEADER_FIELD_SESSION_ID, RTSP_HEADER_FIELD_CSEQ]
      | none => [RTSP_HEADER_FIELD_CSEQ] }

/-- Scenario with the SETUP of session 0 on the wire (CSeq 1) and the session
in the pending queue of connection 0. -/
def scenario_setup_pending : State :=
  run scenario_init [Event.SendMessage 0 0 env_ok]

/-- A decoder that rejects every text and consumes all of it, leaving the
message as created. -/
def scenario_reject_all : Decoder :=
  fun text =>
    { status := false
      message := rtsp_message_create RTSP_MESSAGE_TYPE_UNKNOWN
      pos := text.length }

/-! ## The receive loop as a sequence of decode calls -/

/-- The texts handed to the decoder by the loop of
`rtsp_client_message_receive`, in the order of the calls: the received text
first, then each time the text left after the parser position, until the
position reaches or passes the end of the text (`none` when `fuel` calls do
not suffice). -/
def decoded_texts (parse : Decoder) : Nat → List Char → Option (List (List Char))
  | 0, _ => none
  | fuel + 1, text =>
    if text.length > (parse text).pos then
      match decoded_texts parse fuel (text.drop (parse text).pos) with
      | some rest => some (text :: rest)
      | none => none
    else some [text]

/-- The loop body of `rtsp_client_message_receive` applied to a list of
texts, one after the other, iteration `i` first. -/
def rtsp_client_message_receive_fold (parse : Decoder) (env : Nat → NetEnv) :
    Nat → State → ConnectionPtr → List (List Char) → State
  | _, st, _, [] => st
  | i, st, connection, text :: rest =>
    rtsp_client_message_receive_fold parse env (i + 1)
      (rtsp_client_message_receive_one parse (env i) st connection text) connection rest

/-- A sequence of `SendMessage` task messages for one session. -/
def send_messages (session : SessionPtr) (later : List (MessagePtr × NetEnv)) : List Event :=
  later.map (fun p => Event.SendMessage session p.1 p.2)

/-- A decoder that rejects every text and consumes one byte of it, leaving
the message as created. -/
def scenario_reject_byte : Decoder :=
  fun _ =>
    { status := false
      message := rtsp_message_create RTSP_MESSAGE_TYPE_UNKNOWN
      pos := 1 }

/-- A state with three sessions in the pending queue of connection 0, in the
order 2, 0, 1: session 2 has `last_cseq` 5, sessions 0 and 1 both have
`last_cseq` 1; all three are bound to connection 0 with their SETUP
(message 0, 1 or 2) active. -/
def scenario_three_pending : State :=
  { connection_list := some [0]
    sessions := fun i =>
      { rtsp_client_session_create "10.0.0.1" 554 "media" with
        connection := some 0
        last_cseq := if i = 2 then 5 else 1
        active_request := some i }
    connections := fun i =>
      if i = 0 then { sock := true, session_table := [], pending_session_queue := [2, 0, 1] }
      else { sock := false, session_table := [], pending_session_queue := [] }
    messages := scenario_messages
    next_connection := 1
    trace := [] }

end RtspClient

/-! ## Basic facts -/

namespace RtspClient

theorem run_nil (st : State) : run st [] = st := rfl

theorem run_cons (st : State) (e : Event) (events : List Event) :
    run st (e :: events) = run (step st e) events := rfl

theorem run_append (st : State) (xs ys : List Event) :
    run st (xs ++ ys) = run (run st xs) ys := by
  simp [run, List.foldl_append]

/-- An invariant kept by every step holds after every run. -/
theorem run_invariant (P : State → Prop) (hstep : ∀ st e, P st → P (step st e)) :
    ∀ (events : List Event) (st : State), P st → P (run st events) := by
  intro events
  induction events with
  | nil => intro st h; exact h
  | cons e rest ih => intro st h; exact ih (step st e) (hstep st e h)

/-- Dispatch over a bound connection: no connection is created, the request
is stamped and handed to the sender. -/
theorem request_process_bound (env : NetEnv) (st : State) (session : SessionPtr)
    (message : MessagePtr) (connection : ConnectionPtr)
    (hc : (st.sessions session).connection = some connection) :
    rtsp_client_session_request_process env st session message =
      (let s := st.sessions session
       let m := stamped_request s (st.messages message)
       let status := rtsp_client_message_send env (st.connections connection)
       ({ st with
           sessions := Function.update st.sessions session { s with last_cseq := m.cseq }
           messages := Function.update st.messages message m
           trace := st.trace ++ [Output.request session connection message m status] },
        status)) := by
  simp [rtsp_client_session_request_process, rtsp_client_session_request_bind, hc,
    stamped_request]

/-- Dispatch for a detached session when connection creation fails: only the
connect attempt is recorded and the function returns `FALSE`. -/
theorem request_process_connect_failed (env : NetEnv) (st : State) (session : SessionPtr)
    (message : MessagePtr) (hc : (st.sessions session).connection = none)
    (he : env.connect = none) :
    rtsp_client_session_request_process env st session message =
      ({ st with
          trace := st.trace ++
            [Output.connect (st.sessions session).server_ip.buf
              (st.sessions session).server_port none] },
       false) := by
  simp [rtsp_client_session_request_process, rtsp_client_session_request_bind,
    rtsp_client_connection_create, hc, he]

/-- Dispatch for a detached session when connection creation succeeds: a
fresh connection is created and listed, the session joins its pending queue
if the request is a SETUP, and the request is stamped and handed to the
sender. -/
theorem request_process_connect_ok (env : NetEnv) (st : State) (session : SessionPtr)
    (message : MessagePtr) (sock : Bool) (hc : (st.sessions session).connection = none)
    (he : env.connect = some sock) :
    rtsp_client_session_request_process env st session message =
      (let c := st.next_connection
       let s := { st.sessions session with connection := some c }
       let conn : rtsp_client_connection_t :=
         { sock := sock
           session_table := []
           pending_session_queue :=
             if (st.messages message).method_id = RTSP_METHOD_SETUP then [session] else [] }
       let m := stamped_request s (st.messages message)
       let status := rtsp_client_message_send env conn
       ({ connection_list := some (st.connection_list.getD [] ++ [c])
          sessions := Function.update st.sessions session { s with last_cseq := m.cseq }
          connections := Function.update st.connections c conn
          messages := Function.update st.messages message m
          next_connection := c + 1
          trace := st.trace ++
            [Output.connect (st.sessions session).server_ip.buf
              (st.sessions session).server_port (some c)] ++
            [Output.request session c message m status] },
        status)) := by
  by_cases hs : (st.messages message).method_id = RTSP_METHOD_SETUP <;>
  simp [rtsp_client_session_request_process, rtsp_client_session_request_bind,
    rtsp_client_connection_create, hc, he, hs, stamped_request]

theorem property_check_add (property_set : rtsp_header_property_t)
    (id : rtsp_header_field_id) :
    rtsp_header_property_check (rtsp_header_property_add property_set id) id = true := by
  unfold rtsp_header_property_check rtsp_header_property_add
  by_cases h : id ∈ property_set <;> simp [h]

theorem cseq_sequence_succ (n : Nat) :
    cseq_sequence (n + 1) = cseq_sequence n ++ [(n + 1) % APR_SIZE_MODULUS] := by
  simp [cseq_sequence, List.range_succ]

theorem cseq_sequence_length (n : Nat) : (cseq_sequence n).length = n := by
  simp [cseq_sequence]

@[simp]
theorem requests_sent_append (session : SessionPtr) (xs ys : List Output) :
    requests_sent session (xs ++ ys) = requests_sent session xs ++ requests_sent session ys := by
  simp [requests_sent]

theorem stamped_cseqs_append (session : SessionPtr) (xs ys : List Output) :
    stamped_cseqs session (xs ++ ys) = stamped_cseqs session xs ++ stamped_cseqs session ys := by
  simp [stamped_cseqs]

@[simp]
theorem response_callbacks_append (session : SessionPtr) (xs ys : List Output) :
    response_callbacks session (xs ++ ys) =
      response_callbacks session xs ++ response_callbacks session ys := by
  simp [response_callbacks]

@[simp]
theorem requests_sent_nil (s : SessionPtr) : requests_sent s [] = [] := rfl

@[simp]
theorem requests_sent_cons_request (s session : SessionPtr) (c : ConnectionPtr)
    (r : MessagePtr) (m : rtsp_message_t) (status : Bool) (rest : List Output) :
    requests_sent s (Output.request session c r m status :: rest) =
      (if s = session then [(r, m)] else []) ++ requests_sent s rest := by
  by_cases h : session = s
  · simp [requests_sent, Output.request_of, h]
  · simp [requests_sent, Output.request_of, h, Ne.symm h]

@[simp]
theorem requests_sent_cons_connect (s : SessionPtr) (a : String) (b : Nat)
    (c : Option ConnectionPtr) (rest : List Output) :
    requests_sent s (Output.connect a b c :: rest) = requests_sent s rest := by
  simp [requests_sent, Output.request_of]

@[simp]
theorem requests_sent_cons_response (s : SessionPtr) (c : ConnectionPtr) (m : rtsp_message_t)
    (status : Bool) (rest : List Output) :
    requests_sent s (Output.response c m status :: rest) = requests_sent s rest := by
  simp [requests_sent, Output.request_of]

@[simp]
theorem requests_sent_cons_callback (s session : SessionPtr) (r : MessagePtr)
    (m : rtsp_message_t) (rest : List Output) :
    requests_sent s (Output.on_session_response session r m :: rest) =
      requests_sent s rest := by
  simp [requests_sent, Output.request_of]

@[simp]
theorem requests_sent_cons_event (s session : SessionPtr) (m : rtsp_message_t)
    (rest : List Output) :
    requests_sent s (Output.on_session_event session m :: rest) = requests_sent s rest := by
  simp [requests_sent, Output.request_of]

@[simp]
theorem requests_sent_cons_destroy (s : SessionPtr) (c : ConnectionPtr) (rest : List Output) :
    requests_sent s (Output.connection_destroy c :: rest) = requests_sent s rest := by
  simp [requests_sent, Output.request_of]

@[simp]
theorem response_callbacks_nil (s : SessionPtr) : response_callbacks s [] = [] := rfl

@[simp]
theorem response_callbacks_cons_callback (s session : SessionPtr) (r : MessagePtr)
    (m : rtsp_message_t) (rest : List Output) :
    response_callbacks s (Output.on_session_response session r m :: rest) =
      (if s = session then [r] else []) ++ response_callbacks s rest := by
  by_cases h : session = s
  · simp [response_callbacks, Output.callback_of, h]
  · simp [response_callbacks, Output.callback_of, h, Ne.symm h]

@[simp]
theorem response_callbacks_cons_request (s session : SessionPtr) (c : ConnectionPtr)
    (r : MessagePtr) (m : rtsp_message_t) (status : Bool) (rest : List Output) :
    response_callbacks s (Output.request session c r m status :: rest) =
      response_callbacks s rest := by
  simp [response_callbacks, Output.callback_of]

@[simp]
theorem response_callbacks_cons_connect (s : SessionPtr) (a : String) (b : Nat)
    (c : Option ConnectionPtr) (rest : List Output) :
    response_callbacks s (Output.connect a b c :: rest) = response_callbacks s rest := by
  simp [response_callbacks, Output.callback_of]

@[simp]
theorem response_callbacks_cons_response (s : SessionPtr) (c : ConnectionPtr)
    (m : rtsp_message_t) (status : Bool) (rest : List Output) :
    response_callbacks s (Output.response c m status :: rest) = response_callbacks s rest := by
  simp [response_callbacks, Output.callback_of]

@[simp]
theorem response_callbacks_cons_event (s session : SessionPtr) (m : rtsp_message_t)
    (rest : List Output) :
    response_callbacks s (Output.on_session_event session m :: rest) =
      response_callbacks s rest := by
  simp [response_callbacks, Output.callback_of]

@[simp]
theorem response_callbacks_cons_destroy (s : SessionPtr) (c : ConnectionPtr)
    (rest : List Output) :
    response_callbacks s (Output.connection_destroy c :: rest) = response_callbacks s rest := by
  simp [response_callbacks, Output.callback_of]

/-- The CSeq invariant only looks at `last_cseq` and at the requests in the
trace. -/
theorem CseqInv.cseq_congr {st st1 : State} (h : CseqInv st)
    (hl : ∀ s, (st1.sessions s).last_cseq = (st.sessions s).last_cseq)
    (ht : ∀ s, requests_sent s st1.trace = requests_sent s st.trace) : CseqInv st1 := by
  intro s
  obtain ⟨n, h1, h2, h3⟩ := h s
  refine ⟨n, ?_, ?_, ?_⟩
  · simpa [stamped_cseqs, ht s] using h1
  · rw [hl s]; exact h2
  · rw [ht s]; exact h3

/-- One stamped request of `session` appended to the trace keeps the CSeq
invariant. -/
theorem CseqInv.stamp {st st1 : State} (h : CseqInv st) (session : SessionPtr)
    (r : MessagePtr) (m : rtsp_message_t)
    (hm : m.cseq = ((st.sessions session).last_cseq + 1) % APR_SIZE_MODULUS)
    (hp : rtsp_header_property_check m.property_set RTSP_HEADER_FIELD_CSEQ = true)
    (hl : ∀ s, (st1.sessions s).last_cseq =
      if s = session then m.cseq else (st.sessions s).last_cseq)
    (ht : ∀ s, requests_sent s st1.trace =
      requests_sent s st.trace ++ if s = session then [(r, m)] else []) : CseqInv st1 := by
  intro s
  obtain ⟨n, h1, h2, h3⟩ := h s
  by_cases hs : s = session
  · subst hs
    refine ⟨n + 1, ?_, ?_, ?_⟩
    · simp only [stamped_cseqs] at h1 ⊢
      rw [ht s, cseq_sequence_succ]
      simp [h1, hm, h2]
    · rw [hl s]; simp [hm, h2]
    · rw [ht s]
      intro x hx
      simp at hx
      rcases hx with hx | hx
      · exact h3 x hx
      · subst hx; exact hp
  · refine ⟨n, ?_, ?_, ?_⟩
    · simp only [stamped_cseqs] at h1 ⊢
      rw [ht s]; simp [hs, h1]
    · rw [hl s]; simp [hs, h2]
    · rw [ht s]; simpa [hs] using h3

theorem CseqInv.cseq_request_process {st : State} (h : CseqInv st) (env : NetEnv)
    (session : SessionPtr) (message : MessagePtr) :
    CseqInv (rtsp_client_session_request_process env st session message).1 := by
  cases hc : (st.sessions session).connection with
  | some c =>
    rw [request_process_bound env st session message c hc]
    refine h.stamp session message (stamped_request (st.sessions session) (st.messages message))
      rfl (property_check_add _ _) ?_ ?_
    · intro s
      by_cases hs : s = session <;> simp [hs, Function.update_apply]
    · intro s
      simp
  | none =>
    cases he : env.connect with
    | none =>
      rw [request_process_connect_failed env st session message hc he]
      exact h.cseq_congr (fun _ => rfl)
        (fun s => by simp)
    | some sock =>
      rw [request_process_connect_ok env st session message sock hc he]
      refine h.stamp session message
        (stamped_request { st.sessions session with connection := some st.next_connection }
          (st.messages message))
        rfl (property_check_add _ _) ?_ ?_
      · intro s
        by_cases hs : s = session <;> simp [hs, Function.update_apply]
      · intro s
        simp

/-- A request submitted while another one is active is only queued. -/
theorem message_process_queued (env : NetEnv) (st : State) (session : SessionPtr)
    (message active : MessagePtr) (ha : (st.sessions session).active_request = some active) :
    rtsp_client_session_message_process env st session message =
      ({ st with
          sessions := Function.update st.sessions session
            { st.sessions session with
              request_queue := (st.sessions session).request_queue ++ [message] } },
       true) := by
  simp [rtsp_client_session_message_process, ha]

/-- A request submitted to an idle session becomes the active request and is
dispatched. -/
theorem message_process_idle (env : NetEnv) (st : State) (session : SessionPtr)
    (message : MessagePtr) (ha : (st.sessions session).active_request = none) :
    rtsp_client_session_message_process env st session message =
      rtsp_client_session_request_process env
        { st with
          sessions := Function.update st.sessions session
            { st.sessions session with active_request := some message } }
        session message := by
  simp [rtsp_client_session_message_process, ha]

theorem response_process_request (env : NetEnv) (st : State) (c : ConnectionPtr)
    (message : rtsp_message_t) (ht : message.message_type = RTSP_MESSAGE_TYPE_REQUEST) :
    rtsp_client_session_response_process env st c message =
      rtsp_client_session_event_process env st c message := by
  simp [rtsp_client_session_response_process, ht]

theorem response_process_no_session_id (env : NetEnv) (st : State) (c : ConnectionPtr)
    (message : rtsp_message_t) (ht : message.message_type ≠ RTSP_MESSAGE_TYPE_REQUEST)
    (hp : rtsp_header_property_check message.property_set RTSP_HEADER_FIELD_SESSION_ID = false) :
    rtsp_client_session_response_process env st c message = (st, true) := by
  simp [rtsp_client_session_response_process, ht, hp]

theorem response_process_no_target (env : NetEnv) (st : State) (c : ConnectionPtr)
    (message : rtsp_message_t) (ht : message.message_type ≠ RTSP_MESSAGE_TYPE_REQUEST)
    (hp : rtsp_header_property_check message.property_set RTSP_HEADER_FIELD_SESSION_ID = true)
    (hf : (rtsp_client_session_find st c message).2 = none) :
    rtsp_client_session_response_process env st c message =
      ((rtsp_client_session_find st c message).1, true) := by
  simp [rtsp_client_session_response_process, ht, hp, hf]

theorem response_process_spurious (env : NetEnv) (st : State) (c : ConnectionPtr)
    (message : rtsp_message_t) (session : SessionPtr)
    (ht : message.message_type ≠ RTSP_MESSAGE_TYPE_REQUEST)
    (hp : rtsp_header_property_check message.property_set RTSP_HEADER_FIELD_SESSION_ID = true)
    (hf : (rtsp_client_session_find st c message).2 = some session)
    (ha : ((rtsp_client_session_find st c message).1.sessions session).active_request = none) :
    rtsp_client_session_response_process env st c message =
      ((rtsp_client_session_find st c message).1, false) := by
  simp [rtsp_client_session_response_process, ht, hp, hf, ha]

/-- A correlated response with nothing queued: the callback is made and the
session becomes idle. -/
theorem response_process_last (env : NetEnv) (st : State) (c : ConnectionPtr)
    (message : rtsp_message_t) (session : SessionPtr) (active : MessagePtr)
    (ht : message.message_type ≠ RTSP_MESSAGE_TYPE_REQUEST)
    (hp : rtsp_header_property_check message.property_set RTSP_HEADER_FIELD_SESSION_ID = true)
    (hf : (rtsp_client_session_find st c message).2 = some session)
    (ha : ((rtsp_client_session_find st c message).1.sessions session).active_request =
      some active)
    (hq : ((rtsp_client_session_find st c message).1.sessions session).request_queue = []) :
    rtsp_client_session_response_process env st c message =
      (let st1 := (rtsp_client_session_find st c message).1
       ({ st1 with
           trace := st1.trace ++ [Output.on_session_response session active message]
           sessions := Function.update st1.sessions session
             { st1.sessions session with active_request := none } },
        true)) := by
  simp [rtsp_client_session_response_process, ht, hp, hf, ha, hq]

/-- A correlated response with a queued request: the callback is made, the
front of the queue becomes the active request and is dispatched. -/
theorem response_process_next (env : NetEnv) (st : State) (c : ConnectionPtr)
    (message : rtsp_message_t) (session : SessionPtr) (active next : MessagePtr)
    (rest : List MessagePtr)
    (ht : message.message_type ≠ RTSP_MESSAGE_TYPE_REQUEST)
    (hp : rtsp_header_property_check message.property_set RTSP_HEADER_FIELD_SESSION_ID = true)
    (hf : (rtsp_client_session_find st c message).2 = some session)
    (ha : ((rtsp_client_session_find st c message).1.sessions session).active_request =
      some active)
    (hq : ((rtsp_client_session_find st c message).1.sessions session).request_queue =
      next :: rest) :
    rtsp_client_session_response_process env st c message =
      (let st1 := (rtsp_client_session_find st c message).1
       ((rtsp_client_session_request_process env
          { st1 with
            trace := st1.trace ++ [Output.on_session_response session active message]
            sessions := Function.update st1.sessions session
              { st1.sessions session with active_request := some next, request_queue := rest } }
          session next).1,
        true)) := by
  simp [rtsp_client_session_response_process, ht, hp, hf, ha, hq]

theorem CseqInv.cseq_message_process {st : State} (h : CseqInv st) (env : NetEnv)
    (session : SessionPtr) (message : MessagePtr) :
    CseqInv (rtsp_client_session_message_process env st session message).1 := by
  cases ha : (st.sessions session).active_request with
  | some a =>
    rw [message_process_queued env st session message a ha]
    refine h.cseq_congr ?_ (fun _ => rfl)
    intro s
    by_cases hs : s = session <;> simp [hs, Function.update_apply]
  | none =>
    rw [message_process_idle env st session message ha]
    apply CseqInv.cseq_request_process
    refine h.cseq_congr ?_ (fun _ => rfl)
    intro s
    by_cases hs : s = session <;> simp [hs, Function.update_apply]

/-- The event path leaves everything but the trace alone, and adds neither
requests nor response callbacks to it. -/
theorem event_process_state (env : NetEnv) (st : State) (c : ConnectionPtr)
    (message : rtsp_message_t) :
    ∃ extra : List Output,
      (rtsp_client_session_event_process env st c message).1 =
        { st with trace := st.trace ++ extra } ∧
      (∀ s, requests_sent s extra = []) ∧ (∀ s, response_callbacks s extra = []) ∧
      (∀ s b, pipeline_scan s b extra = some b) := by
  unfold rtsp_client_session_event_process
  simp only []
  split
  · exact ⟨_, rfl, fun s => by simp, fun s => by simp, fun s b => by simp [pipeline_scan]⟩
  · exact ⟨_, rfl, fun s => by simp, fun s => by simp, fun s b => by simp [pipeline_scan]⟩

/-- The lookup of the target session changes neither the trace nor any
`last_cseq`, active request or request queue. -/
theorem session_find_frame (st : State) (c : ConnectionPtr) (message : rtsp_message_t) :
    (rtsp_client_session_find st c message).1.trace = st.trace ∧
    (rtsp_client_session_find st c message).1.messages = st.messages ∧
    (rtsp_client_session_find st c message).1.connection_list = st.connection_list ∧
    (rtsp_client_session_find st c message).1.next_connection = st.next_connection ∧
    ∀ s, ((rtsp_client_session_find st c message).1.sessions s).last_cseq =
        (st.sessions s).last_cseq ∧
      ((rtsp_client_session_find st c message).1.sessions s).active_request =
        (st.sessions s).active_request ∧
      ((rtsp_client_session_find st c message).1.sessions s).request_queue =
        (st.sessions s).request_queue ∧
      ((rtsp_client_session_find st c message).1.sessions s).connection =
        (st.sessions s).connection := by
  unfold rtsp_client_session_find
  simp only []
  split
  · simp
  · split
    · simp
    · refine ⟨rfl, rfl, rfl, rfl, ?_⟩
      intro s
      rename_i session queue _
      by_cases hs : s = session <;> simp [hs, Function.update_apply]

theorem CseqInv.cseq_response_process {st : State} (h : CseqInv st) (env : NetEnv)
    (c : ConnectionPtr) (message : rtsp_message_t) :
    CseqInv (rtsp_client_session_response_process env st c message).1 := by
  by_cases ht : message.message_type = RTSP_MESSAGE_TYPE_REQUEST
  · obtain ⟨extra, h1, h2, _, _⟩ := event_process_state env st c message
    rw [response_process_request env st c message ht, h1]
    exact h.cseq_congr (fun _ => rfl) (fun s => by simp [h2 s])
  cases hp : rtsp_header_property_check message.property_set RTSP_HEADER_FIELD_SESSION_ID with
  | false => rw [response_process_no_session_id env st c message ht hp]; exact h
  | true =>
    have hf := session_find_frame st c message
    have h1 : CseqInv (rtsp_client_session_find st c message).1 :=
      h.cseq_congr (fun s => (hf.2.2.2.2 s).1) (fun s => by rw [hf.1])
    cases hfind : (rtsp_client_session_find st c message).2 with
    | none => rw [response_process_no_target env st c message ht hp hfind]; exact h1
    | some session =>
      cases ha : ((rtsp_client_session_find st c message).1.sessions session).active_request with
      | none => rw [response_process_spurious env st c message session ht hp hfind ha]; exact h1
      | some active =>
        cases hq : ((rtsp_client_session_find st c message).1.sessions session).request_queue with
        | nil =>
          rw [response_process_last env st c message session active ht hp hfind ha hq]
          refine h1.cseq_congr ?_ ?_
          · intro s
            by_cases hs : s = session <;> simp [hs, Function.update_apply]
          · intro s; simp
        | cons next rest =>
          rw [response_process_next env st c message session active next rest ht hp hfind ha hq]
          apply CseqInv.cseq_request_process
          refine h1.cseq_congr ?_ ?_
          · intro s
            by_cases hs : s = session <;> simp [hs, Function.update_apply]
          · intro s; simp

theorem CseqInv.cseq_step {st : State} (h : CseqInv st) (e : Event) : CseqInv (step st e) := by
  cases e with
  | SendMessage session message env => exact h.cseq_message_process env session message
  | TerminateSession session => exact h
  | Message connection message env => exact h.cseq_response_process env connection message
  | Disconnect connection =>
    show CseqInv (rtsp_client_on_disconnect st connection)
    unfold rtsp_client_on_disconnect
    simp only []
    split
    · exact h.cseq_congr (fun _ => rfl) (fun _ => rfl)
    · exact h.cseq_congr (fun _ => rfl) (fun s => by simp)

theorem CseqInv.cseq_create (params : SessionPtr → String × Nat × String)
    (messages : MessagePtr → rtsp_message_t) : CseqInv (rtsp_client_create params messages) := by
  intro s
  refine ⟨0, ?_, ?_, ?_⟩
  · simp [rtsp_client_create, stamped_cseqs, cseq_sequence]
  · simp [rtsp_client_create, rtsp_client_session_create]
  · simp [rtsp_client_create]

theorem cseq_sequence_eq_range (n : Nat) (h : n < APR_SIZE_MODULUS) :
    cseq_sequence n = List.range' 1 n := by
  rw [List.range'_eq_map_range, cseq_sequence]
  apply List.map_congr_left
  intro i hi
  have hi' : i < n := List.mem_range.mp hi
  rw [Nat.mod_eq_of_lt (by omega)]
  omega

/-! ## C1: CSeq monotonicity -/

/-- C1 (CSeq monotonicity): after any sequence of events from the state in
which all sessions are freshly created, the CSeq values stamped on the
requests of a session handed to the sender are `1, 2, ..., n` (strictly
increasing, the first one is 1), `last_cseq` is the number of stamps made so
far (each stamp adds one and puts the new value on the message), and each of
these requests has its CSeq header marked present, as long as fewer than
`2 ^ 64` requests were stamped (no overflow of `last_cseq`). -/
theorem C1_cseq_monotonicity (params : SessionPtr → String × Nat × String)
    (messages : MessagePtr → rtsp_message_t) (events : List Event) (session : SessionPtr)
    (hno : (stamped_cseqs session (rtsp_client_run params messages events).trace).length <
      APR_SIZE_MODULUS) :
    stamped_cseqs session (rtsp_client_run params messages events).trace =
      List.range' 1 (stamped_cseqs session (rtsp_client_run params messages events).trace).length ∧
    (stamped_cseqs session (rtsp_client_run params messages events).trace).Pairwise
      (fun a b => a < b) ∧
    (stamped_cseqs session (rtsp_client_run params messages events).trace ≠ [] →
      (stamped_cseqs session (rtsp_client_run params messages events).trace).head? = some 1) ∧
    ((rtsp_client_run params messages events).sessions session).last_cseq =
      (stamped_cseqs session (rtsp_client_run params messages events).trace).length ∧
    ∀ r ∈ requests_sent session (rtsp_client_run params messages events).trace,
      rtsp_header_property_check r.2.property_set RTSP_HEADER_FIELD_CSEQ = true := by
  have hinv : CseqInv (rtsp_client_run params messages events) :=
    run_invariant CseqInv (fun st e h => h.cseq_step e) events _ (CseqInv.cseq_create params messages)
  obtain ⟨n, h1, h2, h3⟩ := hinv session
  have hlen : (stamped_cseqs session (rtsp_client_run params messages events).trace).length = n := by
    rw [h1, cseq_sequence_length]
  rw [hlen] at hno ⊢
  have hr := cseq_sequence_eq_range n hno
  rw [h1, hr]
  refine ⟨rfl, ?_, ?_, ?_, h3⟩
  · exact List.pairwise_lt_range' 1 n
  · intro hne
    cases n with
    | zero => simp at hne
    | succ k => simp [List.range'_succ]
  · rw [h2, Nat.mod_eq_of_lt hno]

/-- Witness for C1: one SETUP submitted on a fresh session is stamped with
CSeq 1. -/
theorem C1_cseq_monotonicity_witness :
    (stamped_cseqs 0 (rtsp_client_run scenario_params scenario_messages
      [Event.SendMessage 0 0 env_ok]).trace).length < APR_SIZE_MODULUS ∧
    stamped_cseqs 0 (rtsp_client_run scenario_params scenario_messages
      [Event.SendMessage 0 0 env_ok]).trace = [1] ∧
    ((rtsp_client_run scenario_params scenario_messages
      [Event.SendMessage 0 0 env_ok]).sessions 0).last_cseq = 1 := by
  have h := C1_cseq_monotonicity scenario_params scenario_messages
    [Event.SendMessage 0 0 env_ok] 0 (by decide)
  exact ⟨by decide, by rw [h.1]; decide, by rw [h.2.2.2.1]; decide⟩

/-! ## C2: queue discipline -/

/-- C2 (queue discipline): when the session already has an active request,
`rtsp_client_session_message_process` returns success and its only effect is
to append the message at the back of the session's request queue: the trace
is unchanged (nothing is sent, no connect is attempted), no connection is
created, and the active request, `last_cseq`, the message heap (so the
message's url and cseq), all connections (pending queues and session tables)
and all other sessions are unchanged. -/
theorem C2_queue_discipline (env : NetEnv) (st : State) (session : SessionPtr)
    (message : MessagePtr) (hactive : (st.sessions session).active_request ≠ none) :
    (rtsp_client_session_message_process env st session message).2 = true ∧
    ((rtsp_client_session_message_process env st session message).1.sessions session) =
      { st.sessions session with
        request_queue := (st.sessions session).request_queue ++ [message] } ∧
    (∀ s, s ≠ session →
      (rtsp_client_session_message_process env st session message).1.sessions s =
        st.sessions s) ∧
    (rtsp_client_session_message_process env st session message).1.trace = st.trace ∧
    (rtsp_client_session_message_process env st session message).1.messages = st.messages ∧
    (rtsp_client_session_message_process env st session message).1.connections =
      st.connections ∧
    (rtsp_client_session_message_process env st session message).1.connection_list =
      st.connection_list ∧
    (rtsp_client_session_message_process env st session message).1.next_connection =
      st.next_connection := by
  cases ha : (st.sessions session).active_request with
  | none => exact absurd ha hactive
  | some active =>
    rw [message_process_queued env st session message active ha]
    refine ⟨rfl, by simp, ?_, rfl, rfl, rfl, rfl, rfl⟩
    intro s hs
    simp [Function.update_apply, hs]

/-- Witness for C2: with the SETUP (message 0) active on session 0, the
submitted PLAY (message 1) is queued and nothing else changes. -/
theorem C2_queue_discipline_witness :
    ((run scenario_init [Event.SendMessage 0 0 env_ok]).sessions 0).active_request ≠ none ∧
    ((rtsp_client_session_message_process env_ok
      (run scenario_init [Event.SendMessage 0 0 env_ok]) 0 1).1.sessions 0).request_queue = [1] ∧
    (rtsp_client_session_message_process env_ok
      (run scenario_init [Event.SendMessage 0 0 env_ok]) 0 1).1.trace =
      (run scenario_init [Event.SendMessage 0 0 env_ok]).trace := by
  have h := C2_queue_discipline env_ok (run scenario_init [Event.SendMessage 0 0 env_ok]) 0 1
    (by decide)
  exact ⟨by decide, by rw [h.2.1]; decide, h.2.2.2.1⟩

/-! ## C3: pipeline depth -/

theorem pipeline_scan_append (session : SessionPtr) (xs ys : List Output) (b : Bool) :
    pipeline_scan session b (xs ++ ys) =
      (pipeline_scan session b xs).bind (fun b1 => pipeline_scan session b1 ys) := by
  induction xs generalizing b with
  | nil => simp [pipeline_scan]
  | cons x rest ih =>
    cases x <;> simp only [List.cons_append, pipeline_scan] <;>
      (repeat' split) <;> simp [ih]

/-- The pipeline invariant only looks at the active requests and the trace. -/
theorem PipelineInv.pipeline_congr {st st1 : State} (h : PipelineInv st)
    (ha : ∀ s, (st1.sessions s).active_request.isSome = (st.sessions s).active_request.isSome)
    (ht : ∀ s, pipeline_scan s false st1.trace = pipeline_scan s false st.trace) :
    PipelineInv st1 := by
  intro s
  rw [ht s, ha s]
  exact h s

/-- Dispatching the active request of a session with no outstanding request
establishes the pipeline invariant, provided connection creation does not
fail. -/
theorem PipelineInv.pipeline_request_process {st : State} (env : NetEnv) (session : SessionPtr)
    (message : MessagePtr) (henv : env.connect.isSome = true)
    (hother : ∀ s, s ≠ session →
      pipeline_scan s false st.trace = some (st.sessions s).active_request.isSome)
    (hself : pipeline_scan session false st.trace = some false)
    (hactive : (st.sessions session).active_request.isSome = true) :
    PipelineInv (rtsp_client_session_request_process env st session message).1 := by
  cases hc : (st.sessions session).connection with
  | some c =>
    rw [request_process_bound env st session message c hc]
    intro s
    by_cases hs : s = session
    · subst hs
      simp [pipeline_scan_append, hself, pipeline_scan, hactive]
    · have hs1 : session ≠ s := Ne.symm hs
      simp [pipeline_scan_append, hother s hs, pipeline_scan, hs, hs1, Function.update_apply]
  | none =>
    cases he : env.connect with
    | none => simp [he] at henv
    | some sock =>
      rw [request_process_connect_ok env st session message sock hc he]
      intro s
      by_cases hs : s = session
      · subst hs
        simp [pipeline_scan_append, hself, pipeline_scan, hactive]
      · have hs1 : session ≠ s := Ne.symm hs
        simp [pipeline_scan_append, hother s hs, pipeline_scan, hs, hs1, Function.update_apply]

theorem PipelineInv.pipeline_message_process {st : State} (h : PipelineInv st) (env : NetEnv)
    (session : SessionPtr) (message : MessagePtr) (henv : env.connect.isSome = true) :
    PipelineInv (rtsp_client_session_message_process env st session message).1 := by
  cases ha : (st.sessions session).active_request with
  | some a =>
    rw [message_process_queued env st session message a ha]
    refine h.pipeline_congr ?_ (fun _ => rfl)
    intro s
    by_cases hs : s = session <;> simp [hs, Function.update_apply, ha]
  | none =>
    rw [message_process_idle env st session message ha]
    apply PipelineInv.pipeline_request_process env session message henv
    · intro s hs
      simpa [Function.update_apply, hs] using h s
    · simpa [ha] using h session
    · simp

theorem PipelineInv.pipeline_response_process {st : State} (h : PipelineInv st) (env : NetEnv)
    (c : ConnectionPtr) (message : rtsp_message_t) (henv : env.connect.isSome = true) :
    PipelineInv (rtsp_client_session_response_process env st c message).1 := by
  by_cases ht : message.message_type = RTSP_MESSAGE_TYPE_REQUEST
  · obtain ⟨extra, h1, _, _, h4⟩ := event_process_state env st c message
    rw [response_process_request env st c message ht, h1]
    exact h.pipeline_congr (fun _ => rfl) (fun s => by simp [pipeline_scan_append, h s, h4])
  cases hp : rtsp_header_property_check message.property_set RTSP_HEADER_FIELD_SESSION_ID with
  | false => rw [response_process_no_session_id env st c message ht hp]; exact h
  | true =>
    have hf := session_find_frame st c message
    have h1 : PipelineInv (rtsp_client_session_find st c message).1 :=
      h.pipeline_congr (fun s => by rw [(hf.2.2.2.2 s).2.1]) (fun s => by rw [hf.1])
    cases hfind : (rtsp_client_session_find st c message).2 with
    | none => rw [response_process_no_target env st c message ht hp hfind]; exact h1
    | some session =>
      cases ha : ((rtsp_client_session_find st c message).1.sessions session).active_request with
      | none => rw [response_process_spurious env st c message session ht hp hfind ha]; exact h1
      | some active =>
        have hself := h1 session
        rw [ha] at hself
        cases hq : ((rtsp_client_session_find st c message).1.sessions session).request_queue with
        | nil =>
          rw [response_process_last env st c message session active ht hp hfind ha hq]
          intro s
          by_cases hs : s = session
          · subst hs
            simp [pipeline_scan_append, hself, pipeline_scan]
          · have hs1 : session ≠ s := Ne.symm hs
            simpa [pipeline_scan_append, pipeline_scan, hs, hs1, Function.update_apply]
              using h1 s
        | cons next rest =>
          rw [response_process_next env st c message session active next rest ht hp hfind ha hq]
          apply PipelineInv.pipeline_request_process env session next henv
          · intro s hs
            have hs1 : session ≠ s := Ne.symm hs
            simpa [pipeline_scan_append, pipeline_scan, hs, hs1, Function.update_apply]
              using h1 s
          · simp [pipeline_scan_append, hself, pipeline_scan]
          · simp

theorem PipelineInv.pipeline_step {st : State} (h : PipelineInv st) (e : Event)
    (he : e.connect_ok = true) : PipelineInv (step st e) := by
  cases e with
  | SendMessage session message env => exact h.pipeline_message_process env session message he
  | TerminateSession session => exact h
  | Message connection message env => exact h.pipeline_response_process env connection message he
  | Disconnect connection =>
    show PipelineInv (rtsp_client_on_disconnect st connection)
    unfold rtsp_client_on_disconnect
    simp only []
    split
    · exact h.pipeline_congr (fun _ => rfl) (fun _ => rfl)
    · exact h.pipeline_congr (fun _ => rfl)
        (fun s => by simp [pipeline_scan_append, h s, pipeline_scan])

theorem PipelineInv.pipeline_run {st : State} (h : PipelineInv st) (events : List Event)
    (he : ∀ e ∈ events, e.connect_ok = true) : PipelineInv (run st events) := by
  induction events generalizing st with
  | nil => exact h
  | cons e rest ih =>
    rw [run_cons]
    exact ih (h.pipeline_step e (he e (List.mem_cons_self e rest)))
      (fun x hx => he x (List.mem_cons_of_mem e hx))

theorem PipelineInv.pipeline_create (params : SessionPtr → String × Nat × String)
    (messages : MessagePtr → rtsp_message_t) :
    PipelineInv (rtsp_client_create params messages) := by
  intro s
  simp [rtsp_client_create, rtsp_client_session_create, pipeline_scan]

/-- C3, as amended (pipeline depth at most 1): after any sequence of events
in which connection creation does not fail, starting from freshly created
sessions, the requests of a session handed to the sender and the responses
correlated to it alternate in the trace, starting with a request (so at most
one request of the session is outstanding at any instant, and between two
sends there is a correlated response), and `active_request` is set exactly
when the last request handed to the sender has no correlated response yet. -/
theorem C3_pipeline_depth (params : SessionPtr → String × Nat × String)
    (messages : MessagePtr → rtsp_message_t) (events : List Event) (session : SessionPtr)
    (hconnect : ∀ e ∈ events, e.connect_ok = true) :
    pipeline_scan session false (rtsp_client_run params messages events).trace =
      some ((rtsp_client_run params messages events).sessions session).active_request.isSome :=
  (PipelineInv.pipeline_create params messages).pipeline_run events hconnect session

/-- Witness for C3: SETUP, PLAY and PAUSE submitted, then the SETUP response:
the PLAY is outstanding and `active_request` is set. -/
theorem C3_pipeline_depth_witness :
    (∀ e ∈ [Event.SendMessage 0 0 env_ok, Event.SendMessage 0 1 env_ok,
        Event.SendMessage 0 2 env_ok, Event.Message 0 (scenario_response 1 "ABC123") env_ok],
      e.connect_ok = true) ∧
    pipeline_scan 0 false (rtsp_client_run scenario_params scenario_messages
      [Event.SendMessage 0 0 env_ok, Event.SendMessage 0 1 env_ok,
        Event.SendMessage 0 2 env_ok,
        Event.Message 0 (scenario_response 1 "ABC123") env_ok]).trace = some true :=
  ⟨by decide, by
    rw [C3_pipeline_depth scenario_params scenario_messages _ 0 (by decide)]; decide⟩

/-- Counterexample to C3 as stated: when connection creation fails for the
first request of a fresh session, `active_request` is set although no
request of the session has been handed to the sender, so the equivalence
between the two fails. -/
theorem C3_pipeline_depth_counterexample :
    ((rtsp_client_run scenario_params scenario_messages
        [Event.SendMessage 0 0 env_connect_failed]).sessions 0).active_request = some 0 ∧
    requests_sent 0 (rtsp_client_run scenario_params scenario_messages
        [Event.SendMessage 0 0 env_connect_failed]).trace = [] ∧
    ¬ (pipeline_scan 0 false (rtsp_client_run scenario_params scenario_messages
        [Event.SendMessage 0 0 env_connect_failed]).trace =
      some ((rtsp_client_run scenario_params scenario_messages
        [Event.SendMessage 0 0 env_connect_failed]).sessions 0).active_request.isSome) := by
  decide

/-! ## C4: promotion of a pending session -/

theorem apr_hash_get_set_same (table : List (String × SessionPtr)) (key : String)
    (val : SessionPtr) : apr_hash_get (apr_hash_set table key val) key = some val := by
  simp [apr_hash_set, apr_hash_get]

theorem apr_hash_get_some_mem (table : List (String × SessionPtr)) (key : String)
    (val : SessionPtr) (h : apr_hash_get table key = some val) : (key, val) ∈ table := by
  induction table with
  | nil => simp [apr_hash_get] at h
  | cons e rest ih =>
    obtain ⟨k, v⟩ := e
    by_cases hk : k = key
    · simp [apr_hash_get, hk] at h
      simp [hk, h]
    · simp [apr_hash_get, hk] at h
      exact List.mem_cons_of_mem _ (ih h)

theorem apr_hash_set_length (table : List (String × SessionPtr)) (key : String)
    (val : SessionPtr) : (apr_hash_set table key val).length ≤ table.length + 1 := by
  simp only [apr_hash_set, List.length_cons]
  exact Nat.succ_le_succ (List.length_filter_le _ _)

theorem apr_hash_set_mem (table : List (String × SessionPtr)) (key : String)
    (val : SessionPtr) (e : String × SessionPtr) (h : e ∈ apr_hash_set table key val) :
    e = (key, val) ∨ e ∈ table := by
  simp only [apr_hash_set, List.mem_cons, List.mem_filter] at h
  rcases h with h | h
  · exact Or.inl h
  · exact Or.inr h.1

/-- What the scan of the pending queue finds: the first session of the queue
whose `last_cseq` equals the CSeq, with the queue split around it. -/
theorem pending_session_scan_some (sessions : SessionPtr → rtsp_client_session_t)
    (cseq : Nat) (pending : List SessionPtr) (session : SessionPtr) (queue : List SessionPtr)
    (h : pending_session_scan sessions cseq pending = some (session, queue)) :
    ∃ pre post, pending = pre ++ session :: post ∧ queue = pre ++ post ∧
      (sessions session).last_cseq = cseq ∧ ∀ t ∈ pre, (sessions t).last_cseq ≠ cseq := by
  induction pending generalizing queue with
  | nil => simp [pending_session_scan] at h
  | cons x rest ih =>
    by_cases hx : (sessions x).last_cseq = cseq
    · simp [pending_session_scan, hx] at h
      obtain ⟨h1, h2⟩ := h
      subst h1 h2
      exact ⟨[], rest, rfl, rfl, hx, by simp⟩
    · simp only [pending_session_scan, hx, if_false] at h
      cases hr : pending_session_scan sessions cseq rest with
      | none => simp [hr] at h
      | some r =>
        obtain ⟨s1, q1⟩ := r
        simp [hr] at h
        obtain ⟨h1, h2⟩ := h
        subst h1 h2
        obtain ⟨pre, post, e1, e2, e3, e4⟩ := ih q1 hr
        refine ⟨x :: pre, post, by simp [e1], by simp [e2], e3, ?_⟩
        intro t ht
        rcases List.mem_cons.mp ht with ht | ht
        · subst ht; exact hx
        · exact e4 t ht

/-- The scan finds the first matching session of the queue. -/
theorem pending_session_scan_split (sessions : SessionPtr → rtsp_client_session_t)
    (cseq : Nat) (pre post : List SessionPtr) (session : SessionPtr)
    (hmatch : (sessions session).last_cseq = cseq)
    (hpre : ∀ t ∈ pre, (sessions t).last_cseq ≠ cseq) :
    pending_session_scan sessions cseq (pre ++ session :: post) = some (session, pre ++ post) := by
  induction pre with
  | nil => simp [pending_session_scan, hmatch]
  | cons x rest ih =>
    have hx : (sessions x).last_cseq ≠ cseq := hpre x (List.mem_cons_self x rest)
    have ih1 := ih (fun t ht => hpre t (List.mem_cons_of_mem x ht))
    simp [pending_session_scan, hx, ih1]

/-- The scan finds nothing exactly when no session of the queue matches. -/
theorem pending_session_scan_none (sessions : SessionPtr → rtsp_client_session_t)
    (cseq : Nat) (pending : List SessionPtr)
    (h : ∀ t ∈ pending, (sessions t).last_cseq ≠ cseq) :
    pending_session_scan sessions cseq pending = none := by
  induction pending with
  | nil => rfl
  | cons x rest ih =>
    have hx : (sessions x).last_cseq ≠ cseq := h x (List.mem_cons_self x rest)
    simp [pending_session_scan, hx, ih (fun t ht => h t (List.mem_cons_of_mem x ht))]

/-- Table hit: the target is the session found, nothing changes. -/
theorem session_find_hit (st : State) (c : ConnectionPtr) (message : rtsp_message_t)
    (session : SessionPtr)
    (hhit : apr_hash_get (st.connections c).session_table (apr_hash_key message.session_id) =
      some session) :
    rtsp_client_session_find st c message = (st, some session) := by
  simp [rtsp_client_session_find, hhit]

/-- Table miss and no pending session with the CSeq: no target, nothing
changes. -/
theorem session_find_miss (st : State) (c : ConnectionPtr) (message : rtsp_message_t)
    (hmiss : apr_hash_get (st.connections c).session_table (apr_hash_key message.session_id) =
      none)
    (hscan : pending_session_scan st.sessions message.cseq
      (st.connections c).pending_session_queue = none) :
    rtsp_client_session_find st c message = (st, none) := by
  simp [rtsp_client_session_find, hmiss, hscan]

/-- Table miss and a pending session with the CSeq: the session receives the
Session-ID, leaves the pending queue and enters the session table. -/
theorem session_find_promote (st : State) (c : ConnectionPtr) (message : rtsp_message_t)
    (session : SessionPtr) (queue : List SessionPtr)
    (hmiss : apr_hash_get (st.connections c).session_table (apr_hash_key message.session_id) =
      none)
    (hscan : pending_session_scan st.sessions message.cseq
      (st.connections c).pending_session_queue = some (session, queue)) :
    rtsp_client_session_find st c message =
      ({ st with
          sessions := Function.update st.sessions session
            { st.sessions session with id := message.session_id }
          connections := Function.update st.connections c
            { st.connections c with
              pending_session_queue := queue
              session_table := apr_hash_set (st.connections c).session_table
                (apr_hash_key message.session_id) session } },
       some session) := by
  simp [rtsp_client_session_find, hmiss, hscan]

/-- The placement invariant only looks at the connections and at the
connection each session is bound to. -/
theorem BindInv.bind_congr {st st1 : State} (h : BindInv st)
    (hc : st1.connections = st.connections)
    (hs : ∀ s, (st1.sessions s).connection = (st.sessions s).connection) : BindInv st1 := by
  obtain ⟨h1, h2, h3⟩ := h
  refine ⟨?_, ?_, ?_⟩
  · intro c s hmem
    rw [hc] at hmem
    rw [hs s]
    exact h1 c s hmem
  · intro c e hmem
    rw [hc] at hmem
    rw [hs e.2]
    exact h2 c e hmem
  · intro c
    rw [hc]
    exact h3 c

theorem BindInv.bind_request_process {st : State} (h : BindInv st) (env : NetEnv)
    (session : SessionPtr) (message : MessagePtr) :
    BindInv (rtsp_client_session_request_process env st session message).1 := by
  cases hc : (st.sessions session).connection with
  | some c =>
    rw [request_process_bound env st session message c hc]
    refine h.bind_congr rfl ?_
    intro s
    by_cases hs : s = session <;> simp [hs, Function.update_apply]
  | none =>
    cases he : env.connect with
    | none =>
      rw [request_process_connect_failed env st session message hc he]
      exact h.bind_congr rfl (fun _ => rfl)
    | some sock =>
      rw [request_process_connect_ok env st session message sock hc he]
      obtain ⟨h1, h2, h3⟩ := h
      refine ⟨?_, ?_, ?_⟩
      · intro c s hmem
        by_cases hcn : c = st.next_connection
        · subst hcn
          simp only [Function.update_same] at hmem
          have hs : s = session := by
            by_cases hm : (st.messages message).method_id = RTSP_METHOD_SETUP
            · simpa [hm] using hmem
            · simp [hm] at hmem
          subst hs
          simp
        · simp only [Function.update_noteq hcn] at hmem
          have hold := h1 c s hmem
          have hs : s ≠ session := by
            intro heq; subst heq; rw [hc] at hold; exact Option.noConfusion hold
          simpa [Function.update_noteq hs] using hold
      · intro c e hmem
        by_cases hcn : c = st.next_connection
        · subst hcn
          simp at hmem
        · simp only [Function.update_noteq hcn] at hmem
          have hold := h2 c e hmem
          have hs : e.2 ≠ session := by
            intro heq; rw [heq, hc] at hold; exact Option.noConfusion hold
          simpa [Function.update_noteq hs] using hold
      · intro c
        by_cases hcn : c = st.next_connection
        · subst hcn
          by_cases hm : (st.messages message).method_id = RTSP_METHOD_SETUP <;> simp [hm]
        · simpa [Function.update_noteq hcn] using h3 c

theorem BindInv.bind_message_process {st : State} (h : BindInv st) (env : NetEnv)
    (session : SessionPtr) (message : MessagePtr) :
    BindInv (rtsp_client_session_message_process env st session message).1 := by
  cases ha : (st.sessions session).active_request with
  | some a =>
    rw [message_process_queued env st session message a ha]
    refine h.bind_congr rfl ?_
    intro s
    by_cases hs : s = session <;> simp [hs, Function.update_apply]
  | none =>
    rw [message_process_idle env st session message ha]
    apply BindInv.bind_request_process
    refine h.bind_congr rfl ?_
    intro s
    by_cases hs : s = session <;> simp [hs, Function.update_apply]

theorem BindInv.session_find {st : State} (h : BindInv st) (c : ConnectionPtr)
    (message : rtsp_message_t) : BindInv (rtsp_client_session_find st c message).1 := by
  cases hget : apr_hash_get (st.connections c).session_table (apr_hash_key message.session_id) with
  | some session => rw [session_find_hit st c message session hget]; exact h
  | none =>
    cases hscan : pending_session_scan st.sessions message.cseq
        (st.connections c).pending_session_queue with
    | none => rw [session_find_miss st c message hget hscan]; exact h
    | some r =>
      obtain ⟨session, queue⟩ := r
      rw [session_find_promote st c message session queue hget hscan]
      obtain ⟨pre, post, e1, e2, _, _⟩ := pending_session_scan_some _ _ _ _ _ hscan
      obtain ⟨h1, h2, h3⟩ := h
      have hconn : ∀ s, ((Function.update st.sessions session
          { st.sessions session with id := message.session_id }) s).connection =
          (st.sessions s).connection := by
        intro s
        by_cases hs : s = session <;> simp [hs, Function.update_apply]
      have hlen := h3 c
      rw [e1] at hlen
      simp at hlen
      have hpre : pre = [] := by
        cases pre with
        | nil => rfl
        | cons a l => simp at hlen; omega
      have hpost : post = [] := by
        cases post with
        | nil => rfl
        | cons a l => simp at hlen; omega
      have htab : (st.connections c).session_table = [] := by
        cases htb : (st.connections c).session_table with
        | nil => rfl
        | cons a l => rw [htb] at hlen; simp at hlen; omega
      subst hpre hpost
      simp only [List.nil_append] at e1 e2
      subst e2
      refine ⟨?_, ?_, ?_⟩
      · intro c1 s hmem
        show ((Function.update st.sessions session _) s).connection = some c1
        rw [hconn s]
        by_cases hcc : c1 = c
        · subst hcc
          simp at hmem
        · simp only [Function.update_noteq hcc] at hmem
          exact h1 c1 s hmem
      · intro c1 e hmem
        show ((Function.update st.sessions session _) e.2).connection = some c1
        rw [hconn e.2]
        by_cases hcc : c1 = c
        · subst hcc
          simp only [Function.update_same, htab, apr_hash_set, List.filter_nil,
            List.mem_singleton] at hmem
          subst hmem
          exact h1 c1 session (by rw [e1]; simp)
        · simp only [Function.update_noteq hcc] at hmem
          exact h2 c1 e hmem
      · intro c1
        by_cases hcc : c1 = c
        · subst hcc
          simp [htab, apr_hash_set]
        · simpa [Function.update_noteq hcc] using h3 c1

theorem BindInv.bind_response_process {st : State} (h : BindInv st) (env : NetEnv)
    (c : ConnectionPtr) (message : rtsp_message_t) :
    BindInv (rtsp_client_session_response_process env st c message).1 := by
  by_cases ht : message.message_type = RTSP_MESSAGE_TYPE_REQUEST
  · obtain ⟨extra, h1, _, _, _⟩ := event_process_state env st c message
    rw [response_process_request env st c message ht, h1]
    exact h.bind_congr rfl (fun _ => rfl)
  cases hp : rtsp_header_property_check message.property_set RTSP_HEADER_FIELD_SESSION_ID with
  | false => rw [response_process_no_session_id env st c message ht hp]; exact h
  | true =>
    have h1 : BindInv (rtsp_client_session_find st c message).1 := h.session_find c message
    cases hfind : (rtsp_client_session_find st c message).2 with
    | none => rw [response_process_no_target env st c message ht hp hfind]; exact h1
    | some session =>
      cases ha : ((rtsp_client_session_find st c message).1.sessions session).active_request with
      | none => rw [response_process_spurious env st c message session ht hp hfind ha]; exact h1
      | some active =>
        cases hq : ((rtsp_client_session_find st c message).1.sessions session).request_queue with
        | nil =>
          rw [response_process_last env st c message session active ht hp hfind ha hq]
          refine h1.bind_congr rfl ?_
          intro s
          by_cases hs : s = session <;> simp [hs, Function.update_apply]
        | cons next rest =>
          rw [response_process_next env st c message session active next rest ht hp hfind ha hq]
          apply BindInv.bind_request_process
          refine h1.bind_congr rfl ?_
          intro s
          by_cases hs : s = session <;> simp [hs, Function.update_apply]

theorem BindInv.bind_step {st : State} (h : BindInv st) (e : Event) : BindInv (step st e) := by
  cases e with
  | SendMessage session message env => exact h.bind_message_process env session message
  | TerminateSession session => exact h
  | Message connection message env => exact h.bind_response_process env connection message
  | Disconnect connection =>
    show BindInv (rtsp_client_on_disconnect st connection)
    unfold rtsp_client_on_disconnect
    simp only []
    split
    · exact h.bind_congr rfl (fun _ => rfl)
    · exact h.bind_congr rfl (fun _ => rfl)

theorem BindInv.bind_create (params : SessionPtr → String × Nat × String)
    (messages : MessagePtr → rtsp_message_t) : BindInv (rtsp_client_create params messages) := by
  refine ⟨?_, ?_, ?_⟩ <;> simp [rtsp_client_create]

theorem BindInv.reachable (params : SessionPtr → String × Nat × String)
    (messages : MessagePtr → rtsp_message_t) (events : List Event) :
    BindInv (rtsp_client_run params messages events) :=
  run_invariant BindInv (fun _ e h => h.bind_step e) events _ (BindInv.bind_create params messages)

/-- Promotion followed by the rest of the response processing: whatever
happens to the active request, the promoted session keeps the Session-ID of
the response and the connection keeps the new queue and table. -/
theorem response_process_promote (env : NetEnv) (st : State) (c c0 : ConnectionPtr)
    (message : rtsp_message_t) (session : SessionPtr) (queue : List SessionPtr)
    (ht : message.message_type ≠ RTSP_MESSAGE_TYPE_REQUEST)
    (hp : rtsp_header_property_check message.property_set RTSP_HEADER_FIELD_SESSION_ID = true)
    (hmiss : apr_hash_get (st.connections c).session_table (apr_hash_key message.session_id) =
      none)
    (hscan : pending_session_scan st.sessions message.cseq
      (st.connections c).pending_session_queue = some (session, queue))
    (hbound : (st.sessions session).connection = some c0) :
    (rtsp_client_session_response_process env st c message).1.connections =
      Function.update st.connections c
        { st.connections c with
          pending_session_queue := queue
          session_table := apr_hash_set (st.connections c).session_table
            (apr_hash_key message.session_id) session } ∧
    ((rtsp_client_session_response_process env st c message).1.sessions session).id =
      message.session_id := by
  have hfind := session_find_promote st c message session queue hmiss hscan
  have hf2 : (rtsp_client_session_find st c message).2 = some session := by rw [hfind]
  cases ha : ((rtsp_client_session_find st c message).1.sessions session).active_request with
  | none =>
    rw [response_process_spurious env st c message session ht hp hf2 ha, hfind]
    simp
  | some active =>
    cases hq : ((rtsp_client_session_find st c message).1.sessions session).request_queue with
    | nil =>
      rw [response_process_last env st c message session active ht hp hf2 ha hq, hfind]
      simp
    | cons next rest =>
      rw [response_process_next env st c message session active next rest ht hp hf2 ha hq,
        hfind]
      simp only []
      rw [request_process_bound env _ session next c0 (by simp [hbound])]
      simp

/-- C4 (Session-ID correlation, promotion of a pending session): in every
state reached from freshly created sessions, for every connection and every
response carrying a Session-ID that is not a key of the connection's session
table, if a session of the pending queue has `last_cseq` equal to the CSeq of
the response, then after `rtsp_client_session_response_process` that session
has the Session-ID of the response as its id, it is no longer in the pending
queue, and the session table maps its id to it. -/
theorem C4_session_id_correlation (params : SessionPtr → String × Nat × String)
    (messages : MessagePtr → rtsp_message_t) (events : List Event) (env : NetEnv)
    (c : ConnectionPtr) (message : rtsp_message_t) (session : SessionPtr)
    (htype : message.message_type = RTSP_MESSAGE_TYPE_RESPONSE)
    (hsid : rtsp_header_property_check message.property_set RTSP_HEADER_FIELD_SESSION_ID = true)
    (hmiss : apr_hash_get ((rtsp_client_run params messages events).connections c).session_table
      (apr_hash_key message.session_id) = none)
    (hmem : session ∈
      ((rtsp_client_run params messages events).connections c).pending_session_queue)
    (hcseq : ((rtsp_client_run params messages events).sessions session).last_cseq =
      message.cseq) :
    ((rtsp_client_session_response_process env (rtsp_client_run params messages events)
      c message).1.sessions session).id = message.session_id ∧
    session ∉ ((rtsp_client_session_response_process env (rtsp_client_run params messages events)
      c message).1.connections c).pending_session_queue ∧
    apr_hash_get ((rtsp_client_session_response_process env
        (rtsp_client_run params messages events) c message).1.connections c).session_table
      (apr_hash_key ((rtsp_client_session_response_process env
        (rtsp_client_run params messages events) c message).1.sessions session).id) =
      some session := by
  obtain ⟨h1, _, h3⟩ := BindInv.reachable params messages events
  have hlen := h3 c
  have hq : ((rtsp_client_run params messages events).connections c).pending_session_queue =
      [] ++ session :: [] := by
    cases hl : ((rtsp_client_run params messages events).connections c).pending_session_queue with
    | nil => rw [hl] at hmem; simp at hmem
    | cons a l =>
      rw [hl] at hmem hlen
      cases l with
      | nil => simp at hmem; simp [hmem]
      | cons b l2 => simp at hlen; omega
  have hscan := pending_session_scan_split (rtsp_client_run params messages events).sessions
    message.cseq [] [] session hcseq (by simp)
  rw [← hq] at hscan
  have ht : message.message_type ≠ RTSP_MESSAGE_TYPE_REQUEST := by rw [htype]; decide
  obtain ⟨r1, r2⟩ := response_process_promote env _ c c message session _ ht hsid hmiss hscan
    (h1 c session hmem)
  refine ⟨r2, ?_, ?_⟩
  · rw [r1]; simp
  · rw [r1, r2]; simp [apr_hash_get_set_same]

/-- Witness for C4 (scenario S1): the SETUP of session 0 is outstanding with
CSeq 1 on connection 0; the `200 OK` with CSeq 1 and Session `ABC123`
promotes the session. -/
theorem C4_session_id_correlation_witness :
    ((rtsp_client_session_response_process env_ok
      (rtsp_client_run scenario_params scenario_messages [Event.SendMessage 0 0 env_ok])
      0 (scenario_response 1 "ABC123")).1.sessions 0).id = apt_string_assign "ABC123" ∧
    (0 : SessionPtr) ∉ ((rtsp_client_session_response_process env_ok
      (rtsp_client_run scenario_params scenario_messages [Event.SendMessage 0 0 env_ok])
      0 (scenario_response 1 "ABC123")).1.connections 0).pending_session_queue ∧
    apr_hash_get ((rtsp_client_session_response_process env_ok
      (rtsp_client_run scenario_params scenario_messages [Event.SendMessage 0 0 env_ok])
      0 (scenario_response 1 "ABC123")).1.connections 0).session_table "ABC123" = some 0 := by
  have h := C4_session_id_correlation scenario_params scenario_messages
    [Event.SendMessage 0 0 env_ok] env_ok 0 (scenario_response 1 "ABC123") 0
    (by decide) (by decide) (by decide) (by decide) (by decide)
  refine ⟨h.1, h.2.1, ?_⟩
  have h3 := h.2.2
  rw [h.1] at h3
  exact h3

/-! ## C5: promotion exclusivity -/

/-- C5 (promotion exclusivity): in every state reached from the initial state
(no connections, freshly created sessions) by any sequence of events, a
session is in the pending queue of at most one connection and at most once
in it, it is never both in a pending queue and in a session table, and it is
in the session table of at most one connection, under one key. -/
theorem C5_promotion_exclusivity (params : SessionPtr → String × Nat × String)
    (messages : MessagePtr → rtsp_message_t) (events : List Event) :
    (∀ c c1 s,
      s ∈ ((rtsp_client_run params messages events).connections c).pending_session_queue →
      s ∈ ((rtsp_client_run params messages events).connections c1).pending_session_queue →
      c = c1) ∧
    (∀ c s,
      ((rtsp_client_run params messages events).connections c).pending_session_queue.count s
        ≤ 1) ∧
    (∀ c c1 s e,
      s ∈ ((rtsp_client_run params messages events).connections c).pending_session_queue →
      e ∈ ((rtsp_client_run params messages events).connections c1).session_table →
      e.2 ≠ s) ∧
    (∀ c c1 e e1,
      e ∈ ((rtsp_client_run params messages events).connections c).session_table →
      e1 ∈ ((rtsp_client_run params messages events).connections c1).session_table →
      e.2 = e1.2 → c = c1 ∧ e = e1) ∧
    (∀ c, ((rtsp_client_run params messages events).connections c).session_table.Nodup) := by
  obtain ⟨h1, h2, h3⟩ := BindInv.reachable params messages events
  have hshort : ∀ {α : Type} (l : List α), l.length ≤ 1 → ∀ a ∈ l, ∀ b ∈ l, a = b := by
    intro α l hl a ha b hb
    cases l with
    | nil => simp at ha
    | cons x rest =>
      cases rest with
      | nil => simp at ha hb; rw [ha, hb]
      | cons y r => simp at hl
  refine ⟨?_, ?_, ?_, ?_, ?_⟩
  · intro c c1 s hs hs1
    have e1 := h1 c s hs
    have e2 := h1 c1 s hs1
    rw [e1] at e2
    exact Option.some.inj e2
  · intro c s
    have hl := h3 c
    calc ((rtsp_client_run params messages events).connections c).pending_session_queue.count s
        ≤ ((rtsp_client_run params messages events).connections c).pending_session_queue.length :=
          List.count_le_length _ _
      _ ≤ 1 := by omega
  · intro c c1 s e hs he heq
    have e1 := h1 c s hs
    have e2 := h2 c1 e he
    rw [heq, e1] at e2
    have hcc : c = c1 := Option.some.inj e2
    subst hcc
    have hl := h3 c
    have hp : 0 < ((rtsp_client_run params messages events).connections c).pending_session_queue.length :=
      List.length_pos_of_mem hs
    have ht : 0 < ((rtsp_client_run params messages events).connections c).session_table.length :=
      List.length_pos_of_mem he
    omega
  · intro c c1 e e1 he he1 heq
    have a1 := h2 c e he
    have a2 := h2 c1 e1 he1
    rw [heq, a2] at a1
    have hcc : c1 = c := Option.some.inj a1
    subst hcc
    refine ⟨rfl, ?_⟩
    have hl := h3 c1
    exact hshort _ (by omega) e he e1 he1
  · intro c
    have hl := h3 c
    cases ht : ((rtsp_client_run params messages events).connections c).session_table with
    | nil => exact List.nodup_nil
    | cons x rest =>
      rw [ht] at hl
      cases rest with
      | nil => exact List.nodup_singleton x
      | cons y r => simp at hl; omega

/-- Witness for C5: after the SETUP of session 0 and its response, session 0
is in the session table of connection 0 and not in its pending queue. -/
theorem C5_promotion_exclusivity_witness :
    (("ABC123", 0) : String × SessionPtr) ∈
      ((rtsp_client_run scenario_params scenario_messages
        [Event.SendMessage 0 0 env_ok,
          Event.Message 0 (scenario_response 1 "ABC123") env_ok]).connections 0).session_table ∧
    (0 : SessionPtr) ∉
      ((rtsp_client_run scenario_params scenario_messages
        [Event.SendMessage 0 0 env_ok,
          Event.Message 0 (scenario_response 1 "ABC123") env_ok]).connections
            0).pending_session_queue := by
  have hmem : (("ABC123", 0) : String × SessionPtr) ∈
      ((rtsp_client_run scenario_params scenario_messages
        [Event.SendMessage 0 0 env_ok,
          Event.Message 0 (scenario_response 1 "ABC123") env_ok]).connections 0).session_table := by
    decide
  refine ⟨hmem, ?_⟩
  intro hc
  exact (C5_promotion_exclusivity scenario_params scenario_messages
    [Event.SendMessage 0 0 env_ok,
      Event.Message 0 (scenario_response 1 "ABC123") env_ok]).2.2.1 0 0 0 ("ABC123", 0)
    hc hmem rfl

/-! ## C6: the active request carries `last_cseq` -/

/-- Effects of a dispatch in which connection creation does not fail: the
request is stamped with the new `last_cseq`; no other message and no other
session changes, and the active request and the queue stay as they are. -/
theorem request_process_effects (env : NetEnv) (st : State) (session : SessionPtr)
    (message : MessagePtr)
    (h : (st.sessions session).connection.isSome = true ∨ env.connect.isSome = true) :
    ((rtsp_client_session_request_process env st session message).1.sessions session).last_cseq =
      ((rtsp_client_session_request_process env st session message).1.messages message).cseq ∧
    (∀ m, m ≠ message →
      (rtsp_client_session_request_process env st session message).1.messages m =
        st.messages m) ∧
    (∀ s, s ≠ session →
      (rtsp_client_session_request_process env st session message).1.sessions s =
        st.sessions s) ∧
    ((rtsp_client_session_request_process env st session message).1.sessions
      session).active_request = (st.sessions session).active_request ∧
    ((rtsp_client_session_request_process env st session message).1.sessions
      session).request_queue = (st.sessions session).request_queue := by
  cases hc : (st.sessions session).connection with
  | some c =>
    rw [request_process_bound env st session message c hc]
    refine ⟨by simp, ?_, ?_, by simp, by simp⟩
    · intro m hm; simp [Function.update_noteq hm]
    · intro s hs; simp [Function.update_noteq hs]
  | none =>
    cases he : env.connect with
    | none => simp [hc, he] at h
    | some sock =>
      rw [request_process_connect_ok env st session message sock hc he]
      refine ⟨by simp, ?_, ?_, by simp, by simp⟩
      · intro m hm; simp [Function.update_noteq hm]
      · intro s hs; simp [Function.update_noteq hs]

theorem ActiveCseqInv.active_request_process {st : State} {owner : SessionPtr → MessagePtr → Prop}
    (env : NetEnv) (session : SessionPtr) (message : MessagePtr)
    (henv : env.connect.isSome = true)
    (hdisj : ∀ s s1 m, owner s m → owner s1 m → s = s1)
    (hown : ∀ s m, ((st.sessions s).active_request = some m ∨
      m ∈ (st.sessions s).request_queue) → owner s m)
    (hother : ∀ s m, s ≠ session → (st.sessions s).active_request = some m →
      (st.sessions s).last_cseq = (st.messages m).cseq)
    (hactive : (st.sessions session).active_request = some message) :
    ActiveCseqInv (rtsp_client_session_request_process env st session message).1 owner := by
  obtain ⟨e1, e2, e3, e4, e5⟩ :=
    request_process_effects env st session message (Or.inr henv)
  refine ⟨?_, ?_⟩
  · intro s m hm
    by_cases hs : s = session
    · subst hs
      rw [e4, e5] at hm
      exact hown s m hm
    · rw [e3 s hs] at hm
      exact hown s m hm
  · intro s m hm
    by_cases hs : s = session
    · subst hs
      rw [e4, hactive] at hm
      have hmm : message = m := Option.some.inj hm
      subst hmm
      exact e1
    · rw [e3 s hs] at hm ⊢
      have hne : m ≠ message := by
        intro heq
        subst heq
        exact hs (hdisj s session m (hown s m (Or.inl hm)) (hown session m (Or.inl hactive)))
      rw [e2 m hne]
      exact hother s m hs hm

theorem ActiveCseqInv.active_message_process {st : State} {owner : SessionPtr → MessagePtr → Prop}
    (h : ActiveCseqInv st owner) (env : NetEnv) (session : SessionPtr) (message : MessagePtr)
    (henv : env.connect.isSome = true)
    (hdisj : ∀ s s1 m, owner s m → owner s1 m → s = s1)
    (hsub : owner session message) :
    ActiveCseqInv (rtsp_client_session_message_process env st session message).1 owner := by
  obtain ⟨h1, h2⟩ := h
  cases ha : (st.sessions session).active_request with
  | some a =>
    rw [message_process_queued env st session message a ha]
    refine ⟨?_, ?_⟩
    · intro s m hm
      by_cases hs : s = session
      · subst hs
        simp only [Function.update_same, List.mem_append, List.mem_singleton] at hm
        rcases hm with hm | hm | hm
        · exact h1 s m (Or.inl hm)
        · exact h1 s m (Or.inr hm)
        · subst hm; exact hsub
      · simp only [Function.update_noteq hs] at hm
        exact h1 s m hm
    · intro s m hm
      by_cases hs : s = session
      · subst hs
        simp only [Function.update_same] at hm ⊢
        exact h2 s m hm
      · simp only [Function.update_noteq hs] at hm ⊢
        exact h2 s m hm
  | none =>
    rw [message_process_idle env st session message ha]
    apply ActiveCseqInv.active_request_process env session message henv hdisj
    · intro s m hm
      by_cases hs : s = session
      · subst hs
        simp only [Function.update_same] at hm
        rcases hm with hm | hm
        · have hmm : message = m := Option.some.inj hm
          subst hmm; exact hsub
        · exact h1 s m (Or.inr hm)
      · simp only [Function.update_noteq hs] at hm
        exact h1 s m hm
    · intro s m hs hm
      simp only [Function.update_noteq hs] at hm ⊢
      exact h2 s m hm
    · simp

/-- The session invariant only looks at the message heap and at `last_cseq`,
the active request and the queue of each session. -/
theorem ActiveCseqInv.active_congr {st st1 : State} {owner : SessionPtr → MessagePtr → Prop}
    (h : ActiveCseqInv st owner) (hm : st1.messages = st.messages)
    (hs : ∀ s, (st1.sessions s).last_cseq = (st.sessions s).last_cseq ∧
      (st1.sessions s).active_request = (st.sessions s).active_request ∧
      (st1.sessions s).request_queue = (st.sessions s).request_queue) :
    ActiveCseqInv st1 owner := by
  obtain ⟨h1, h2⟩ := h
  refine ⟨?_, ?_⟩
  · intro s m hmem
    rw [(hs s).2.1, (hs s).2.2] at hmem
    exact h1 s m hmem
  · intro s m hmem
    rw [(hs s).2.1] at hmem
    rw [(hs s).1, hm]
    exact h2 s m hmem

theorem ActiveCseqInv.active_response_process {st : State} {owner : SessionPtr → MessagePtr → Prop}
    (h : ActiveCseqInv st owner) (env : NetEnv) (c : ConnectionPtr) (message : rtsp_message_t)
    (henv : env.connect.isSome = true)
    (hdisj : ∀ s s1 m, owner s m → owner s1 m → s = s1) :
    ActiveCseqInv (rtsp_client_session_response_process env st c message).1 owner := by
  by_cases ht : message.message_type = RTSP_MESSAGE_TYPE_REQUEST
  · obtain ⟨extra, h1, _, _, _⟩ := event_process_state env st c message
    rw [response_process_request env st c message ht, h1]
    exact h.active_congr rfl (fun _ => ⟨rfl, rfl, rfl⟩)
  cases hp : rtsp_header_property_check message.property_set RTSP_HEADER_FIELD_SESSION_ID with
  | false => rw [response_process_no_session_id env st c message ht hp]; exact h
  | true =>
    have hf := session_find_frame st c message
    have h1 : ActiveCseqInv (rtsp_client_session_find st c message).1 owner :=
      h.active_congr hf.2.1 (fun s => ⟨(hf.2.2.2.2 s).1, (hf.2.2.2.2 s).2.1, (hf.2.2.2.2 s).2.2.1⟩)
    cases hfind : (rtsp_client_session_find st c message).2 with
    | none => rw [response_process_no_target env st c message ht hp hfind]; exact h1
    | some session =>
      cases ha : ((rtsp_client_session_find st c message).1.sessions session).active_request with
      | none => rw [response_process_spurious env st c message session ht hp hfind ha]; exact h1
      | some active =>
        obtain ⟨g1, g2⟩ := h1
        cases hq : ((rtsp_client_session_find st c message).1.sessions session).request_queue with
        | nil =>
          rw [response_process_last env st c message session active ht hp hfind ha hq]
          refine ⟨?_, ?_⟩
          · intro s m hm
            by_cases hs : s = session
            · subst hs
              simp only [Function.update_same] at hm
              rcases hm with hm | hm
              · exact Option.noConfusion hm
              · exact g1 s m (Or.inr hm)
            · simp only [Function.update_noteq hs] at hm
              exact g1 s m hm
          · intro s m hm
            by_cases hs : s = session
            · subst hs
              simp only [Function.update_same] at hm
              exact Option.noConfusion hm
            · simp only [Function.update_noteq hs] at hm ⊢
              exact g2 s m hm
        | cons next rest =>
          rw [response_process_next env st c message session active next rest ht hp hfind ha hq]
          apply ActiveCseqInv.active_request_process env session next henv hdisj
          · intro s m hm
            by_cases hs : s = session
            · subst hs
              simp only [Function.update_same] at hm
              rcases hm with hm | hm
              · have hmm : next = m := Option.some.inj hm
                subst hmm
                exact g1 s next (Or.inr (by rw [hq]; simp))
              · exact g1 s m (Or.inr (by rw [hq]; exact List.mem_cons_of_mem _ hm))
            · simp only [Function.update_noteq hs] at hm
              exact g1 s m hm
          · intro s m hs hm
            simp only [Function.update_noteq hs] at hm ⊢
            exact g2 s m hm
          · simp

theorem ActiveCseqInv.active_on_disconnect {st : State} {owner : SessionPtr → MessagePtr → Prop}
    (h : ActiveCseqInv st owner) (c : ConnectionPtr) :
    ActiveCseqInv (rtsp_client_on_disconnect st c) owner := by
  unfold rtsp_client_on_disconnect
  simp only []
  split
  · exact h.active_congr rfl (fun _ => ⟨rfl, rfl, rfl⟩)
  · exact h.active_congr rfl (fun _ => ⟨rfl, rfl, rfl⟩)

theorem ActiveCseqInv.mono {st : State} {owner owner1 : SessionPtr → MessagePtr → Prop}
    (h : ActiveCseqInv st owner) (hsub : ∀ s m, owner s m → owner1 s m) :
    ActiveCseqInv st owner1 :=
  ⟨fun s m hm => hsub s m (h.1 s m hm), h.2⟩

/-- The session invariant along a run: every message submitted so far
belongs to one session only, and connection creation does not fail. -/
theorem ActiveCseqInv.active_run (events : List Event) :
    ∀ (st : State) (owner : SessionPtr → MessagePtr → Prop),
      ActiveCseqInv st owner →
      (∀ e ∈ events, e.connect_ok = true) →
      (∀ s s1 m, (owner s m ∨ m ∈ submitted s events) →
        (owner s1 m ∨ m ∈ submitted s1 events) → s = s1) →
      ActiveCseqInv (run st events) (fun s m => owner s m ∨ m ∈ submitted s events) := by
  induction events with
  | nil =>
    intro st owner h _ _
    exact h.mono (fun s m hm => Or.inl hm)
  | cons e rest ih =>
    intro st owner h hok hdisj
    rw [run_cons]
    have hok1 := hok e (List.mem_cons_self e rest)
    have hdisj1 : ∀ s s1 m, (owner s m ∨ Event.submission_of s e = some m) →
        (owner s1 m ∨ Event.submission_of s1 e = some m) → s = s1 := by
      intro s s1 m a b
      apply hdisj s s1 m
      · rcases a with a | a
        · exact Or.inl a
        · exact Or.inr (by simp [submitted, List.filterMap_cons, a])
      · rcases b with b | b
        · exact Or.inl b
        · exact Or.inr (by simp [submitted, List.filterMap_cons, b])
    have hstep : ActiveCseqInv (step st e)
        (fun s m => owner s m ∨ Event.submission_of s e = some m) := by
      have h0 : ActiveCseqInv st (fun s m => owner s m ∨ Event.submission_of s e = some m) :=
        h.mono (fun s m hm => Or.inl hm)
      cases e with
      | SendMessage session message env =>
        exact h0.active_message_process env session message hok1 hdisj1
          (Or.inr (by simp [Event.submission_of]))
      | TerminateSession session => exact h0
      | Message connection message env =>
        exact h0.active_response_process env connection message hok1 hdisj1
      | Disconnect connection => exact h0.active_on_disconnect connection
    have hmem : ∀ s m, ((owner s m ∨ Event.submission_of s e = some m) ∨ m ∈ submitted s rest) ↔
        (owner s m ∨ m ∈ submitted s (e :: rest)) := by
      intro s m
      cases hsub : Event.submission_of s e with
      | none => simp [submitted, List.filterMap_cons, hsub]
      | some x =>
        simp only [submitted, List.filterMap_cons, hsub, List.mem_cons, Option.some.injEq]
        constructor
        · rintro ((a | a) | a)
          · exact Or.inl a
          · exact Or.inr (Or.inl a.symm)
          · exact Or.inr (Or.inr a)
        · rintro (a | a | a)
          · exact Or.inl (Or.inl a)
          · exact Or.inl (Or.inr a.symm)
          · exact Or.inr a
    have hrest := ih (step st e) _ hstep
      (fun x hx => hok x (List.mem_cons_of_mem e hx))
      (fun s s1 m a b => hdisj s s1 m ((hmem s m).mp a) ((hmem s1 m).mp b))
    exact hrest.mono (fun s m hm => (hmem s m).mp hm)

theorem ActiveCseqInv.active_create (params : SessionPtr → String × Nat × String)
    (messages : MessagePtr → rtsp_message_t) :
    ActiveCseqInv (rtsp_client_create params messages) (fun _ _ => False) := by
  refine ⟨?_, ?_⟩ <;> simp [rtsp_client_create, rtsp_client_session_create]

/-- C6, as amended (session invariant): in every state reached from freshly
created sessions by SendMessage, incoming-message and disconnect steps in
which connection creation does not fail (the socket send may fail), and in
which no request message is submitted for two different sessions,
`active_request != none` implies `last_cseq == active_request.cseq`. -/
theorem C6_session_invariant (params : SessionPtr → String × Nat × String)
    (messages : MessagePtr → rtsp_message_t) (events : List Event) (session : SessionPtr)
    (active : MessagePtr)
    (hconnect : ∀ e ∈ events, e.connect_ok = true)
    (hown : ∀ s s1 m, m ∈ submitted s events → m ∈ submitted s1 events → s = s1)
    (hactive : ((rtsp_client_run params messages events).sessions session).active_request =
      some active) :
    ((rtsp_client_run params messages events).sessions session).last_cseq =
      ((rtsp_client_run params messages events).messages active).cseq := by
  have h := ActiveCseqInv.active_run events _ _ (ActiveCseqInv.active_create params messages) hconnect
    (fun s s1 m a b => hown s s1 m (by simpa using a) (by simpa using b))
  exact h.2 session active hactive

/-- Witness for C6: the SETUP of a fresh session is dispatched while the
socket send fails; it stays the active request and carries `last_cseq`. -/
theorem C6_session_invariant_witness :
    (∀ e ∈ [Event.SendMessage 0 0 env_send_failed], e.connect_ok = true) ∧
    ((rtsp_client_run scenario_params scenario_messages
      [Event.SendMessage 0 0 env_send_failed]).sessions 0).active_request = some 0 ∧
    ((rtsp_client_run scenario_params scenario_messages
      [Event.SendMessage 0 0 env_send_failed]).sessions 0).last_cseq =
    ((rtsp_client_run scenario_params scenario_messages
      [Event.SendMessage 0 0 env_send_failed]).messages 0).cseq :=
  ⟨by decide, by decide,
    C6_session_invariant scenario_params scenario_messages
      [Event.SendMessage 0 0 env_send_failed] 0 0 (by decide)
      (by
        intro s s1 m h1 h2
        by_cases hs : s = 0
        · by_cases hs1 : s1 = 0
          · rw [hs, hs1]
          · simp [submitted, Event.submission_of, Ne.symm hs1] at h2
        · simp [submitted, Event.submission_of, Ne.symm hs] at h1)
      (by decide)⟩

/-- Counterexample to C6 as stated: a request whose CSeq field is 7 is
submitted on a fresh session and connection creation fails; the request
stays the active request with CSeq 7 while `last_cseq` is 0.  The same
happens with a request that session 1 completed before (CSeq 1) and that is
then submitted on the fresh session 0.  Last, with every connection created:
the TEARDOWN (message 3) is active on session 1 with CSeq 2 when it is
submitted on the fresh session 0 as well, which stamps it with CSeq 1. -/
theorem C6_session_invariant_counterexample :
    (((rtsp_client_run scenario_params stale_messages
        [Event.SendMessage 0 0 env_connect_failed]).sessions 0).active_request = some 0 ∧
      ((rtsp_client_run scenario_params stale_messages
        [Event.SendMessage 0 0 env_connect_failed]).sessions 0).last_cseq = 0 ∧
      ((rtsp_client_run scenario_params stale_messages
        [Event.SendMessage 0 0 env_connect_failed]).messages 0).cseq = 7) ∧
    (((rtsp_client_run scenario_params scenario_messages
        [Event.SendMessage 1 0 env_ok, Event.Message 0 (scenario_response 1 "ABC123") env_ok,
          Event.SendMessage 0 0 env_connect_failed]).sessions 0).active_request = some 0 ∧
      ((rtsp_client_run scenario_params scenario_messages
        [Event.SendMessage 1 0 env_ok, Event.Message 0 (scenario_response 1 "ABC123") env_ok,
          Event.SendMessage 0 0 env_connect_failed]).sessions 0).last_cseq = 0 ∧
      ((rtsp_client_run scenario_params scenario_messages
        [Event.SendMessage 1 0 env_ok, Event.Message 0 (scenario_response 1 "ABC123") env_ok,
          Event.SendMessage 0 0 env_connect_failed]).messages 0).cseq = 1) ∧
    (((rtsp_client_run scenario_params scenario_messages
        [Event.SendMessage 1 0 env_ok, Event.Message 0 (scenario_response 1 "ABC123") env_ok,
          Event.SendMessage 1 3 env_ok, Event.SendMessage 0 3 env_ok]).sessions
            1).active_request = some 3 ∧
      ((rtsp_client_run scenario_params scenario_messages
        [Event.SendMessage 1 0 env_ok, Event.Message 0 (scenario_response 1 "ABC123") env_ok,
          Event.SendMessage 1 3 env_ok, Event.SendMessage 0 3 env_ok]).sessions
            1).last_cseq = 2 ∧
      ((rtsp_client_run scenario_params scenario_messages
        [Event.SendMessage 1 0 env_ok, Event.Message 0 (scenario_response 1 "ABC123") env_ok,
          Event.SendMessage 1 3 env_ok, Event.SendMessage 0 3 env_ok]).messages 3).cseq = 1) := by
  decide

/-! ## C7: FIFO preservation -/

@[simp]
theorem sent_pointers_nil (s : SessionPtr) : sent_pointers s [] = [] := rfl

@[simp]
theorem sent_pointers_append (s : SessionPtr) (xs ys : List Output) :
    sent_pointers s (xs ++ ys) = sent_pointers s xs ++ sent_pointers s ys := by
  simp [sent_pointers]

@[simp]
theorem sent_pointers_cons_request (s session : SessionPtr) (c : ConnectionPtr)
    (r : MessagePtr) (m : rtsp_message_t) (status : Bool) (rest : List Output) :
    sent_pointers s (Output.request session c r m status :: rest) =
      (if s = session then [r] else []) ++ sent_pointers s rest := by
  by_cases h : s = session <;> simp [sent_pointers, h]

@[simp]
theorem sent_pointers_cons_connect (s : SessionPtr) (a : String) (b : Nat)
    (c : Option ConnectionPtr) (rest : List Output) :
    sent_pointers s (Output.connect a b c :: rest) = sent_pointers s rest := by
  simp [sent_pointers]

@[simp]
theorem sent_pointers_cons_callback (s session : SessionPtr) (r : MessagePtr)
    (m : rtsp_message_t) (rest : List Output) :
    sent_pointers s (Output.on_session_response session r m :: rest) =
      sent_pointers s rest := by
  simp [sent_pointers]

@[simp]
theorem sent_pointers_cons_destroy (s : SessionPtr) (c : ConnectionPtr) (rest : List Output) :
    sent_pointers s (Output.connection_destroy c :: rest) = sent_pointers s rest := by
  simp [sent_pointers]

/-- The FIFO bookkeeping of a session only looks at its trace projections,
its active request, its queue and whether it is bound. -/
theorem FifoAt.fifo_congr {st st1 : State} {sub : List MessagePtr} {s : SessionPtr}
    (h : FifoAt st sub s)
    (hcb : response_callbacks s st1.trace = response_callbacks s st.trace)
    (hsent : sent_pointers s st1.trace = sent_pointers s st.trace)
    (ha : (st1.sessions s).active_request = (st.sessions s).active_request)
    (hq : (st1.sessions s).request_queue = (st.sessions s).request_queue)
    (hc : (st1.sessions s).connection = (st.sessions s).connection) : FifoAt st1 sub s := by
  unfold FifoAt at h ⊢
  rw [hcb, hsent, ha, hq, hc]
  exact h

/-- Dispatch of the active request of a session whose bookkeeping holds up
to that request. -/
theorem FifoInv.fifo_request_process {st : State} {sub : SessionPtr → List MessagePtr}
    (env : NetEnv) (session : SessionPtr) (message : MessagePtr)
    (hother : ∀ s, s ≠ session → FifoAt st (sub s) s)
    (hactive : (st.sessions session).active_request = some message)
    (hsub : sub session = response_callbacks session st.trace ++ [message] ++
      (st.sessions session).request_queue)
    (hsent : sent_pointers session st.trace = response_callbacks session st.trace)
    (hdet : (st.sessions session).connection = none →
      response_callbacks session st.trace = []) :
    FifoInv (rtsp_client_session_request_process env st session message).1 sub := by
  cases hc : (st.sessions session).connection with
  | some c =>
    rw [request_process_bound env st session message c hc]
    intro s
    by_cases hs : s = session
    · subst hs
      refine ⟨by simp [hsub, hactive], by simp [hactive], by simp [hsent, hactive],
        by simp [hc]⟩
    · have hs1 : session ≠ s := Ne.symm hs
      refine (hother s hs).fifo_congr (by simp) (by simp [hs]) ?_ ?_ ?_ <;>
        simp [Function.update_noteq hs]
  | none =>
    cases he : env.connect with
    | none =>
      rw [request_process_connect_failed env st session message hc he]
      intro s
      by_cases hs : s = session
      · subst hs
        refine ⟨by simp [hsub, hactive], by simp [hactive], by simp [hc], ?_⟩
        intro _
        simp [hsent, hdet hc]
      · exact (hother s hs).fifo_congr (by simp) (by simp) rfl rfl rfl
    | some sock =>
      rw [request_process_connect_ok env st session message sock hc he]
      intro s
      by_cases hs : s = session
      · subst hs
        refine ⟨by simp [hsub, hactive], by simp [hactive], ?_, by simp⟩
        intro _
        simp [hsent, hactive]
      · have hs1 : session ≠ s := Ne.symm hs
        refine (hother s hs).fifo_congr (by simp) (by simp [hs]) ?_ ?_ ?_ <;>
          simp [Function.update_noteq hs]

theorem FifoInv.fifo_message_process {st : State} {sub : SessionPtr → List MessagePtr}
    (h : FifoInv st sub) (env : NetEnv) (session : SessionPtr) (message : MessagePtr) :
    FifoInv (rtsp_client_session_message_process env st session message).1
      (fun s => sub s ++
        (Event.submission_of s (Event.SendMessage session message env)).toList) := by
  cases ha : (st.sessions session).active_request with
  | some a =>
    rw [message_process_queued env st session message a ha]
    intro s
    by_cases hs : s = session
    · subst hs
      obtain ⟨h1, h2, h3, h4⟩ := h s
      refine ⟨by simp [Event.submission_of, h1, ha], by simp [ha], ?_, ?_⟩
      · simpa [ha] using h3
      · simpa using h4
    · have hs1 : session ≠ s := Ne.symm hs
      have hsame : sub s ++
          (Event.submission_of s (Event.SendMessage session message env)).toList = sub s := by
        simp [Event.submission_of, hs1]
      show FifoAt _ (sub s ++ _) s
      rw [hsame]
      refine (h s).fifo_congr rfl rfl ?_ ?_ ?_ <;> simp [Function.update_noteq hs]
  | none =>
    rw [message_process_idle env st session message ha]
    obtain ⟨h1, h2, h3, h4⟩ := h session
    apply FifoInv.fifo_request_process env session message
    · intro s hs
      have hs1 : session ≠ s := Ne.symm hs
      have hsame : sub s ++
          (Event.submission_of s (Event.SendMessage session message env)).toList = sub s := by
        simp [Event.submission_of, hs1]
      show FifoAt _ (sub s ++ _) s
      rw [hsame]
      refine (h s).fifo_congr rfl rfl ?_ ?_ ?_ <;> simp [Function.update_noteq hs]
    · simp
    · simp [Event.submission_of, h1, ha, h2 ha]
    · cases hc : (st.sessions session).connection with
      | none => simp [(h4 hc).1, (h4 hc).2]
      | some c => simpa [ha] using h3 (by simp [hc])
    · intro hc
      exact (h4 (by simpa using hc)).2

/-- The target found for a response is bound to the connection the response
arrived on. -/
theorem session_find_target_bound {st : State} (h : BindInv st) (c : ConnectionPtr)
    (message : rtsp_message_t) (session : SessionPtr)
    (hfind : (rtsp_client_session_find st c message).2 = some session) :
    (st.sessions session).connection = some c := by
  cases hget : apr_hash_get (st.connections c).session_table (apr_hash_key message.session_id) with
  | some t =>
    rw [session_find_hit st c message t hget] at hfind
    have ht : t = session := Option.some.inj hfind
    subst ht
    exact h.2.1 c _ (apr_hash_get_some_mem _ _ _ hget)
  | none =>
    cases hscan : pending_session_scan st.sessions message.cseq
        (st.connections c).pending_session_queue with
    | none =>
      rw [session_find_miss st c message hget hscan] at hfind
      exact Option.noConfusion hfind
    | some r =>
      obtain ⟨t, queue⟩ := r
      rw [session_find_promote st c message t queue hget hscan] at hfind
      have ht : t = session := Option.some.inj hfind
      subst ht
      obtain ⟨pre, post, e1, _, _, _⟩ := pending_session_scan_some _ _ _ _ _ hscan
      exact h.1 c t (by rw [e1]; simp)

theorem FifoInv.fifo_response_process {st : State} {sub : SessionPtr → List MessagePtr}
    (h : FifoInv st sub) (hb : BindInv st) (env : NetEnv) (c : ConnectionPtr)
    (message : rtsp_message_t) :
    FifoInv (rtsp_client_session_response_process env st c message).1 sub := by
  by_cases ht : message.message_type = RTSP_MESSAGE_TYPE_REQUEST
  · obtain ⟨extra, h1, h2, h3, _⟩ := event_process_state env st c message
    rw [response_process_request env st c message ht, h1]
    intro s
    exact (h s).fifo_congr (by simp [h3 s]) (by simp [sent_pointers, h2 s]) rfl rfl rfl
  cases hp : rtsp_header_property_check message.property_set RTSP_HEADER_FIELD_SESSION_ID with
  | false => rw [response_process_no_session_id env st c message ht hp]; exact h
  | true =>
    have hf := session_find_frame st c message
    have h1 : FifoInv (rtsp_client_session_find st c message).1 sub := by
      intro s
      exact (h s).fifo_congr (by rw [hf.1]) (by rw [hf.1]) (hf.2.2.2.2 s).2.1 (hf.2.2.2.2 s).2.2.1
        (hf.2.2.2.2 s).2.2.2
    cases hfind : (rtsp_client_session_find st c message).2 with
    | none => rw [response_process_no_target env st c message ht hp hfind]; exact h1
    | some session =>
      cases ha : ((rtsp_client_session_find st c message).1.sessions session).active_request with
      | none => rw [response_process_spurious env st c message session ht hp hfind ha]; exact h1
      | some active =>
        have hbound : ((rtsp_client_session_find st c message).1.sessions session).connection =
            some c := by
          rw [(hf.2.2.2.2 session).2.2.2]
          exact session_find_target_bound hb c message session hfind
        obtain ⟨g1, g2, g3, g4⟩ := h1 session
        have g3a := g3 (by rw [hbound]; simp)
        rw [ha] at g1 g3a
        cases hq : ((rtsp_client_session_find st c message).1.sessions session).request_queue with
        | nil =>
          rw [response_process_last env st c message session active ht hp hfind ha hq]
          intro s
          by_cases hs : s = session
          · subst hs
            rw [hq] at g1
            refine ⟨by simpa [hq] using g1, by simp [hq], ?_, ?_⟩
            · intro _
              simpa using g3a
            · intro hc
              simp [hbound] at hc
          · have hs1 : session ≠ s := Ne.symm hs
            refine (h1 s).fifo_congr (by simp [hs]) (by simp) ?_ ?_ ?_ <;>
              simp [Function.update_noteq hs]
        | cons next rest =>
          rw [response_process_next env st c message session active next rest ht hp hfind ha hq]
          rw [hq] at g1
          apply FifoInv.fifo_request_process env session next
          · intro s hs
            have hs1 : session ≠ s := Ne.symm hs
            refine (h1 s).fifo_congr (by simp [hs]) (by simp) ?_ ?_ ?_ <;>
              simp [Function.update_noteq hs]
          · simp
          · simpa using g1
          · simpa using g3a
          · intro hc
            simp [hbound] at hc

theorem FifoInv.fifo_on_disconnect {st : State} {sub : SessionPtr → List MessagePtr}
    (h : FifoInv st sub) (c : ConnectionPtr) : FifoInv (rtsp_client_on_disconnect st c) sub := by
  unfold rtsp_client_on_disconnect
  simp only []
  split
  · intro s; exact (h s).fifo_congr rfl rfl rfl rfl rfl
  · intro s; exact (h s).fifo_congr (by simp) (by simp) rfl rfl rfl

/-- The FIFO bookkeeping along a run, against the messages submitted by the
events of the run. -/
theorem FifoInv.fifo_run (events : List Event) :
    ∀ (st : State) (sub : SessionPtr → List MessagePtr),
      BindInv st → FifoInv st sub →
      FifoInv (run st events) (fun s => sub s ++ submitted s events) := by
  induction events with
  | nil =>
    intro st sub _ h
    simpa [submitted, run_nil] using h
  | cons e rest ih =>
    intro st sub hb h
    rw [run_cons]
    have hstep : FifoInv (step st e) (fun s => sub s ++ (Event.submission_of s e).toList) := by
      cases e with
      | SendMessage session message env => exact h.fifo_message_process env session message
      | TerminateSession session => simpa [Event.submission_of] using h
      | Message connection message env =>
        simpa [Event.submission_of] using h.fifo_response_process hb env connection message
      | Disconnect connection =>
        simpa [Event.submission_of] using h.fifo_on_disconnect connection
    have hrest := ih (step st e) _ (hb.bind_step e) hstep
    have heq : (fun s => (sub s ++ (Event.submission_of s e).toList) ++ submitted s rest) =
        (fun s => sub s ++ submitted s (e :: rest)) := by
      funext s
      cases hse : Event.submission_of s e <;>
        simp [submitted, List.filterMap_cons, hse]
    rw [heq] at hrest
    exact hrest

theorem FifoInv.fifo_create (params : SessionPtr → String × Nat × String)
    (messages : MessagePtr → rtsp_message_t) :
    FifoInv (rtsp_client_create params messages) (fun _ => []) := by
  intro s
  refine ⟨?_, ?_, ?_, ?_⟩ <;> simp [rtsp_client_create, rtsp_client_session_create]

/-- C7 (FIFO preservation): after any sequence of events from freshly
created sessions, for every session the original requests passed to
`on_session_response` are an initial segment of the messages submitted for
the session, in submission order (the i-th callback carries the i-th
submitted request); the requests handed to the sender are an initial segment
of the submitted messages as well, and every callback is for a request that
was handed to the sender before. -/
theorem C7_fifo_preservation (params : SessionPtr → String × Nat × String)
    (messages : MessagePtr → rtsp_message_t) (events : List Event) (session : SessionPtr) :
    response_callbacks session (rtsp_client_run params messages events).trace <+:
      submitted session events ∧
    sent_pointers session (rtsp_client_run params messages events).trace <+:
      submitted session events ∧
    response_callbacks session (rtsp_client_run params messages events).trace <+:
      sent_pointers session (rtsp_client_run params messages events).trace := by
  have h := FifoInv.fifo_run events _ _ (BindInv.bind_create params messages)
    (FifoInv.fifo_create params messages) session
  simp only [List.nil_append] at h
  obtain ⟨h1, _, h3, h4⟩ := h
  have hrun : run (rtsp_client_create params messages) events =
      rtsp_client_run params messages events := rfl
  rw [hrun] at h1 h3 h4
  refine ⟨⟨_, by rw [h1, List.append_assoc]⟩, ?_, ?_⟩
  · cases hc : ((rtsp_client_run params messages events).sessions session).connection with
    | none =>
      rw [(h4 hc).1]
      exact List.nil_prefix
    | some c =>
      rw [h3 (by rw [hc]; simp), h1]
      exact List.prefix_append _ _
  · cases hc : ((rtsp_client_run params messages events).sessions session).connection with
    | none =>
      rw [(h4 hc).2]
      exact List.nil_prefix
    | some c =>
      rw [h3 (by rw [hc]; simp)]
      exact List.prefix_append _ _

/-! ## C8: pipeline advance -/

/-- C8 (pipeline advance): when a response is correlated to a session that
has an active request and is bound to a connection, `on_session_response` is
invoked with that request, then `active_request` becomes the front element
removed from `request_queue` (none if the queue was empty) and the rest of
the queue keeps its order; a request taken from the queue is handed to the
sender at once, over the connection the session is bound to, stamped with
the previous `last_cseq` plus one (no overflow assumed); no connection is
created. -/
theorem C8_pipeline_advance (env : NetEnv) (st : State) (c c0 : ConnectionPtr)
    (message : rtsp_message_t) (session : SessionPtr) (active : MessagePtr)
    (r : State × Bool)
    (hr : r = rtsp_client_session_response_process env st c message)
    (htype : message.message_type = RTSP_MESSAGE_TYPE_RESPONSE)
    (hsid : rtsp_header_property_check message.property_set RTSP_HEADER_FIELD_SESSION_ID = true)
    (hfind : (rtsp_client_session_find st c message).2 = some session)
    (hactive : (st.sessions session).active_request = some active)
    (hbound : (st.sessions session).connection = some c0)
    (hno : (st.sessions session).last_cseq + 1 < APR_SIZE_MODULUS) :
    r.1.connection_list = st.connection_list ∧
    r.1.next_connection = st.next_connection ∧
    (r.1.sessions session).active_request = (st.sessions session).request_queue.head? ∧
    (r.1.sessions session).request_queue = (st.sessions session).request_queue.tail ∧
    (r.1.sessions session).connection = some c0 ∧
    ((st.sessions session).request_queue = [] →
      r.1.trace = st.trace ++ [Output.on_session_response session active message] ∧
      (r.1.sessions session).last_cseq = (st.sessions session).last_cseq ∧
      r.1.messages = st.messages) ∧
    (∀ next rest, (st.sessions session).request_queue = next :: rest →
      r.1.trace = st.trace ++
        [Output.on_session_response session active message,
          Output.request session c0 next (r.1.messages next)
            (rtsp_client_message_send env (r.1.connections c0))] ∧
      (r.1.messages next).cseq = (st.sessions session).last_cseq + 1 ∧
      rtsp_header_property_check (r.1.messages next).property_set RTSP_HEADER_FIELD_CSEQ =
        true ∧
      (r.1.sessions session).last_cseq = (st.sessions session).last_cseq + 1) := by
  have ht : message.message_type ≠ RTSP_MESSAGE_TYPE_REQUEST := by rw [htype]; decide
  obtain ⟨f1, f2, f3, f4, f5⟩ := session_find_frame st c message
  have ha : ((rtsp_client_session_find st c message).1.sessions session).active_request =
      some active := by rw [(f5 session).2.1]; exact hactive
  have hb : ((rtsp_client_session_find st c message).1.sessions session).connection =
      some c0 := by rw [(f5 session).2.2.2]; exact hbound
  have hl := (f5 session).1
  have hqs := (f5 session).2.2.1
  cases hq : (st.sessions session).request_queue with
  | nil =>
    have hq1 : ((rtsp_client_session_find st c message).1.sessions session).request_queue =
        [] := by rw [hqs]; exact hq
    rw [hr, response_process_last env st c message session active ht hsid hfind ha hq1]
    refine ⟨f3, f4, by simp, by simp [hq1], by simp [hb], ?_, ?_⟩
    · intro _
      exact ⟨by simp [f1], by simp [hl], f2⟩
    · intro next rest hcontra
      exact List.noConfusion hcontra
  | cons next rest =>
    have hq1 : ((rtsp_client_session_find st c message).1.sessions session).request_queue =
        next :: rest := by rw [hqs]; exact hq
    rw [hr, response_process_next env st c message session active next rest ht hsid hfind ha hq1]
    simp only []
    rw [request_process_bound env _ session next c0 (by simp [hb])]
    refine ⟨f3, f4, by simp, by simp, by simp [hb], ?_, ?_⟩
    · intro hcontra
      exact List.noConfusion hcontra
    · intro next1 rest1 heq
      obtain ⟨e1, e2⟩ := List.cons.inj heq
      subst e1 e2
      refine ⟨by simp [f1], ?_, ?_, ?_⟩
      · simp [stamped_request, hl, Nat.mod_eq_of_lt hno]
      · simp [stamped_request, property_check_add]
      · simp [stamped_request, hl, Nat.mod_eq_of_lt hno]

/-- Witness for C8 (scenario S2): with PLAY (CSeq 2) active and PAUSE queued,
the `200 OK` with CSeq 2 makes PAUSE the active request and hands it to the
sender with CSeq 3, after the callback for PLAY. -/
theorem C8_pipeline_advance_witness :
    (scenario_play_active.sessions 0).active_request = some 1 ∧
    (scenario_play_active.messages 1).cseq = 2 ∧
    (scenario_play_active.sessions 0).request_queue = [2] ∧
    ((rtsp_client_session_response_process env_ok scenario_play_active 0
      (scenario_response 2 "ABC123")).1.sessions 0).active_request = some 2 ∧
    ((rtsp_client_session_response_process env_ok scenario_play_active 0
      (scenario_response 2 "ABC123")).1.messages 2).cseq = 3 ∧
    (rtsp_client_session_response_process env_ok scenario_play_active 0
      (scenario_response 2 "ABC123")).1.trace =
      scenario_play_active.trace ++
        [Output.on_session_response 0 1 (scenario_response 2 "ABC123"),
          Output.request 0 0 2
            ((rtsp_client_session_response_process env_ok scenario_play_active 0
              (scenario_response 2 "ABC123")).1.messages 2) true] := by
  have h := C8_pipeline_advance env_ok scenario_play_active 0 0 (scenario_response 2 "ABC123")
    0 1 _ rfl (by decide) (by decide) (by decide) (by decide) (by decide) (by decide)
  have h7 := h.2.2.2.2.2.2 2 [] (by decide)
  refine ⟨by decide, by decide, by decide, ?_, ?_, ?_⟩
  · rw [h.2.2.1]; decide
  · rw [h7.2.1]; decide
  · rw [h7.1]
    have hs : rtsp_client_message_send env_ok
        ((rtsp_client_session_response_process env_ok scenario_play_active 0
          (scenario_response 2 "ABC123")).1.connections 0) = true := by decide
    rw [hs]

/-! ## C9: URL generation -/

theorem strlen_eq_zero (src : String) : strlen src = 0 ↔ src = "" := by
  constructor
  · intro h
    have hd : src.data = [] := List.length_eq_zero.mp h
    exact String.ext hd
  · intro h
    rw [h]
    rfl

/-- C9 (URL generation): `rtsp_client_session_url_generate` overwrites the
url of the message and nothing else.  With a non-empty resource location the
url is `rtsp://` ++ server_ip ++ `:` ++ decimal(server_port) ++ `/` ++
resource_location ++ `/` ++ resource_name, with an empty one it is `rtsp://`
++ server_ip ++ `:` ++ decimal(server_port) ++ `/` ++ resource_name; the
length recorded in the url is the length of that string.  For a session made
by `rtsp_client_session_create` the resource location is non-empty exactly
when the string given at creation is. -/
theorem C9_url_generate (session : rtsp_client_session_t) (message : rtsp_message_t) :
    (session.resource_location.length ≠ 0 →
      (rtsp_client_session_url_generate session message).url.buf =
        "rtsp://" ++ session.server_ip.buf ++ ":" ++ toString session.server_port ++ "/"
          ++ session.resource_location.buf ++ "/" ++ message.resource_name) ∧
    (session.resource_location.length = 0 →
      (rtsp_client_session_url_generate session message).url.buf =
        "rtsp://" ++ session.server_ip.buf ++ ":" ++ toString session.server_port ++ "/"
          ++ message.resource_name) ∧
    (rtsp_client_session_url_generate session message).url.length =
      strlen (rtsp_client_session_url_generate session message).url.buf ∧
    rtsp_client_session_url_generate session message =
      { message with url := (rtsp_client_session_url_generate session message).url } ∧
    (∀ server_ip server_port resource_location,
      session = rtsp_client_session_create server_ip server_port resource_location →
      (session.resource_location.length ≠ 0 ↔ resource_location ≠ "") ∧
      session.server_ip.buf = server_ip ∧ session.server_port = server_port ∧
      session.resource_location.buf = resource_location) := by
  refine ⟨?_, ?_, ?_, ?_, ?_⟩
  · intro h
    simp [rtsp_client_session_url_generate, h]
  · intro h
    simp [rtsp_client_session_url_generate, h]
  · simp [rtsp_client_session_url_generate]
  · simp [rtsp_client_session_url_generate]
  · intro server_ip server_port resource_location hs
    subst hs
    refine ⟨?_, rfl, rfl, rfl⟩
    simp [rtsp_client_session_create, apt_string_assign, strlen_eq_zero]

/-- Witness for C9 (scenario S1): server 10.0.0.1, port 554, resource
location `media` and resource `audio` give
`rtsp://10.0.0.1:554/media/audio`, of length 31. -/
theorem C9_url_generate_witness :
    (rtsp_client_session_create "10.0.0.1" 554 "media").resource_location.length ≠ 0 ∧
    (rtsp_client_session_url_generate (rtsp_client_session_create "10.0.0.1" 554 "media")
      (scenario_request RTSP_METHOD_SETUP)).url.buf = "rtsp://10.0.0.1:554/media/audio" ∧
    (rtsp_client_session_url_generate (rtsp_client_session_create "10.0.0.1" 554 "media")
      (scenario_request RTSP_METHOD_SETUP)).url.length = 31 ∧
    (rtsp_client_session_url_generate (rtsp_client_session_create "10.0.0.1" 554 "")
      (scenario_request RTSP_METHOD_SETUP)).url.buf = "rtsp://10.0.0.1:554/audio" := by
  have h := C9_url_generate (rtsp_client_session_create "10.0.0.1" 554 "media")
    (scenario_request RTSP_METHOD_SETUP)
  have h0 := C9_url_generate (rtsp_client_session_create "10.0.0.1" 554 "")
    (scenario_request RTSP_METHOD_SETUP)
  refine ⟨by decide, ?_, ?_, ?_⟩
  · rw [h.1 (by decide)]; decide
  · rw [h.2.2.1, h.1 (by decide)]; decide
  · rw [h0.2.1 (by decide)]; decide

/-! ## C10: server event for a known session -/

/-- C10 (server event for a known session): for a server-originated request
whose Session-ID header is a key of the connection's session table, the
client composes a `200 OK` response with the Session-ID of the request
(header marked present) and, the request carrying a CSeq header, with the
CSeq of the request (header marked present); it invokes `on_session_event`
once, for the session found and with the request, then hands that response
to the sender and returns the sender's status.  Nothing but the trace
changes: sessions, connections, the connection list and the request messages
stay as they are. -/
theorem C10_session_event (env : NetEnv) (st : State) (c : ConnectionPtr)
    (message : rtsp_message_t) (session : SessionPtr) (r : State × Bool)
    (hr : r = rtsp_client_session_response_process env st c message)
    (htype : message.message_type = RTSP_MESSAGE_TYPE_REQUEST)
    (hsid : rtsp_header_property_check message.property_set RTSP_HEADER_FIELD_SESSION_ID = true)
    (hhit : apr_hash_get (st.connections c).session_table (apr_hash_key message.session_id) =
      some session) :
    r = rtsp_client_session_event_process env st c message ∧
    r.1 = { st with
      trace := st.trace ++
        [Output.on_session_event session message,
          Output.response c (session_event_response_found message) r.2] } ∧
    r.2 = rtsp_client_message_send env (st.connections c) ∧
    (session_event_response_found message).message_type = RTSP_MESSAGE_TYPE_RESPONSE ∧
    (session_event_response_found message).status_code = RTSP_STATUS_CODE_OK ∧
    (session_event_response_found message).status_code.value = 200 ∧
    (session_event_response_found message).session_id = message.session_id ∧
    rtsp_header_property_check (session_event_response_found message).property_set
      RTSP_HEADER_FIELD_SESSION_ID = true ∧
    (rtsp_header_property_check message.property_set RTSP_HEADER_FIELD_CSEQ = true →
      (session_event_response_found message).cseq = message.cseq ∧
      rtsp_header_property_check (session_event_response_found message).property_set
        RTSP_HEADER_FIELD_CSEQ = true) := by
  have he : r = rtsp_client_session_event_process env st c message := by
    rw [hr, response_process_request env st c message htype]
  have hstatus : (rtsp_response_create message RTSP_STATUS_CODE_OK
      RTSP_REASON_PHRASE_OK).status_code = RTSP_STATUS_CODE_OK := by
    unfold rtsp_response_create
    split <;> rfl
  have htyp : (rtsp_response_create message RTSP_STATUS_CODE_OK
      RTSP_REASON_PHRASE_OK).message_type = RTSP_MESSAGE_TYPE_RESPONSE := by
    unfold rtsp_response_create
    split <;> rfl
  have hfound : session_event_response_found message =
      { rtsp_response_create message RTSP_STATUS_CODE_OK RTSP_REASON_PHRASE_OK with
        session_id := message.session_id
        property_set := rtsp_header_property_add
          (rtsp_response_create message RTSP_STATUS_CODE_OK RTSP_REASON_PHRASE_OK).property_set
          RTSP_HEADER_FIELD_SESSION_ID } := by
    simp [session_event_response_found, hsid]
  refine ⟨he, ?_, ?_, ?_, ?_, ?_, ?_, ?_, ?_⟩
  · rw [he]
    simp [rtsp_client_session_event_process, hsid, hhit]
  · rw [he]
    simp [rtsp_client_session_event_process, hsid, hhit]
  · rw [hfound]; exact htyp
  · rw [hfound]; exact hstatus
  · rw [hfound]
    show (rtsp_response_create message RTSP_STATUS_CODE_OK
      RTSP_REASON_PHRASE_OK).status_code.value = 200
    rw [hstatus]; rfl
  · rw [hfound]
  · rw [hfound]; exact property_check_add _ _
  · intro hc
    have hmem : RTSP_HEADER_FIELD_CSEQ ∈ message.property_set := by
      simpa [rtsp_header_property_check] using hc
    rw [hfound]
    simp [rtsp_response_create, hmem, rtsp_header_property_add, rtsp_header_property_check,
      rtsp_message_create]

/-- Witness for C10 (scenario S3): with session `ABC123` established, the
ANNOUNCE with CSeq 77 and Session `ABC123` fires `on_session_event` for
session 0 and a `200 OK` with CSeq 77 and Session `ABC123` is sent. -/
theorem C10_session_event_witness :
    (rtsp_client_session_response_process env_ok scenario_established 0
      (scenario_announce 77 "ABC123")).1.trace =
      scenario_established.trace ++
        [Output.on_session_event 0 (scenario_announce 77 "ABC123"),
          Output.response 0
            { rtsp_message_create RTSP_MESSAGE_TYPE_RESPONSE with
              status_code := RTSP_STATUS_CODE_OK
              reason := RTSP_REASON_PHRASE_OK
              cseq := 77
              session_id := apt_string_assign "ABC123"
              property_set := [RTSP_HEADER_FIELD_SESSION_ID, RTSP_HEADER_FIELD_CSEQ] }
            true] ∧
    (rtsp_client_session_response_process env_ok scenario_established 0
      (scenario_announce 77 "ABC123")).1.sessions = scenario_established.sessions ∧
    (rtsp_client_session_response_process env_ok scenario_established 0
      (scenario_announce 77 "ABC123")).1.connections = scenario_established.connections := by
  obtain ⟨_, h1, h2, _⟩ :=
    C10_session_event env_ok scenario_established 0 (scenario_announce 77 "ABC123") 0 _ rfl
      (by decide) (by decide) (by decide)
  rw [h1]
  refine ⟨?_, rfl, rfl⟩
  show scenario_established.trace ++ _ = _
  rw [h2]
  have h3 : rtsp_client_message_send env_ok (scenario_established.connections 0) = true := by
    decide
  have h4 : session_event_response_found (scenario_announce 77 "ABC123") =
      { rtsp_message_create RTSP_MESSAGE_TYPE_RESPONSE with
        status_code := RTSP_STATUS_CODE_OK
        reason := RTSP_REASON_PHRASE_OK
        cseq := 77
        session_id := apt_string_assign "ABC123"
        property_set := [RTSP_HEADER_FIELD_SESSION_ID, RTSP_HEADER_FIELD_CSEQ] } := by
    decide
  rw [h3, h4]

/-! ## C11: server event for an unknown session -/

/-- C11, evaluated at the failing input (scenario S4): with session `ABC123`
established, the ANNOUNCE with CSeq 77 for the unknown Session-ID `ZZZ` is
answered with a `404 Not Found` that carries CSeq 77, and `on_session_event`
is not invoked and no state but the trace changes; but the response has the
Session-ID header marked present, with an empty Session-ID, because the
header property added next to the CSeq copy is `RTSP_HEADER_FIELD_SESSION_ID`. -/
theorem C11_unknown_session_event_failing_input :
    (rtsp_client_session_response_process env_ok scenario_established 0
      scenario_unknown_announce).1.trace =
      scenario_established.trace ++
        [Output.response 0 (session_event_response_not_found scenario_unknown_announce) true] ∧
    (session_event_response_not_found scenario_unknown_announce).status_code =
      RTSP_STATUS_CODE_NOT_FOUND ∧
    (session_event_response_not_found scenario_unknown_announce).cseq = 77 ∧
    rtsp_header_property_check
      (session_event_response_not_found scenario_unknown_announce).property_set
      RTSP_HEADER_FIELD_CSEQ = true ∧
    rtsp_header_property_check
      (session_event_response_not_found scenario_unknown_announce).property_set
      RTSP_HEADER_FIELD_SESSION_ID = true ∧
    (session_event_response_not_found scenario_unknown_announce).session_id =
      apt_string_reset ∧
    (rtsp_client_session_response_process env_ok scenario_established 0
      scenario_unknown_announce).1.sessions = scenario_established.sessions ∧
    (rtsp_client_session_response_process env_ok scenario_established 0
      scenario_unknown_announce).1.connections = scenario_established.connections := by
  have hnone : apr_hash_get (scenario_established.connections 0).session_table
      (apr_hash_key scenario_unknown_announce.session_id) = none := by decide
  have hr : rtsp_client_session_response_process env_ok scenario_established 0
      scenario_unknown_announce =
      ({ scenario_established with
          trace := scenario_established.trace ++
            [Output.response 0 (session_event_response_not_found scenario_unknown_announce)
              (rtsp_client_message_send env_ok (scenario_established.connections 0))] },
        rtsp_client_message_send env_ok (scenario_established.connections 0)) := by
    rw [response_process_request env_ok scenario_established 0 scenario_unknown_announce
      (by decide)]
    simp [rtsp_client_session_event_process, hnone]
  have hs : rtsp_client_message_send env_ok (scenario_established.connections 0) = true := by
    decide
  rw [hr, hs]
  exact ⟨rfl, by decide, by decide, by decide, by decide, by decide, rfl, rfl⟩

/-! ## C12 and C13: session termination -/

/-- C12 (idempotent terminate): processing `TerminateSession` for a session
twice in a row yields the same state as processing it once, hence the same
trace: the same wire output and the same callbacks. -/
theorem C12_idempotent_terminate (st : State) (session : SessionPtr) :
    step (step st (Event.TerminateSession session)) (Event.TerminateSession session) =
      step st (Event.TerminateSession session) ∧
    run st [Event.TerminateSession session, Event.TerminateSession session] =
      run st [Event.TerminateSession session] ∧
    (run st [Event.TerminateSession session, Event.TerminateSession session]).trace =
      (run st [Event.TerminateSession session]).trace :=
  ⟨rfl, rfl, rfl⟩

theorem request_process_terminating (env : NetEnv) (st : State) (session : SessionPtr)
    (message : MessagePtr) (s : SessionPtr) :
    ((rtsp_client_session_request_process env st session message).1.sessions s).terminating =
      (st.sessions s).terminating := by
  cases hc : (st.sessions session).connection with
  | some c =>
    rw [request_process_bound env st session message c hc]
    by_cases hs : s = session <;> simp [hs, Function.update_apply]
  | none =>
    cases he : env.connect with
    | none => rw [request_process_connect_failed env st session message hc he]
    | some sock =>
      rw [request_process_connect_ok env st session message sock hc he]
      by_cases hs : s = session <;> simp [hs, Function.update_apply]

theorem message_process_terminating (env : NetEnv) (st : State) (session : SessionPtr)
    (message : MessagePtr) (s : SessionPtr) :
    ((rtsp_client_session_message_process env st session message).1.sessions s).terminating =
      (st.sessions s).terminating := by
  cases ha : (st.sessions session).active_request with
  | some a =>
    rw [message_process_queued env st session message a ha]
    by_cases hs : s = session <;> simp [hs, Function.update_apply]
  | none =>
    rw [message_process_idle env st session message ha, request_process_terminating]
    by_cases hs : s = session <;> simp [hs, Function.update_apply]

theorem session_find_terminating (st : State) (c : ConnectionPtr) (message : rtsp_message_t)
    (s : SessionPtr) :
    ((rtsp_client_session_find st c message).1.sessions s).terminating =
      (st.sessions s).terminating := by
  cases hget : apr_hash_get (st.connections c).session_table (apr_hash_key message.session_id) with
  | some t => rw [session_find_hit st c message t hget]
  | none =>
    cases hscan : pending_session_scan st.sessions message.cseq
        (st.connections c).pending_session_queue with
    | none => rw [session_find_miss st c message hget hscan]
    | some r =>
      obtain ⟨t, queue⟩ := r
      rw [session_find_promote st c message t queue hget hscan]
      by_cases hs : s = t <;> simp [hs, Function.update_apply]

theorem response_process_terminating (env : NetEnv) (st : State) (c : ConnectionPtr)
    (message : rtsp_message_t) (s : SessionPtr) :
    ((rtsp_client_session_response_process env st c message).1.sessions s).terminating =
      (st.sessions s).terminating := by
  by_cases ht : message.message_type = RTSP_MESSAGE_TYPE_REQUEST
  · obtain ⟨extra, h1, _, _, _⟩ := event_process_state env st c message
    rw [response_process_request env st c message ht, h1]
  cases hp : rtsp_header_property_check message.property_set RTSP_HEADER_FIELD_SESSION_ID with
  | false => rw [response_process_no_session_id env st c message ht hp]
  | true =>
    have h1 := session_find_terminating st c message s
    cases hfind : (rtsp_client_session_find st c message).2 with
    | none => rw [response_process_no_target env st c message ht hp hfind]; exact h1
    | some session =>
      cases ha : ((rtsp_client_session_find st c message).1.sessions session).active_request with
      | none => rw [response_process_spurious env st c message session ht hp hfind ha]; exact h1
      | some active =>
        cases hq : ((rtsp_client_session_find st c message).1.sessions session).request_queue with
        | nil =>
          rw [response_process_last env st c message session active ht hp hfind ha hq, ← h1]
          by_cases hs : s = session <;> simp [hs, Function.update_apply]
        | cons next rest =>
          rw [response_process_next env st c message session active next rest ht hp hfind ha hq]
          simp only []
          rw [request_process_terminating, ← h1]
          by_cases hs : s = session <;> simp [hs, Function.update_apply]

theorem on_disconnect_sessions (st : State) (c : ConnectionPtr) :
    (rtsp_client_on_disconnect st c).sessions = st.sessions ∧
    (rtsp_client_on_disconnect st c).connections = st.connections ∧
    (rtsp_client_on_disconnect st c).messages = st.messages := by
  unfold rtsp_client_on_disconnect
  simp only []
  split <;> exact ⟨rfl, rfl, rfl⟩

theorem step_terminating (st : State) (e : Event) (s : SessionPtr) :
    ((step st e).sessions s).terminating = (st.sessions s).terminating := by
  cases e with
  | SendMessage session message env => exact message_process_terminating env st session message s
  | TerminateSession session => rfl
  | Message connection message env =>
    exact response_process_terminating env st connection message s
  | Disconnect connection =>
    show ((rtsp_client_on_disconnect st connection).sessions s).terminating = _
    rw [(on_disconnect_sessions st connection).1]

theorem run_terminating (events : List Event) :
    ∀ (st : State) (s : SessionPtr),
      ((run st events).sessions s).terminating = (st.sessions s).terminating := by
  induction events with
  | nil => intro st s; rfl
  | cons e rest ih =>
    intro st s
    rw [run_cons, ih, step_terminating]

/-- C13, as amended (terminating a session): processing `TerminateSession`
changes nothing, for an established session like for any other:
`rtsp_client_session_terminate_process` returns `TRUE` and leaves the state
as it is, so `terminating` keeps its value, no TEARDOWN request is
synthesized, queued or sent and no callback is made; in every state reached
from freshly created sessions `terminating` is false. -/
theorem C13_terminate_established (params : SessionPtr → String × Nat × String)
    (messages : MessagePtr → rtsp_message_t) (events : List Event) (st : State)
    (session : SessionPtr) :
    rtsp_client_session_terminate_process st session = (st, true) ∧
    step st (Event.TerminateSession session) = st ∧
    ((rtsp_client_run params messages events).sessions session).terminating = false ∧
    ((step (rtsp_client_run params messages events)
      (Event.TerminateSession session)).sessions session).terminating = false := by
  have h : ((rtsp_client_run params messages events).sessions session).terminating = false := by
    unfold rtsp_client_run
    rw [run_terminating]
    rfl
  exact ⟨rfl, rfl, h, h⟩

/-- Counterexample to C13 as stated: session 0 is established under
`ABC123` with `terminating` false and nothing active; after
`TerminateSession` its `terminating` flag is still false, no request is
active or queued and no request was handed to the sender. -/
theorem C13_terminate_established_counterexample :
    (scenario_established.sessions 0).id = apt_string_assign "ABC123" ∧
    (scenario_established.sessions 0).terminating = false ∧
    ((step scenario_established (Event.TerminateSession 0)).sessions 0).terminating = false ∧
    ((step scenario_established (Event.TerminateSession 0)).sessions 0).active_request = none ∧
    ((step scenario_established (Event.TerminateSession 0)).sessions 0).request_queue = [] ∧
    (step scenario_established (Event.TerminateSession 0)).trace =
      scenario_established.trace := by
  decide

/-! ## C14: response to a TEARDOWN -/

/-- C14, as amended (TEARDOWN completion): when a response is correlated
through the session table to an established session with an active request
(a TEARDOWN like any other request), `on_session_response` is invoked with
that request as the original request and the pipeline advances; the
connection's session table is left as it is and still maps the Session-ID to
the session, whose id is unchanged. -/
theorem C14_teardown_completion (env : NetEnv) (st : State) (c c0 : ConnectionPtr)
    (message : rtsp_message_t) (session : SessionPtr) (active : MessagePtr)
    (r : State × Bool)
    (hr : r = rtsp_client_session_response_process env st c message)
    (htype : message.message_type = RTSP_MESSAGE_TYPE_RESPONSE)
    (hsid : rtsp_header_property_check message.property_set RTSP_HEADER_FIELD_SESSION_ID = true)
    (hhit : apr_hash_get (st.connections c).session_table (apr_hash_key message.session_id) =
      some session)
    (hactive : (st.sessions session).active_request = some active)
    (hbound : (st.sessions session).connection = some c0) :
    response_callbacks session r.1.trace = response_callbacks session st.trace ++ [active] ∧
    r.1.connections = st.connections ∧
    apr_hash_get (r.1.connections c).session_table (apr_hash_key message.session_id) =
      some session ∧
    (r.1.sessions session).id = (st.sessions session).id ∧
    (r.1.sessions session).active_request = (st.sessions session).request_queue.head? ∧
    (r.1.sessions session).request_queue = (st.sessions session).request_queue.tail := by
  have ht : message.message_type ≠ RTSP_MESSAGE_TYPE_REQUEST := by rw [htype]; decide
  have hfind := session_find_hit st c message session hhit
  have hf2 : (rtsp_client_session_find st c message).2 = some session := by rw [hfind]
  have ha : ((rtsp_client_session_find st c message).1.sessions session).active_request =
      some active := by rw [hfind]; exact hactive
  cases hq : (st.sessions session).request_queue with
  | nil =>
    have hq1 : ((rtsp_client_session_find st c message).1.sessions session).request_queue =
        [] := by rw [hfind]; exact hq
    rw [hr, response_process_last env st c message session active ht hsid hf2 ha hq1, hfind]
    exact ⟨by simp, rfl, hhit, by simp, by simp, by simp [hq]⟩
  | cons next rest =>
    have hq1 : ((rtsp_client_session_find st c message).1.sessions session).request_queue =
        next :: rest := by rw [hfind]; exact hq
    rw [hr, response_process_next env st c message session active next rest ht hsid hf2 ha hq1,
      hfind]
    simp only []
    rw [request_process_bound env _ session next c0 (by simp [hbound])]
    exact ⟨by simp, rfl, hhit, by simp, by simp, by simp⟩

/-- Witness for C14 (scenario S1): session `ABC123`, TEARDOWN (message 3)
active with CSeq 3, `200 OK` with CSeq 3: the callback carries the TEARDOWN
and the table still maps `ABC123` to session 0. -/
theorem C14_teardown_completion_witness :
    (scenario_teardown_active.messages 3).method_id = RTSP_METHOD_TEARDOWN ∧
    (scenario_teardown_active.messages 3).cseq = 3 ∧
    (scenario_teardown_active.sessions 0).active_request = some 3 ∧
    response_callbacks 0 (rtsp_client_session_response_process env_ok scenario_teardown_active
      0 (scenario_response 3 "ABC123")).1.trace = [0, 1, 3] ∧
    apr_hash_get ((rtsp_client_session_response_process env_ok scenario_teardown_active
      0 (scenario_response 3 "ABC123")).1.connections 0).session_table "ABC123" = some 0 := by
  have h := C14_teardown_completion env_ok scenario_teardown_active 0 0
    (scenario_response 3 "ABC123") 0 3 _ rfl (by decide) (by decide) (by decide) (by decide)
    (by decide)
  refine ⟨by decide, by decide, by decide, ?_, h.2.2.1⟩
  rw [h.1]
  decide

/-- Counterexample to C14 as stated (scenario S1): after the `200 OK` with
CSeq 3 that answers the TEARDOWN of session `ABC123`, the session table of
connection 0 still holds the entry for `ABC123`, and the only call made is
`on_session_response` with the TEARDOWN. -/
theorem C14_teardown_completion_counterexample :
    ((rtsp_client_session_response_process env_ok scenario_teardown_active
      0 (scenario_response 3 "ABC123")).1.connections 0).session_table = [("ABC123", 0)] ∧
    (rtsp_client_session_response_process env_ok scenario_teardown_active
      0 (scenario_response 3 "ABC123")).1.trace =
      scenario_teardown_active.trace ++
        [Output.on_session_response 0 3 (scenario_response 3 "ABC123")] := by
  decide

/-! ## C15 and C16: disconnect -/

/-- What `rtsp_client_on_disconnect` does to the connection list and to the
trace. -/
theorem on_disconnect_effects (st : State) (c : ConnectionPtr) :
    (rtsp_client_on_disconnect st c).connection_list =
      (if (st.connection_list.getD []).erase c = [] then none
        else some ((st.connection_list.getD []).erase c)) ∧
    (rtsp_client_on_disconnect st c).trace =
      st.trace ++
        (if (st.connections c).session_table = [] then [Output.connection_destroy c] else []) ∧
    (rtsp_client_on_disconnect st c).next_connection = st.next_connection := by
  unfold rtsp_client_on_disconnect
  simp only [apr_hash_count]
  refine ⟨?_, ?_, ?_⟩
  · split <;> simp [List.isEmpty_iff]
  · by_cases h : (st.connections c).session_table = [] <;> simp [h]
  · split <;> rfl

/-- C15, as amended (disconnect with live sessions): when `on_disconnect` is
reported for a listed connection whose session table still holds sessions,
the connection is removed from the connection list and nothing else happens:
the connection is not released (`apt_net_client_connection_destroy` is not
called), and the sessions, the session table and the pending queue stay as
they are. -/
theorem C15_disconnect_live_sessions (st : State) (c : ConnectionPtr)
    (l : List ConnectionPtr) (hl : st.connection_list = some l)
    (hlive : (st.connections c).session_table ≠ []) :
    (rtsp_client_on_disconnect st c).connection_list =
      (if l.erase c = [] then none else some (l.erase c)) ∧
    (rtsp_client_on_disconnect st c).trace = st.trace ∧
    (rtsp_client_on_disconnect st c).sessions = st.sessions ∧
    (rtsp_client_on_disconnect st c).connections = st.connections := by
  obtain ⟨h1, h2, _⟩ := on_disconnect_effects st c
  obtain ⟨h3, h4, _⟩ := on_disconnect_sessions st c
  refine ⟨?_, ?_, h3, h4⟩
  · rw [h1, hl]; rfl
  · rw [h2]; simp [hlive]

/-- Witness for C15 (scenario S5): session `DEF456` established on
connection 0, then disconnect: the connection list becomes empty, the trace
does not change and the table still holds the session. -/
theorem C15_disconnect_live_sessions_witness :
    scenario_def456.connection_list = some [0] ∧
    (scenario_def456.connections 0).session_table ≠ [] ∧
    (rtsp_client_on_disconnect scenario_def456 0).connection_list = none ∧
    (rtsp_client_on_disconnect scenario_def456 0).trace = scenario_def456.trace ∧
    ((rtsp_client_on_disconnect scenario_def456 0).connections 0).session_table =
      [("DEF456", 0)] := by
  have h := C15_disconnect_live_sessions scenario_def456 0 [0] (by decide) (by decide)
  refine ⟨by decide, by decide, ?_, h.2.1, ?_⟩
  · rw [h.1]; decide
  · rw [h.2.2.2]; decide

/-- Counterexample to C15 as stated (scenario S5): with session `DEF456`
established on connection 0 and `terminating` false, the disconnect of
connection 0 adds nothing to the trace: no callback reports the session and
`apt_net_client_connection_destroy` is not called. -/
theorem C15_disconnect_live_sessions_counterexample :
    (scenario_def456.sessions 0).terminating = false ∧
    apr_hash_get (scenario_def456.connections 0).session_table "DEF456" = some 0 ∧
    (rtsp_client_on_disconnect scenario_def456 0).trace = scenario_def456.trace ∧
    Output.connection_destroy 0 ∉ (rtsp_client_on_disconnect scenario_def456 0).trace := by
  decide

/-- C16 (disconnect bookkeeping): for a connection of the connection list,
`rtsp_client_on_disconnect` removes that connection from the list (one
element less, the others stay in their order and number) and resets the list
to none when it becomes empty; it calls `apt_net_client_connection_destroy`
for the connection if and only if its session table is empty, and makes no
other call; sessions and connections stay as they are. -/
theorem C16_disconnect_bookkeeping (st : State) (c : ConnectionPtr)
    (l : List ConnectionPtr) (hl : st.connection_list = some l) (hc : c ∈ l) :
    (rtsp_client_on_disconnect st c).connection_list =
      (if l.erase c = [] then none else some (l.erase c)) ∧
    (l.erase c).length + 1 = l.length ∧
    (l.erase c).Sublist l ∧
    (l.erase c).count c + 1 = l.count c ∧
    (∀ x, x ≠ c → (l.erase c).count x = l.count x) ∧
    (rtsp_client_on_disconnect st c).trace =
      st.trace ++
        (if (st.connections c).session_table = [] then [Output.connection_destroy c] else []) ∧
    (Output.connection_destroy c ∈
        (if (st.connections c).session_table = [] then [Output.connection_destroy c] else []) ↔
      (st.connections c).session_table = []) ∧
    (rtsp_client_on_disconnect st c).sessions = st.sessions ∧
    (rtsp_client_on_disconnect st c).connections = st.connections := by
  obtain ⟨h1, h2, _⟩ := on_disconnect_effects st c
  obtain ⟨h3, h4, _⟩ := on_disconnect_sessions st c
  have hpos : 0 < l.count c := List.count_pos_iff.mpr hc
  have hlen : 0 < l.length := List.length_pos_of_mem hc
  refine ⟨?_, ?_, List.erase_sublist c l, ?_, ?_, h2, ?_, h3, h4⟩
  · rw [h1, hl]; rfl
  · rw [List.length_erase_of_mem hc]; omega
  · rw [List.count_erase_self]; omega
  · intro x hx
    exact List.count_erase_of_ne hx l
  · by_cases h : (st.connections c).session_table = [] <;> simp [h]

/-- Witness for C16: connection 0 of the setup scenario is the only listed
connection and its session table is empty (the session is pending); the
disconnect empties the list and destroys the connection. -/
theorem C16_disconnect_bookkeeping_witness :
    scenario_setup_pending.connection_list = some [0] ∧
    (rtsp_client_on_disconnect scenario_setup_pending 0).connection_list = none ∧
    (rtsp_client_on_disconnect scenario_setup_pending 0).trace =
      scenario_setup_pending.trace ++ [Output.connection_destroy 0] := by
  have h := C16_disconnect_bookkeeping scenario_setup_pending 0 [0] (by decide) (by decide)
  refine ⟨by decide, ?_, ?_⟩
  · rw [h.1]; decide
  · rw [h.2.2.2.2.2.1]
    have ht : (scenario_setup_pending.connections 0).session_table = [] := by decide
    rw [ht]
    rfl

/-! ## C17: connect failure -/

/-- C17 (connect failure): in every state reached from freshly created
sessions, for a detached session and any message, when
`apt_net_client_connect` returns null `rtsp_client_connection_create` and
`rtsp_client_session_request_process` return `FALSE`; the only trace entry
added is the failed connect attempt (nothing is encoded or sent), no
connection is added to the connection list or allocated, the session stays
detached and is in no pending queue, and `last_cseq`, the other session
fields and the message (its url and cseq) are unchanged. -/
theorem C17_connect_failure (params : SessionPtr → String × Nat × String)
    (messages : MessagePtr → rtsp_message_t) (events : List Event) (env : NetEnv)
    (session : SessionPtr) (message : MessagePtr) (st : State) (r : State × Bool)
    (hst : st = rtsp_client_run params messages events)
    (hr : r = rtsp_client_session_request_process env st session message)
    (hdetached : (st.sessions session).connection = none)
    (hfail : env.connect = none) :
    (rtsp_client_connection_create env st session).2 = false ∧
    r.2 = false ∧
    r.1.trace = st.trace ++
      [Output.connect (st.sessions session).server_ip.buf (st.sessions session).server_port
        none] ∧
    requests_sent session r.1.trace = requests_sent session st.trace ∧
    r.1.connection_list = st.connection_list ∧
    r.1.next_connection = st.next_connection ∧
    r.1.connections = st.connections ∧
    r.1.sessions = st.sessions ∧
    (r.1.sessions session).connection = none ∧
    (r.1.sessions session).last_cseq = (st.sessions session).last_cseq ∧
    r.1.messages = st.messages ∧
    (∀ c, session ∉ (r.1.connections c).pending_session_queue) := by
  have hb : BindInv st := by rw [hst]; exact BindInv.reachable params messages events
  rw [hr, request_process_connect_failed env st session message hdetached hfail]
  refine ⟨by simp [rtsp_client_connection_create, hfail], rfl, rfl, by simp, rfl, rfl, rfl, rfl,
    hdetached, rfl, rfl, ?_⟩
  intro c hmem
  have hsome := hb.1 c session hmem
  rw [hdetached] at hsome
  exact Option.noConfusion hsome

/-- Witness for C17: the SETUP of the fresh session 0 is dispatched while
`apt_net_client_connect` returns null. -/
theorem C17_connect_failure_witness :
    (scenario_init.sessions 0).connection = none ∧
    env_connect_failed.connect = none ∧
    (rtsp_client_session_request_process env_connect_failed scenario_init 0 0).2 = false ∧
    (rtsp_client_session_request_process env_connect_failed scenario_init 0 0).1.trace =
      [Output.connect "10.0.0.1" 554 none] ∧
    (rtsp_client_session_request_process env_connect_failed scenario_init 0 0).1.messages 0 =
      scenario_request RTSP_METHOD_SETUP := by
  have h := C17_connect_failure scenario_params scenario_messages [] env_connect_failed 0 0
    scenario_init _ rfl rfl (by decide) (by decide)
  refine ⟨by decide, by decide, h.2.1, ?_, ?_⟩
  · rw [h.2.2.1]; decide
  · rw [h.2.2.2.2.2.2.2.2.2.2.1]; decide

/-! ## C18: parse failure -/

/-- C18 (parse failure): for a message on which the decoder fails, the loop
body of `rtsp_client_message_receive` builds a `400 Bad Request` response
from the message the parser left and hands it to the sender on the same
connection; that is the only trace entry added (no application callback),
and sessions, connections, the connection list and the request messages are
unchanged.  The loop then goes on with the text left after the parser
position, or ends. -/
theorem C18_parse_failure (parse : Decoder) (env : Nat → NetEnv) (fuel i : Nat) (st : State)
    (c : ConnectionPtr) (text : List Char) (hfail : (parse text).status = false) :
    rtsp_client_message_receive_one parse (env i) st c text =
      { st with
        trace := st.trace ++
          [Output.response c
            (rtsp_response_create (parse text).message RTSP_STATUS_CODE_BAD_REQUEST
              RTSP_REASON_PHRASE_BAD_REQUEST)
            (rtsp_client_message_send (env i) (st.connections c))] } ∧
    (rtsp_response_create (parse text).message RTSP_STATUS_CODE_BAD_REQUEST
      RTSP_REASON_PHRASE_BAD_REQUEST).status_code.value = 400 ∧
    (rtsp_response_create (parse text).message RTSP_STATUS_CODE_BAD_REQUEST
      RTSP_REASON_PHRASE_BAD_REQUEST).message_type = RTSP_MESSAGE_TYPE_RESPONSE ∧
    (∀ s, response_callbacks s (rtsp_client_message_receive_one parse (env i) st c text).trace =
      response_callbacks s st.trace) ∧
    (rtsp_client_message_receive_one parse (env i) st c text).sessions = st.sessions ∧
    (rtsp_client_message_receive_one parse (env i) st c text).connections = st.connections ∧
    rtsp_client_message_receive_loop parse env (fuel + 1) i st c text =
      (if text.length > (parse text).pos then
        rtsp_client_message_receive_loop parse env fuel (i + 1)
          (rtsp_client_message_receive_one parse (env i) st c text) c
          (text.drop (parse text).pos)
      else some (rtsp_client_message_receive_one parse (env i) st c text)) := by
  have hone : rtsp_client_message_receive_one parse (env i) st c text =
      { st with
        trace := st.trace ++
          [Output.response c
            (rtsp_response_create (parse text).message RTSP_STATUS_CODE_BAD_REQUEST
              RTSP_REASON_PHRASE_BAD_REQUEST)
            (rtsp_client_message_send (env i) (st.connections c))] } := by
    simp [rtsp_client_message_receive_one, hfail]
  refine ⟨hone, ?_, ?_, ?_, ?_, ?_, rfl⟩
  · unfold rtsp_response_create
    split <;> rfl
  · unfold rtsp_response_create
    split <;> rfl
  · intro s
    rw [hone]
    simp
  · rw [hone]
  · rw [hone]

/-- Witness for C18: a buffer that the decoder rejects as a whole, received
on the connection of the established session: `rtsp_client_message_receive`
returns `TRUE` after sending one `400 Bad Request`. -/
theorem C18_parse_failure_witness :
    (scenario_reject_all ['x', 'y']).status = false ∧
    rtsp_client_message_receive scenario_reject_all (fun _ => env_ok) 1 scenario_established 0
      (some ['x', 'y']) =
      some (rtsp_client_message_receive_one scenario_reject_all env_ok scenario_established 0
        ['x', 'y'], true) ∧
    (rtsp_client_message_receive_one scenario_reject_all env_ok scenario_established 0
      ['x', 'y']).trace =
      scenario_established.trace ++
        [Output.response 0
          { rtsp_message_create RTSP_MESSAGE_TYPE_RESPONSE with
            status_code := RTSP_STATUS_CODE_BAD_REQUEST
            reason := RTSP_REASON_PHRASE_BAD_REQUEST }
          true] := by
  have h := C18_parse_failure scenario_reject_all (fun _ => env_ok) 0 0 scenario_established 0
    ['x', 'y'] (by decide)
  refine ⟨by decide, ?_, ?_⟩
  · have hsock : (scenario_established.connections 0).sock = true := by decide
    have hloop := h.2.2.2.2.2.2
    have hpos : ¬ (['x', 'y'].length > (scenario_reject_all ['x', 'y']).pos) := by decide
    rw [if_neg hpos] at hloop
    simp [rtsp_client_message_receive, hsock, hloop]
  · rw [h.1]
    decide

/-! ## C19: response to a pending SETUP -/

/-- C19, as amended (response to a pending SETUP): in every state reached
from freshly created sessions, for a session in the pending queue of a
connection with an active request, a response whose CSeq equals the
session's `last_cseq` is handled by its Session-ID header alone, whatever its
status code.  With a Session-ID header the session is promoted (it takes the
Session-ID, leaves the pending queue and enters the session table),
`on_session_response` is invoked with the active request and the pipeline
advances; without a Session-ID header the response is dropped: nothing
changes and no callback is made. -/
theorem C19_failed_setup (params : SessionPtr → String × Nat × String)
    (messages : MessagePtr → rtsp_message_t) (events : List Event) (env : NetEnv)
    (c : ConnectionPtr) (message : rtsp_message_t) (session : SessionPtr)
    (active : MessagePtr) (st : State) (r : State × Bool)
    (hst : st = rtsp_client_run params messages events)
    (hr : r = rtsp_client_session_response_process env st c message)
    (htype : message.message_type = RTSP_MESSAGE_TYPE_RESPONSE)
    (hmem : session ∈ (st.connections c).pending_session_queue)
    (hcseq : (st.sessions session).last_cseq = message.cseq)
    (hactive : (st.sessions session).active_request = some active) :
    (rtsp_header_property_check message.property_set RTSP_HEADER_FIELD_SESSION_ID = true →
      response_callbacks session r.1.trace = response_callbacks session st.trace ++ [active] ∧
      (r.1.sessions session).id = message.session_id ∧
      session ∉ (r.1.connections c).pending_session_queue ∧
      apr_hash_get (r.1.connections c).session_table (apr_hash_key message.session_id) =
        some session ∧
      (r.1.sessions session).active_request = (st.sessions session).request_queue.head?) ∧
    (rtsp_header_property_check message.property_set RTSP_HEADER_FIELD_SESSION_ID = false →
      r = (st, true)) := by
  have ht : message.message_type ≠ RTSP_MESSAGE_TYPE_REQUEST := by rw [htype]; decide
  refine ⟨?_, ?_⟩
  · intro hsid
    obtain ⟨h1, _, h3⟩ : BindInv st := by
      rw [hst]; exact BindInv.reachable params messages events
    have hlen := h3 c
    have hbound := h1 c session hmem
    have hq : (st.connections c).pending_session_queue = [] ++ session :: [] := by
      cases hl : (st.connections c).pending_session_queue with
      | nil => rw [hl] at hmem; simp at hmem
      | cons a l =>
        rw [hl] at hmem hlen
        cases l with
        | nil => simp at hmem; simp [hmem]
        | cons b l2 => simp at hlen; omega
    have htab : (st.connections c).session_table = [] := by
      cases htb : (st.connections c).session_table with
      | nil => rfl
      | cons a l => rw [htb, hq] at hlen; simp at hlen
    have hmiss : apr_hash_get (st.connections c).session_table
        (apr_hash_key message.session_id) = none := by
      rw [htab]; rfl
    have hscan := pending_session_scan_split st.sessions message.cseq [] [] session hcseq
      (by simp)
    rw [← hq] at hscan
    have hfind := session_find_promote st c message session _ hmiss hscan
    have hf2 : (rtsp_client_session_find st c message).2 = some session := by rw [hfind]
    have ha : ((rtsp_client_session_find st c message).1.sessions session).active_request =
        some active := by rw [hfind]; simp [hactive]
    cases hqq : (st.sessions session).request_queue with
    | nil =>
      have hq1 : ((rtsp_client_session_find st c message).1.sessions session).request_queue =
          [] := by rw [hfind]; simp [hqq]
      rw [hr, response_process_last env st c message session active ht hsid hf2 ha hq1, hfind]
      exact ⟨by simp, by simp, by simp, by simp [apr_hash_get_set_same], by simp⟩
    | cons next rest =>
      have hq1 : ((rtsp_client_session_find st c message).1.sessions session).request_queue =
          next :: rest := by rw [hfind]; simp [hqq]
      rw [hr, response_process_next env st c message session active next rest ht hsid hf2 ha hq1,
        hfind]
      simp only []
      rw [request_process_bound env _ session next c (by simp [hbound])]
      exact ⟨by simp, by simp, by simp, by simp [apr_hash_get_set_same], by simp⟩
  · intro hsid
    rw [hr, response_process_no_session_id env st c message ht hsid]

/-- Witness for C19: the SETUP of session 0 is pending with CSeq 1 and a
`404 Not Found` with CSeq 1 and Session `XYZ` arrives. -/
theorem C19_failed_setup_witness :
    (0 : SessionPtr) ∈ (scenario_setup_pending.connections 0).pending_session_queue ∧
    (scenario_error_response 1 (some "XYZ")).status_code.value = 404 ∧
    response_callbacks 0 (rtsp_client_session_response_process env_ok scenario_setup_pending 0
      (scenario_error_response 1 (some "XYZ"))).1.trace = [0] ∧
    ((rtsp_client_session_response_process env_ok scenario_setup_pending 0
      (scenario_error_response 1 (some "XYZ"))).1.sessions 0).active_request = none ∧
    rtsp_client_session_response_process env_ok scenario_setup_pending 0
      (scenario_error_response 1 none) = (scenario_setup_pending, true) := by
  have h := C19_failed_setup scenario_params scenario_messages [Event.SendMessage 0 0 env_ok]
    env_ok 0 (scenario_error_response 1 (some "XYZ")) 0 0 scenario_setup_pending _ rfl rfl
    (by decide) (by decide) (by decide) (by decide)
  have h0 := C19_failed_setup scenario_params scenario_messages [Event.SendMessage 0 0 env_ok]
    env_ok 0 (scenario_error_response 1 none) 0 0 scenario_setup_pending _ rfl rfl
    (by decide) (by decide) (by decide) (by decide)
  have ha := h.1 (by decide)
  refine ⟨by decide, by decide, ?_, ?_, h0.2 (by decide)⟩
  · rw [ha.1]; decide
  · rw [ha.2.2.2.2]; decide

/-- Counterexample to C19 as stated: with the SETUP of session 0 pending
(CSeq 1), a `404 Not Found` with CSeq 1 and Session `XYZ` establishes the
session (id `XYZ`, entry in the session table, pending queue empty); the same
response without a Session-ID header invokes no callback and leaves the SETUP
as the active request. -/
theorem C19_failed_setup_counterexample :
    (scenario_error_response 1 (some "XYZ")).status_code = RTSP_STATUS_CODE_NOT_FOUND ∧
    ((rtsp_client_session_response_process env_ok scenario_setup_pending 0
      (scenario_error_response 1 (some "XYZ"))).1.sessions 0).id = apt_string_assign "XYZ" ∧
    ((rtsp_client_session_response_process env_ok scenario_setup_pending 0
      (scenario_error_response 1 (some "XYZ"))).1.connections 0).session_table =
      [("XYZ", 0)] ∧
    ((rtsp_client_session_response_process env_ok scenario_setup_pending 0
      (scenario_error_response 1 (some "XYZ"))).1.connections 0).pending_session_queue = [] ∧
    (rtsp_client_session_response_process env_ok scenario_setup_pending 0
      (scenario_error_response 1 none)).1.trace = scenario_setup_pending.trace ∧
    ((rtsp_client_session_response_process env_ok scenario_setup_pending 0
      (scenario_error_response 1 none)).1.sessions 0).active_request = some 0 := by
  decide

/-! ## C20: Session-ID on outbound requests -/

theorem property_check_add_other (property_set : rtsp_header_property_t)
    (id other : rtsp_header_field_id) (h : other ≠ id) :
    rtsp_header_property_check (rtsp_header_property_add property_set id) other =
      rtsp_header_property_check property_set other := by
  unfold rtsp_header_property_check rtsp_header_property_add
  by_cases hm : id ∈ property_set
  · simp [hm]
  · simp [hm, h]

/-- C20, as amended (Session-ID on outbound requests): a request dispatched
for a session bound to a connection, established or not, is handed to the
sender with the Session-ID and the Session-ID header marking it had when it
was submitted: `rtsp_client_session_request_process` sets the url, the CSeq
and the CSeq header marking and nothing else, whatever the id of the
session. -/
theorem C20_session_id_on_requests (env : NetEnv) (st : State) (session : SessionPtr)
    (message : MessagePtr) (c0 : ConnectionPtr) (r : State × Bool)
    (hr : r = rtsp_client_session_request_process env st session message)
    (hbound : (st.sessions session).connection = some c0) :
    r.1.trace = st.trace ++ [Output.request session c0 message (r.1.messages message) r.2] ∧
    (r.1.messages message).session_id = (st.messages message).session_id ∧
    rtsp_header_property_check (r.1.messages message).property_set
        RTSP_HEADER_FIELD_SESSION_ID =
      rtsp_header_property_check (st.messages message).property_set
        RTSP_HEADER_FIELD_SESSION_ID ∧
    r.1.messages message =
      { st.messages message with
        url := (rtsp_client_session_url_generate (st.sessions session) (st.messages message)).url
        cseq := ((st.sessions session).last_cseq + 1) % APR_SIZE_MODULUS
        property_set :=
          rtsp_header_property_add (st.messages message).property_set RTSP_HEADER_FIELD_CSEQ } ∧
    (r.1.sessions session).id = (st.sessions session).id := by
  rw [hr, request_process_bound env st session message c0 hbound]
  refine ⟨by simp, by simp [stamped_request, rtsp_client_session_url_generate], ?_, ?_, by simp⟩
  · simp only [Function.update_same]
    exact property_check_add_other _ _ _ (by decide)
  · simp [stamped_request, rtsp_client_session_url_generate]

/-- Witness for C20 (scenario S1): session 0 is established under `ABC123`
and the PLAY (message 1), built without a Session header, is dispatched. -/
theorem C20_session_id_on_requests_witness :
    (scenario_established.sessions 0).connection = some 0 ∧
    ((rtsp_client_session_request_process env_ok scenario_established 0 1).1.messages 1).cseq =
      2 ∧
    ((rtsp_client_session_request_process env_ok scenario_established 0 1).1.messages
      1).session_id = apt_string_reset ∧
    rtsp_header_property_check
      ((rtsp_client_session_request_process env_ok scenario_established 0 1).1.messages
        1).property_set RTSP_HEADER_FIELD_SESSION_ID = false := by
  have h := C20_session_id_on_requests env_ok scenario_established 0 1 0 _ rfl (by decide)
  refine ⟨by decide, ?_, ?_, ?_⟩
  · rw [h.2.2.2.1]; decide
  · rw [h.2.1]; decide
  · rw [h.2.2.1]; decide

/-- Counterexample to C20 as stated (scenario S1): after the SETUP was
answered with Session `ABC123`, the submitted PLAY is handed to the sender
with CSeq 2 but without a Session header: its Session-ID is empty and the
Session-ID header is not marked present. -/
theorem C20_session_id_on_requests_counterexample :
    (scenario_established.sessions 0).id = apt_string_assign "ABC123" ∧
    (step scenario_established (Event.SendMessage 0 1 env_ok)).trace =
      scenario_established.trace ++
        [Output.request 0 0 1
          { scenario_request RTSP_METHOD_PLAY with
            url := apt_string_assign "rtsp://10.0.0.1:554/media/audio"
            cseq := 2
            property_set := [RTSP_HEADER_FIELD_CSEQ] }
          true] ∧
    rtsp_header_property_check
      ((step scenario_established (Event.SendMessage 0 1 env_ok)).messages 1).property_set
      RTSP_HEADER_FIELD_SESSION_ID = false ∧
    ((step scenario_established (Event.SendMessage 0 1 env_ok)).messages 1).session_id =
      apt_string_reset := by
  decide

/-! ## C21 and C22: responses that reach no request -/

/-- C21 (spurious response): for a response whose Session-ID is a key of the
connection's session table and whose target session has no active request,
`rtsp_client_session_response_process` returns `FALSE` and leaves the state
as it is: the trace is unchanged (no `on_session_response`, nothing sent)
and so are the request queue, `last_cseq` and id of the session and the
table and pending queue of the connection. -/
theorem C21_spurious_response (env : NetEnv) (st : State) (c : ConnectionPtr)
    (message : rtsp_message_t) (session : SessionPtr)
    (htype : message.message_type = RTSP_MESSAGE_TYPE_RESPONSE)
    (hsid : rtsp_header_property_check message.property_set RTSP_HEADER_FIELD_SESSION_ID = true)
    (hhit : apr_hash_get (st.connections c).session_table (apr_hash_key message.session_id) =
      some session)
    (hidle : (st.sessions session).active_request = none) :
    rtsp_client_session_response_process env st c message = (st, false) ∧
    (rtsp_client_session_response_process env st c message).2 = false ∧
    (rtsp_client_session_response_process env st c message).1.trace = st.trace ∧
    ((rtsp_client_session_response_process env st c message).1.sessions session).request_queue =
      (st.sessions session).request_queue ∧
    ((rtsp_client_session_response_process env st c message).1.sessions session).last_cseq =
      (st.sessions session).last_cseq ∧
    ((rtsp_client_session_response_process env st c message).1.sessions session).id =
      (st.sessions session).id ∧
    (rtsp_client_session_response_process env st c message).1.connections c =
      st.connections c := by
  have ht : message.message_type ≠ RTSP_MESSAGE_TYPE_REQUEST := by rw [htype]; decide
  have hfind := session_find_hit st c message session hhit
  have hr : rtsp_client_session_response_process env st c message = (st, false) := by
    rw [response_process_spurious env st c message session ht hsid (by rw [hfind])
      (by rw [hfind]; exact hidle), hfind]
  rw [hr]
  exact ⟨rfl, rfl, rfl, rfl, rfl, rfl, rfl⟩

/-- Witness for C21: session 0 is established under `ABC123` and idle; a
second `200 OK` for `ABC123` is spurious. -/
theorem C21_spurious_response_witness :
    (scenario_established.sessions 0).active_request = none ∧
    rtsp_client_session_response_process env_ok scenario_established 0
      (scenario_response 1 "ABC123") = (scenario_established, false) :=
  ⟨by decide,
    (C21_spurious_response env_ok scenario_established 0 (scenario_response 1 "ABC123") 0
      (by decide) (by decide) (by decide) (by decide)).1⟩

/-- C22 (untargeted response is dropped): a response without a Session-ID
header, or whose Session-ID is not in the connection's session table while
no session of the pending queue has `last_cseq` equal to its CSeq, makes
`rtsp_client_session_response_process` return `TRUE` with the state as it
was: the trace is unchanged (no callback, nothing sent) and so are all
sessions and connections. -/
theorem C22_untargeted_response (env : NetEnv) (st : State) (c : ConnectionPtr)
    (message : rtsp_message_t)
    (htype : message.message_type = RTSP_MESSAGE_TYPE_RESPONSE)
    (hdrop :
      rtsp_header_property_check message.property_set RTSP_HEADER_FIELD_SESSION_ID = false ∨
      (apr_hash_get (st.connections c).session_table (apr_hash_key message.session_id) = none ∧
        ∀ t ∈ (st.connections c).pending_session_queue,
          (st.sessions t).last_cseq ≠ message.cseq)) :
    rtsp_client_session_response_process env st c message = (st, true) ∧
    (rtsp_client_session_response_process env st c message).2 = true ∧
    (rtsp_client_session_response_process env st c message).1.trace = st.trace ∧
    (rtsp_client_session_response_process env st c message).1.sessions = st.sessions ∧
    (rtsp_client_session_response_process env st c message).1.connections = st.connections := by
  have ht : message.message_type ≠ RTSP_MESSAGE_TYPE_REQUEST := by rw [htype]; decide
  have hr : rtsp_client_session_response_process env st c message = (st, true) := by
    cases hp : rtsp_header_property_check message.property_set RTSP_HEADER_FIELD_SESSION_ID with
    | false => exact response_process_no_session_id env st c message ht hp
    | true =>
      rcases hdrop with h | ⟨hmiss, hnone⟩
      · rw [hp] at h; exact Bool.noConfusion h
      · have hfind := session_find_miss st c message hmiss
          (pending_session_scan_none _ _ _ hnone)
        rw [response_process_no_target env st c message ht hp (by rw [hfind]), hfind]
  rw [hr]
  exact ⟨rfl, rfl, rfl, rfl, rfl⟩

/-- Witness for C22: with the SETUP of session 0 pending (CSeq 1), a `200 OK`
with CSeq 9 and Session `ABC123` matches no session and is dropped. -/
theorem C22_untargeted_response_witness :
    (scenario_setup_pending.sessions 0).active_request = some 0 ∧
    rtsp_client_session_response_process env_ok scenario_setup_pending 0
      (scenario_response 9 "ABC123") = (scenario_setup_pending, true) :=
  ⟨by decide,
    (C22_untargeted_response env_ok scenario_setup_pending 0 (scenario_response 9 "ABC123")
      (by decide) (Or.inr ⟨by decide, by decide⟩)).1⟩

/-! ## C23: first match in the pending queue -/

/-- Dispatching a request changes no session id, and no connection other
than the one the next allocation returns. -/
theorem request_process_live_frame (env : NetEnv) (st : State) (session : SessionPtr)
    (message : MessagePtr) :
    (∀ t, ((rtsp_client_session_request_process env st session message).1.sessions t).id =
      (st.sessions t).id) ∧
    (∀ c, c ≠ st.next_connection →
      (rtsp_client_session_request_process env st session message).1.connections c =
        st.connections c) := by
  cases hc : (st.sessions session).connection with
  | some c0 =>
    rw [request_process_bound env st session message c0 hc]
    refine ⟨?_, fun _ _ => rfl⟩
    intro t
    by_cases ht : t = session
    · subst ht; simp
    · simp [Function.update_noteq ht]
  | none =>
    cases he : env.connect with
    | none =>
      rw [request_process_connect_failed env st session message hc he]
      exact ⟨fun _ => rfl, fun _ _ => rfl⟩
    | some sock =>
      rw [request_process_connect_ok env st session message sock hc he]
      refine ⟨?_, ?_⟩
      · intro t
        by_cases ht : t = session
        · subst ht; simp
        · simp [Function.update_noteq ht]
      · intro c hlive
        simp [Function.update_noteq hlive]

/-- Promotion on a live connection followed by the rest of the response
processing: whatever happens to the active request of the promoted session,
the connection keeps the new queue and table, the promoted session keeps the
Session-ID of the response and the ids of the other sessions are unchanged. -/
theorem response_process_promote_live (env : NetEnv) (st : State) (c : ConnectionPtr)
    (message : rtsp_message_t) (session : SessionPtr) (queue : List SessionPtr)
    (ht : message.message_type ≠ RTSP_MESSAGE_TYPE_REQUEST)
    (hp : rtsp_header_property_check message.property_set RTSP_HEADER_FIELD_SESSION_ID = true)
    (hmiss : apr_hash_get (st.connections c).session_table (apr_hash_key message.session_id) =
      none)
    (hscan : pending_session_scan st.sessions message.cseq
      (st.connections c).pending_session_queue = some (session, queue))
    (hlive : c ≠ st.next_connection) :
    (rtsp_client_session_response_process env st c message).1.connections c =
      { st.connections c with
        pending_session_queue := queue
        session_table := apr_hash_set (st.connections c).session_table
          (apr_hash_key message.session_id) session } ∧
    ((rtsp_client_session_response_process env st c message).1.sessions session).id =
      message.session_id ∧
    (∀ t, t ≠ session →
      ((rtsp_client_session_response_process env st c message).1.sessions t).id =
        (st.sessions t).id) := by
  have hfind := session_find_promote st c message session queue hmiss hscan
  have hf2 : (rtsp_client_session_find st c message).2 = some session := by rw [hfind]
  cases ha : ((rtsp_client_session_find st c message).1.sessions session).active_request with
  | none =>
    rw [response_process_spurious env st c message session ht hp hf2 ha, hfind]
    refine ⟨by simp, by simp, ?_⟩
    intro t hne
    simp [Function.update_noteq hne]
  | some active =>
    cases hq : ((rtsp_client_session_find st c message).1.sessions session).request_queue with
    | nil =>
      rw [response_process_last env st c message session active ht hp hf2 ha hq, hfind]
      refine ⟨by simp, by simp, ?_⟩
      intro t hne
      simp [Function.update_noteq hne]
    | cons next rest =>
      rw [response_process_next env st c message session active next rest ht hp hf2 ha hq,
        hfind]
      simp only []
      obtain ⟨hid, hconn⟩ := request_process_live_frame env
        { connection_list := st.connection_list
          sessions := Function.update
            (Function.update st.sessions session
              { st.sessions session with id := message.session_id }) session
            { Function.update st.sessions session
                { st.sessions session with id := message.session_id } session with
              active_request := some next, request_queue := rest }
          connections := Function.update st.connections c
            { st.connections c with
              pending_session_queue := queue
              session_table := apr_hash_set (st.connections c).session_table
                (apr_hash_key message.session_id) session }
          messages := st.messages
          next_connection := st.next_connection
          trace := st.trace ++ [Output.on_session_response session active message] }
        session next
      refine ⟨?_, ?_, ?_⟩
      · rw [hconn c hlive]; simp
      · rw [hid session]; simp
      · intro t hne
        rw [hid t]; simp [Function.update_noteq hne]

/-- C23 (first match wins): for a response carrying a Session-ID that misses
the session table of a connection, if the pending queue is
`pre ++ session :: post` where `session` has `last_cseq` equal to the CSeq of
the response and no session of `pre` has, then `session` alone is promoted,
whatever sessions of `post` match as well: it receives the Session-ID, leaves
the queue and enters the session table; the queue becomes `pre ++ post` (the
other pending sessions, in their order), the table gains no other session and
the ids of all other sessions are unchanged.  The connection is a live one:
its pointer is not the one the next allocation returns. -/
theorem C23_first_match_wins (env : NetEnv) (st : State) (c : ConnectionPtr)
    (message : rtsp_message_t) (session : SessionPtr) (pre post : List SessionPtr)
    (r : State × Bool)
    (hr : r = rtsp_client_session_response_process env st c message)
    (htype : message.message_type = RTSP_MESSAGE_TYPE_RESPONSE)
    (hsid : rtsp_header_property_check message.property_set RTSP_HEADER_FIELD_SESSION_ID = true)
    (hmiss : apr_hash_get (st.connections c).session_table (apr_hash_key message.session_id) =
      none)
    (hqueue : (st.connections c).pending_session_queue = pre ++ session :: post)
    (hmatch : (st.sessions session).last_cseq = message.cseq)
    (hfirst : ∀ t ∈ pre, (st.sessions t).last_cseq ≠ message.cseq)
    (hlive : c ≠ st.next_connection) :
    (r.1.sessions session).id = message.session_id ∧
    (r.1.connections c).pending_session_queue = pre ++ post ∧
    (r.1.connections c).session_table =
      apr_hash_set (st.connections c).session_table (apr_hash_key message.session_id) session ∧
    apr_hash_get (r.1.connections c).session_table (apr_hash_key message.session_id) =
      some session ∧
    (∀ e ∈ (r.1.connections c).session_table,
      e.2 = session ∨ e ∈ (st.connections c).session_table) ∧
    (∀ t, t ≠ session → (r.1.sessions t).id = (st.sessions t).id) := by
  have ht : message.message_type ≠ RTSP_MESSAGE_TYPE_REQUEST := by rw [htype]; decide
  have hscan := pending_session_scan_split st.sessions message.cseq pre post session hmatch
    hfirst
  rw [← hqueue] at hscan
  obtain ⟨r1, r2, r3⟩ :=
    response_process_promote_live env st c message session _ ht hsid hmiss hscan hlive
  rw [hr]
  refine ⟨r2, by rw [r1], by rw [r1], by rw [r1]; simp [apr_hash_get_set_same], ?_, r3⟩
  intro e he
  rw [r1] at he
  rcases apr_hash_set_mem _ _ _ e he with h | h
  · exact Or.inl (by rw [h])
  · exact Or.inr h

/-- Witness for C23: the pending queue of connection 0 is 2, 0, 1; sessions
0 and 1 both have `last_cseq` 1 and session 2 has 5.  The `200 OK` with
CSeq 1 and Session `ABC123` promotes session 0 only; sessions 2 and 1 stay
pending, in that order, without an id. -/
theorem C23_first_match_wins_witness :
    (scenario_three_pending.sessions 0).last_cseq = 1 ∧
    (scenario_three_pending.sessions 1).last_cseq = 1 ∧
    ((rtsp_client_session_response_process env_ok scenario_three_pending 0
      (scenario_response 1 "ABC123")).1.sessions 0).id = apt_string_assign "ABC123" ∧
    ((rtsp_client_session_response_process env_ok scenario_three_pending 0
      (scenario_response 1 "ABC123")).1.connections 0).pending_session_queue = [2, 1] ∧
    ((rtsp_client_session_response_process env_ok scenario_three_pending 0
      (scenario_response 1 "ABC123")).1.connections 0).session_table = [("ABC123", 0)] ∧
    ((rtsp_client_session_response_process env_ok scenario_three_pending 0
      (scenario_response 1 "ABC123")).1.sessions 1).id = apt_string_reset := by
  have h := C23_first_match_wins env_ok scenario_three_pending 0
    (scenario_response 1 "ABC123") 0 [2] [1] _ rfl (by decide) (by decide) (by decide)
    (by decide) (by decide) (by decide) (by decide)
  refine ⟨by decide, by decide, h.1, h.2.1, ?_, ?_⟩
  · rw [h.2.2.1]; decide
  · rw [h.2.2.2.2.2 1 (by decide)]; decide

/-! ## C24: termination of the receive loop -/

/-- The loop of `rtsp_client_message_receive` applies its body to the texts
handed to the decoder, in order. -/
theorem receive_loop_eq_fold (parse : Decoder) (env : Nat → NetEnv) (c : ConnectionPtr) :
    ∀ (fuel i : Nat) (st : State) (text : List Char),
      rtsp_client_message_receive_loop parse env fuel i st c text =
        (decoded_texts parse fuel text).map
          (fun l => rtsp_client_message_receive_fold parse env i st c l) := by
  intro fuel
  induction fuel with
  | zero => intro i st text; rfl
  | succ n ih =>
    intro i st text
    simp only [rtsp_client_message_receive_loop, decoded_texts]
    by_cases hmore : text.length > (parse text).pos
    · rw [if_pos hmore, if_pos hmore, ih]
      cases decoded_texts parse n (text.drop (parse text).pos) with
      | none => rfl
      | some rest => rfl
    · rw [if_neg hmore, if_neg hmore]
      rfl

/-- What the list of decoded texts looks like: it starts with the received
text, has at most `fuel` elements, each next text is what the parser left of
the one before, and the parser position reaches or passes the end of the
last one only. -/
theorem decoded_texts_spec (parse : Decoder) :
    ∀ (fuel : Nat) (text : List Char) (l : List (List Char)),
      decoded_texts parse fuel text = some l →
      l.head? = some text ∧ l.length ≤ fuel ∧
      l.Chain' (fun a b => a.length > (parse a).pos ∧ b = a.drop (parse a).pos) ∧
      ∀ t, l.getLast? = some t → t.length ≤ (parse t).pos := by
  intro fuel
  induction fuel with
  | zero => intro text l h; simp [decoded_texts] at h
  | succ n ih =>
    intro text l h
    simp only [decoded_texts] at h
    by_cases hmore : text.length > (parse text).pos
    · rw [if_pos hmore] at h
      cases hrest : decoded_texts parse n (text.drop (parse text).pos) with
      | none => rw [hrest] at h; exact Option.noConfusion h
      | some rest =>
        rw [hrest] at h
        have hl : l = text :: rest := (Option.some.inj h).symm
        subst hl
        obtain ⟨h1, h2, h3, h4⟩ := ih _ rest hrest
        refine ⟨rfl, by simp; omega, ?_, ?_⟩
        · rw [List.chain'_cons']
          refine ⟨?_, h3⟩
          intro y hy
          rw [h1] at hy
          have hy' : List.drop (parse text).pos text = y := by simpa using hy
          exact ⟨hmore, hy'.symm⟩
        · intro t ht
          cases rest with
          | nil => simp at h1
          | cons a rest2 =>
            rw [List.getLast?_cons_cons] at ht
            exact h4 t ht
    · rw [if_neg hmore] at h
      have hl : l = [text] := (Option.some.inj h).symm
      subst hl
      refine ⟨rfl, by simp, List.chain'_singleton _, ?_⟩
      intro t ht
      have htt : text = t := by simpa using ht
      subst htt
      omega

/-- With a decoder that advances by at least one byte on every non-empty
text, as many decode calls as the text has bytes suffice. -/
theorem decoded_texts_terminates (parse : Decoder)
    (hadv : ∀ t : List Char, t ≠ [] → 1 ≤ (parse t).pos) :
    ∀ (fuel : Nat) (text : List Char), text ≠ [] → text.length ≤ fuel →
      ∃ l, decoded_texts parse fuel text = some l ∧ l.length ≤ text.length := by
  intro fuel
  induction fuel with
  | zero =>
    intro text hne hlen
    have : text.length = 0 := by omega
    exact absurd (List.length_eq_zero.mp this) hne
  | succ n ih =>
    intro text hne hlen
    have hpos := hadv text hne
    simp only [decoded_texts]
    by_cases hmore : text.length > (parse text).pos
    · rw [if_pos hmore]
      have hdl : (text.drop (parse text).pos).length = text.length - (parse text).pos :=
        List.length_drop _ _
      have hne2 : text.drop (parse text).pos ≠ [] := by
        intro h0
        rw [h0] at hdl
        simp at hdl
        omega
      obtain ⟨rest, hr, hrl⟩ := ih (text.drop (parse text).pos) hne2 (by omega)
      rw [hr]
      exact ⟨text :: rest, rfl, by simp; omega⟩
    · rw [if_neg hmore]
      have h1 : 1 ≤ text.length := List.length_pos.mpr hne
      exact ⟨[text], rfl, by simpa using h1⟩

/-- More fuel than needed does not change the list of decoded texts. -/
theorem decoded_texts_fuel (parse : Decoder) :
    ∀ (fuel : Nat) (text : List Char) (l : List (List Char)),
      decoded_texts parse fuel text = some l →
      ∀ more, fuel ≤ more → decoded_texts parse more text = some l := by
  intro fuel
  induction fuel with
  | zero => intro text l h; simp [decoded_texts] at h
  | succ n ih =>
    intro text l h more hmore
    cases more with
    | zero => omega
    | succ m =>
      simp only [decoded_texts] at h ⊢
      by_cases hm : text.length > (parse text).pos
      · rw [if_pos hm] at h ⊢
        cases hrest : decoded_texts parse n (text.drop (parse text).pos) with
        | none => rw [hrest] at h; exact Option.noConfusion h
        | some rest =>
          rw [hrest] at h
          rw [ih _ rest hrest m (by omega)]
          exact h
      · rw [if_neg hm] at h ⊢
        exact h

/-- C24 (receive loop termination): for a received buffer of length n >= 1
and a decoder that advances the stream position by at least one byte on
every non-empty text, whether it succeeds or fails, the do-while loop of
`rtsp_client_message_receive` ends within n decode calls (fuel n suffices,
more fuel gives the same result) and the function returns; the loop body is
applied to the decoded texts in order, the first being the whole buffer and
each next one the suffix left by the parser position of the one before, and
the loop stops at the first text whose parser position reaches or passes its
end. -/
theorem C24_receive_loop_termination (parse : Decoder) (env : Nat → NetEnv) (i : Nat)
    (st : State) (c : ConnectionPtr) (text : List Char)
    (hadv : ∀ t : List Char, t ≠ [] → 1 ≤ (parse t).pos) (hn : 1 ≤ text.length) :
    (rtsp_client_message_receive_loop parse env text.length i st c text).isSome = true ∧
    (rtsp_client_message_receive parse env text.length st c (some text)).isSome = true ∧
    (∀ fuel, text.length ≤ fuel →
      rtsp_client_message_receive_loop parse env fuel i st c text =
        rtsp_client_message_receive_loop parse env text.length i st c text) ∧
    rtsp_client_message_receive_loop parse env text.length i st c text =
      (decoded_texts parse text.length text).map
        (fun l => rtsp_client_message_receive_fold parse env i st c l) ∧
    (∀ l, decoded_texts parse text.length text = some l →
      l.length ≤ text.length ∧ l.head? = some text ∧
      l.Chain' (fun a b => a.length > (parse a).pos ∧ b = a.drop (parse a).pos) ∧
      ∀ t, l.getLast? = some t → t.length ≤ (parse t).pos) := by
  have hne : text ≠ [] := List.length_pos.mp hn
  obtain ⟨l, hl, hlen⟩ := decoded_texts_terminates parse hadv text.length text hne (le_refl _)
  have hloop : ∀ j s, rtsp_client_message_receive_loop parse env text.length j s c text =
      some (rtsp_client_message_receive_fold parse env j s c l) := by
    intro j s
    rw [receive_loop_eq_fold, hl]
    rfl
  refine ⟨by rw [hloop]; rfl, ?_, ?_, ?_, ?_⟩
  · unfold rtsp_client_message_receive
    by_cases hsock : (st.connections c).sock = false
    · rw [if_pos hsock]; rfl
    · rw [if_neg hsock]
      have h0 : ¬ text.length = 0 := by omega
      simp only [h0, if_false, hloop]
      rfl
  · intro fuel hfuel
    rw [hloop, receive_loop_eq_fold, decoded_texts_fuel parse _ text l hl fuel hfuel]
    rfl
  · rw [receive_loop_eq_fold]
  · intro l2 hl2
    obtain ⟨h1, _, h3, h4⟩ := decoded_texts_spec parse _ text l2 hl2
    rw [hl] at hl2
    have : l = l2 := Option.some.inj hl2
    subst this
    exact ⟨hlen, h1, h3, h4⟩

/-- Witness for C24: a buffer of two bytes and a decoder that rejects each
text after one byte: two decode calls, on `xy` and on `y`, each answered with
a `400 Bad Request`, and the function returns `TRUE`. -/
theorem C24_receive_loop_termination_witness :
    decoded_texts scenario_reject_byte 2 ['x', 'y'] = some [['x', 'y'], ['y']] ∧
    (rtsp_client_message_receive_loop scenario_reject_byte (fun _ => env_ok) 2 0
      scenario_established 0 ['x', 'y']).isSome = true ∧
    (rtsp_client_message_receive scenario_reject_byte (fun _ => env_ok) 2
      scenario_established 0 (some ['x', 'y'])).isSome = true := by
  have h := C24_receive_loop_termination scenario_reject_byte (fun _ => env_ok) 0
    scenario_established 0 ['x', 'y'] (by intro t _; exact le_refl 1) (by decide)
  exact ⟨by decide, h.1, h.2.1⟩

/-! ## C25: a session stuck after a failed connect -/

/-- While a session has an active request, `SendMessage` steps for it only
extend its request queue. -/
theorem run_send_messages_queued (session : SessionPtr) (active : MessagePtr) :
    ∀ (later : List (MessagePtr × NetEnv)) (st : State),
      (st.sessions session).active_request = some active →
      (run st (send_messages session later)).sessions session =
        { st.sessions session with
          request_queue := (st.sessions session).request_queue ++ later.map Prod.fst } ∧
      (∀ s, s ≠ session → (run st (send_messages session later)).sessions s = st.sessions s) ∧
      (run st (send_messages session later)).trace = st.trace ∧
      (run st (send_messages session later)).connections = st.connections ∧
      (run st (send_messages session later)).messages = st.messages ∧
      (run st (send_messages session later)).connection_list = st.connection_list ∧
      (run st (send_messages session later)).next_connection = st.next_connection := by
  intro later
  induction later with
  | nil =>
    intro st _
    exact ⟨by simp [send_messages, run_nil], fun _ _ => rfl, rfl, rfl, rfl, rfl, rfl⟩
  | cons x rest ih =>
    intro st ha
    have hstep : step st (Event.SendMessage session x.1 x.2) =
        { st with
          sessions := Function.update st.sessions session
            { st.sessions session with
              request_queue := (st.sessions session).request_queue ++ [x.1] } } := by
      show (rtsp_client_session_message_process x.2 st session x.1).1 = _
      rw [message_process_queued x.2 st session x.1 active ha]
    have hrun : run st (send_messages session (x :: rest)) =
        run (step st (Event.SendMessage session x.1 x.2)) (send_messages session rest) := rfl
    have ha1 : ((step st (Event.SendMessage session x.1 x.2)).sessions session).active_request =
        some active := by rw [hstep]; simpa using ha
    obtain ⟨h1, h2, h3, h4, h5, h6, h7⟩ := ih (step st (Event.SendMessage session x.1 x.2)) ha1
    rw [hrun]
    refine ⟨?_, ?_, ?_, ?_, ?_, ?_, ?_⟩
    · rw [h1, hstep]
      simp
    · intro s hs
      rw [h2 s hs, hstep]
      simp [Function.update_noteq hs]
    · rw [h3, hstep]
    · rw [h4, hstep]
    · rw [h5, hstep]
    · rw [h6, hstep]
    · rw [h7, hstep]

/-- C25 (session stuck after a failed connect): for a detached session with
no active request, when `SendMessage{session, m}` fails because
`apt_net_client_connect` returns null, `m` stays the active request; after
any later sequence of `SendMessage` steps for that session, whatever the
net task would answer, `m` is still the active request, the session is still
detached, the later messages are in the request queue in submission order,
and the trace has gained nothing: no request of the session was handed to
the sender and no connect was attempted again. -/
theorem C25_stuck_after_failed_connect (env : NetEnv) (st : State) (session : SessionPtr)
    (m : MessagePtr) (later : List (MessagePtr × NetEnv))
    (hdetached : (st.sessions session).connection = none)
    (hidle : (st.sessions session).active_request = none)
    (hfail : env.connect = none) :
    (rtsp_client_session_message_process env st session m).2 = false ∧
    ((step st (Event.SendMessage session m env)).sessions session).active_request = some m ∧
    (step st (Event.SendMessage session m env)).trace =
      st.trace ++
        [Output.connect (st.sessions session).server_ip.buf (st.sessions session).server_port
          none] ∧
    ((run (step st (Event.SendMessage session m env))
      (send_messages session later)).sessions session).active_request = some m ∧
    ((run (step st (Event.SendMessage session m env))
      (send_messages session later)).sessions session).connection = none ∧
    ((run (step st (Event.SendMessage session m env))
      (send_messages session later)).sessions session).request_queue =
      (st.sessions session).request_queue ++ later.map Prod.fst ∧
    (run (step st (Event.SendMessage session m env)) (send_messages session later)).trace =
      (step st (Event.SendMessage session m env)).trace ∧
    requests_sent session
      (run (step st (Event.SendMessage session m env)) (send_messages session later)).trace =
      requests_sent session st.trace ∧
    (run (step st (Event.SendMessage session m env)) (send_messages session later)).connections =
      st.connections ∧
    (run (step st (Event.SendMessage session m env)) (send_messages session later)).messages =
      st.messages := by
  have hproc : rtsp_client_session_message_process env st session m =
      ({ st with
          sessions := Function.update st.sessions session
            { st.sessions session with active_request := some m }
          trace := st.trace ++
            [Output.connect (st.sessions session).server_ip.buf
              (st.sessions session).server_port none] },
        false) := by
    rw [message_process_idle env st session m hidle,
      request_process_connect_failed env _ session m (by simp [hdetached]) hfail]
    simp
  have hstep : step st (Event.SendMessage session m env) =
      { st with
        sessions := Function.update st.sessions session
          { st.sessions session with active_request := some m }
        trace := st.trace ++
          [Output.connect (st.sessions session).server_ip.buf
            (st.sessions session).server_port none] } := by
    show (rtsp_client_session_message_process env st session m).1 = _
    rw [hproc]
  have hact : ((step st (Event.SendMessage session m env)).sessions session).active_request =
      some m := by rw [hstep]; simp
  obtain ⟨h1, _, h3, h4, h5, _, _⟩ :=
    run_send_messages_queued session m later (step st (Event.SendMessage session m env)) hact
  refine ⟨by rw [hproc], hact, by rw [hstep], ?_, ?_, ?_, h3, ?_, ?_, ?_⟩
  · rw [h1]; exact hact
  · rw [h1, hstep]; simp [hdetached]
  · rw [h1, hstep]; simp
  · rw [h3, hstep]; simp
  · rw [h4, hstep]
  · rw [h5, hstep]

/-- Witness for C25: the SETUP of the fresh session 0 meets a failed connect;
PLAY and PAUSE submitted afterwards, with a net task that would now connect,
are only queued. -/
theorem C25_stuck_after_failed_connect_witness :
    (scenario_init.sessions 0).connection = none ∧
    (scenario_init.sessions 0).active_request = none ∧
    ((run (step scenario_init (Event.SendMessage 0 0 env_connect_failed))
      (send_messages 0 [(1, env_ok), (2, env_ok)])).sessions 0).active_request = some 0 ∧
    ((run (step scenario_init (Event.SendMessage 0 0 env_connect_failed))
      (send_messages 0 [(1, env_ok), (2, env_ok)])).sessions 0).request_queue = [1, 2] ∧
    (run (step scenario_init (Event.SendMessage 0 0 env_connect_failed))
      (send_messages 0 [(1, env_ok), (2, env_ok)])).trace =
      [Output.connect "10.0.0.1" 554 none] := by
  have h := C25_stuck_after_failed_connect env_connect_failed scenario_init 0 0
    [(1, env_ok), (2, env_ok)] (by decide) (by decide) (by decide)
  refine ⟨by decide, by decide, h.2.2.2.1, ?_, ?_⟩
  · rw [h.2.2.2.2.2.1]; decide
  · rw [h.2.2.2.2.2.2.1, h.2.2.1]; decide

end RtspClient
